import Mathlib

/-!
Verification of the SO(3) conversion utilities of `relie/utils/so3_tools.py`
(repository jaredlafer/relie) against its natural-language specification.

The Python module operates on batched torch tensors; all mask-based batched
branch writes act independently per batch element, so the embedding models a
single batch element.  Scalars are embedded as real numbers (the module
requires double precision throughout); tensor division, `sqrt` and `acos`
follow real semantics in the pure model below, and a second model (`RF`,
an `Option ℝ` carrying `none` for IEEE NaN) is used where claims are about
NaN-producing inputs (0/0 divisions).
-/

open Real Matrix

open scoped Classical

noncomputable section

abbrev V3 := Fin 3 → ℝ

abbrev M3 := Matrix (Fin 3) (Fin 3) ℝ

/-- torch.clamp(x, lo, hi) (for lo ≤ hi): min(max(x, lo), hi). -/
def clamp (x lo hi : ℝ) : ℝ := max lo (min x hi)

/-- Euclidean norm of a 3-vector, as computed by `v.norm(p=2, dim=-1)`. -/
def norm3 (v : V3) : ℝ := Real.sqrt (v 0 ^ 2 + v 1 ^ 2 + v 2 ^ 2)

/-- Basis matrix `e_x` of `so3_hat`. -/
def e_x : M3 := !![0, 0, 0; 0, 0, -1; 0, 1, 0]

/-- Basis matrix `e_y` of `so3_hat`. -/
def e_y : M3 := !![0, 0, 1; 0, 0, 0; -1, 0, 0]

/-- Basis matrix `e_z` of `so3_hat`. -/
def e_z : M3 := !![0, -1, 0; 1, 0, 0; 0, 0, 0]

/-- `so3_hat(v) = e_x·v₀ + e_y·v₁ + e_z·v₂` (so3_tools.py lines 6-25). -/
def so3_hat (v : V3) : M3 := v 0 • e_x + v 1 • e_y + v 2 • e_z

/-- `so3_vee(x) = (-x₁₂, x₀₂, -x₀₁)` (so3_tools.py lines 28-36). -/
def so3_vee (x : M3) : V3 := ![-x 1 2, x 0 2, -x 0 1]

/-- `so3_exp` (so3_tools.py lines 39-56): Rodrigues formula.  The source
computes `v_normed = v / theta` and then zeroes the rows with
`theta < 1e-20`; per batch element this is the conditional below. -/
def so3_exp (v : V3) : M3 :=
  let theta := norm3 v
  let v_normed : V3 := if theta < 1e-20 then (fun _ => 0) else (fun i => v i / theta)
  let k := so3_hat v_normed
  1 + Real.sin theta • k + (1 - Real.cos theta) • (k * k)

/-- Modelled from the spec: `batch_trace` lives in `relie/utils/numerical.py`,
which is not under src/; the spec (§4.3 step 1) uses it as the matrix trace in
`cos θ = ½(trace(R) − 1)`. -/
def batch_trace (r : M3) : ℝ := Matrix.trace r

/-- Modelled from the spec: `zero_one_outer_product(3)` lives in
`relie/utils/numerical.py`, which is not under src/; per the spec (§4.3 step 4)
the source multiplies its 8 rows in {0,1}³ by 2 and subtracts 1, "generating
all 8 sign-assignments" in {−1,1}³.  The enumeration order is irrelevant to
every theorem below. -/
def signs8 (s : Fin 8) : V3 := fun i => if (s : ℕ).testBit (i : ℕ) then 1 else -1

/-- torch.argmin: the first index attaining the minimum of `f` (strict
comparison in the fold keeps the earliest minimising index). -/
def argminF {n : ℕ} (f : Fin (n + 1) → ℝ) : Fin (n + 1) :=
  (List.finRange (n + 1)).foldl (fun acc s => if f s < f acc then s else acc) 0

/-- torch.argmax: the first index attaining the maximum of `f`. -/
def argmaxF {n : ℕ} (f : Fin (n + 1) → ℝ) : Fin (n + 1) :=
  (List.finRange (n + 1)).foldl (fun acc s => if f acc < f s then s else acc) 0

/-- The matrix `z = θ²/(1−cos θ)·(sym − I)` of `so3_log_pi`
(so3_tools.py lines 96-98), with `sym = ½(r + rᵀ)`. -/
def logPiZ (r : M3) (theta : ℝ) : M3 :=
  (theta ^ 2 / (1 - Real.cos theta)) • ((2⁻¹ : ℝ) • (r + rᵀ) - 1)

/-- The magnitude vector `x = (√((q₁−q₂−q₃)/2), √((−q₁+q₂−q₃)/2),
√((−q₁−q₂+q₃)/2))` of `so3_log_pi` (lines 100-106), where `q_i` are the
diagonal entries of `z`. -/
def logPiX (r : M3) (theta : ℝ) : V3 :=
  let q_1 := logPiZ r theta 0 0
  let q_2 := logPiZ r theta 1 1
  let q_3 := logPiZ r theta 2 2
  ![Real.sqrt ((q_1 - q_2 - q_3) / 2),
    Real.sqrt ((-q_1 + q_2 - q_3) / 2),
    Real.sqrt ((-q_1 - q_2 + q_3) / 2)]

/-- The stack `x_stack = signs · x` of the 8 sign-assignments applied to the
magnitude vector (so3_tools.py lines 109-110). -/
def logPiCand (r : M3) (theta : ℝ) : Fin 8 → V3 :=
  fun s i => signs8 s i * logPiX r theta i

/-- The squared Frobenius round-trip distances `diff` of the 8 candidates
(so3_tools.py lines 111-113). -/
def logPiDiff (r : M3) (theta : ℝ) : Fin 8 → ℝ :=
  fun s => ∑ i, ∑ j, (r i j - so3_exp (logPiCand r theta s) i j) ^ 2

/-- `so3_log_pi` (so3_tools.py lines 88-117): near-π branch of the logarithm.
Derives |x₁|,|x₂|,|x₃| from the diagonal of `z`, then picks among the 8
sign-assignments the one whose exponential is closest (squared Frobenius
distance) to `r`; `torch.argmin` takes the first minimising index. -/
def so3_log_pi (r : M3) (theta : ℝ) : M3 :=
  so3_hat (logPiCand r theta (argminF (logPiDiff r theta)))

/-- The clamped cosine `cos_theta = clamp(½(trace(r) − 1), −1, 1)` of
`so3_log` (so3_tools.py lines 69-70). -/
def logCosTheta (r : M3) : ℝ := clamp ((2⁻¹ : ℝ) * (batch_trace r - 1)) (-1) 1

/-- The angle `theta = acos(cos_theta)` of `so3_log` (so3_tools.py line 71). -/
def logTheta (r : M3) : ℝ := Real.arccos (logCosTheta r)

/-- `so3_log` (so3_tools.py lines 59-85).  Per batch element: the Taylor
replacement of `ratio` applies where `theta < 1e-20`, and the near-π branch,
written back last, overwrites the whole row where `|cos_theta| > 1-1e-5`. -/
def so3_log (r : M3) : M3 :=
  let anti_sym : M3 := (2⁻¹ : ℝ) • (r - rᵀ)
  let theta := logTheta r
  let ratio := if theta < 1e-20 then 1 + theta ^ 2 / 6 else theta / Real.sin theta
  let log := ratio • anti_sym
  if 1 - 1e-5 < |logCosTheta r| then so3_log_pi r theta else log

/-- `so3_xset` (so3_tools.py lines 120-131): index `j` of the output stack
corresponds to `k = j - k_max ∈ [-k_max, k_max]`. -/
def so3_xset (x : V3) (k_max : ℕ) : Fin (2 * k_max + 1) → V3 :=
  fun j i => x i / norm3 x * (norm3 x + 2 * π * ((j : ℕ) - (k_max : ℕ) : ℤ))

/-- `so3_log_abs_det_jacobian` (so3_tools.py lines 134-142). -/
def so3_log_abs_det_jacobian (x : V3) : ℝ :=
  Real.log (2 - 2 * Real.cos (norm3 x)) - Real.log (norm3 x ^ 2)

/-- The four stacked values `denom_pre` of `so3_matrix_to_quaternions`
(so3_tools.py lines 156-162). -/
def quatDenomPre (r : M3) : Fin 4 → ℝ :=
  ![1 + r 0 0 - r 1 1 - r 2 2,
    1 - r 0 0 + r 1 1 - r 2 2,
    1 - r 0 0 - r 1 1 + r 2 2,
    1 + r 0 0 + r 1 1 + r 2 2]

/-- `denom = 0.5·√(1e-6 + |denom_pre|)` (so3_tools.py line 163). -/
def quatDenom (r : M3) : Fin 4 → ℝ :=
  fun i => (2⁻¹ : ℝ) * Real.sqrt (1e-6 + |quatDenomPre r i|)

/-- The four candidate quaternions `case0..case3` (so3_tools.py lines
165-190), stacked. -/
def quatCases (r : M3) : Fin 4 → Fin 4 → ℝ :=
  ![![quatDenom r 0, (r 0 1 + r 1 0) / (4 * quatDenom r 0),
      (r 0 2 + r 2 0) / (4 * quatDenom r 0), (r 1 2 - r 2 1) / (4 * quatDenom r 0)],
    ![(r 0 1 + r 1 0) / (4 * quatDenom r 1), quatDenom r 1,
      (r 1 2 + r 2 1) / (4 * quatDenom r 1), (r 2 0 - r 0 2) / (4 * quatDenom r 1)],
    ![(r 0 2 + r 2 0) / (4 * quatDenom r 2), (r 1 2 + r 2 1) / (4 * quatDenom r 2),
      quatDenom r 2, (r 0 1 - r 1 0) / (4 * quatDenom r 2)],
    ![(r 1 2 - r 2 1) / (4 * quatDenom r 3), (r 2 0 - r 0 2) / (4 * quatDenom r 3),
      (r 0 1 - r 1 0) / (4 * quatDenom r 3), quatDenom r 3]]

/-- `so3_matrix_to_quaternions` (so3_tools.py lines 145-194): four candidate
quaternions, selecting the case of the largest denominator (`torch.argmax`
takes the first maximising index). -/
def so3_matrix_to_quaternions (r : M3) : Fin 4 → ℝ :=
  quatCases r (argmaxF (quatDenom r))

/-- IEEE atan2(y, x), embedded as the argument of the complex number x + iy. -/
def atan2 (y x : ℝ) : ℝ := Complex.arg ⟨x, y⟩

/-- `quaternions_to_eazyz` (so3_tools.py lines 197-208). -/
def quaternions_to_eazyz (q : Fin 4 → ℝ) : Fin 3 → ℝ :=
  ![atan2 (q 1 * q 2 - q 0 * q 3) (q 0 * q 2 + q 1 * q 3),
    Real.arccos (clamp (q 3 ^ 2 - q 0 ^ 2 - q 1 ^ 2 + q 2 ^ 2) (-1 + 1e-6) (1 - 1e-6)),
    atan2 (q 0 * q 3 + q 1 * q 2) (q 1 * q 3 - q 0 * q 2)]

/-- `so3_matrix_to_eazyz` (so3_tools.py lines 211-213). -/
def so3_matrix_to_eazyz (r : M3) : Fin 3 → ℝ :=
  quaternions_to_eazyz (so3_matrix_to_quaternions r)

/-- `quaternions_to_so3_matrix` (so3_tools.py lines 216-225): normalises `q`
and applies the closed-form quaternion-to-matrix formula, with
`(r, i, j, k) = (q₀, q₁, q₂, q₃)` named `(a, b, c, d)` here. -/
def quaternions_to_so3_matrix (q : Fin 4 → ℝ) : M3 :=
  let n := Real.sqrt (q 0 ^ 2 + q 1 ^ 2 + q 2 ^ 2 + q 3 ^ 2)
  let a := q 0 / n
  let b := q 1 / n
  let c := q 2 / n
  let d := q 3 / n
  !![a * a - b * b - c * c + d * d, 2 * (a * b + c * d), 2 * (a * c - b * d);
     2 * (a * b - c * d), -a * a + b * b - c * c + d * d, 2 * (b * c + a * d);
     2 * (a * c + b * d), 2 * (b * c - a * d), -a * a - b * b + c * c + d * d]

/-- The quadratic form of the quaternion-to-matrix formula before
normalisation: `quaternions_to_so3_matrix q = quadQ q / ‖q‖²` (helper for the
round-trip analysis). -/
def quadQ (v : Fin 4 → ℝ) : M3 :=
  !![v 0 * v 0 - v 1 * v 1 - v 2 * v 2 + v 3 * v 3, 2 * (v 0 * v 1 + v 2 * v 3),
       2 * (v 0 * v 2 - v 1 * v 3);
     2 * (v 0 * v 1 - v 2 * v 3), -v 0 * v 0 + v 1 * v 1 - v 2 * v 2 + v 3 * v 3,
       2 * (v 1 * v 2 + v 0 * v 3);
     2 * (v 0 * v 2 + v 1 * v 3), 2 * (v 1 * v 2 - v 0 * v 3),
       -v 0 * v 0 - v 1 * v 1 + v 2 * v 2 + v 3 * v 3]

/-- `_z_rot_mat(angle, l)` (so3_tools.py lines 228-241): `sin` entries on the
anti-diagonal are written first, then `cos` entries on the diagonal (the
diagonal write wins at the centre element); `frequencies[i] = l - i`. -/
def z_rot_mat (l : ℕ) (angle : ℝ) : Matrix (Fin (2 * l + 1)) (Fin (2 * l + 1)) ℝ :=
  fun i j =>
    if j = i then Real.cos (((l : ℝ) - (i : ℕ)) * angle)
    else if (j : ℕ) + (i : ℕ) = 2 * l then Real.sin (((l : ℝ) - (i : ℕ)) * angle)
    else 0

/-- `wigner_d_matrix(angles, degree)` (so3_tools.py lines 262-268):
`Z(α)·J·Z(β)·J·Z(γ)`.  The constant matrix `J` of each degree is loaded by
`JContainer` from the external `lie_learn` Pinchon-Hoggan table, which is not
under src/, so it is a parameter here. -/
def wigner_d_matrix (l : ℕ) (J : Matrix (Fin (2 * l + 1)) (Fin (2 * l + 1)) ℝ)
    (a b c : ℝ) : Matrix (Fin (2 * l + 1)) (Fin (2 * l + 1)) ℝ :=
  z_rot_mat l a * J * z_rot_mat l b * J * z_rot_mat l c

/-- Running offset `start` of `block_wigner_matrix_multiply`: the cumulative
sum of the block sizes `2·degree+1` of the degrees below `l`. -/
def blockStart : ℕ → ℕ
  | 0 => 0
  | l + 1 => blockStart l + (2 * l + 1)

/-- `block_wigner_matrix_multiply(angles, data, max_degree)` (so3_tools.py
lines 271-295), as the list of rows of the output: for each degree
`l = 0..max_degree` the Wigner-D matrix of that degree multiplies the rows
`start..start+2l+1` of `data`, and the blocks are concatenated.  `data` maps
each row index to a row of `m` channels (the tensor may have any number of
rows ≥ the consumed ones; rows are read at the indices the source slices). -/
def block_wigner_matrix_multiply {m : ℕ}
    (Js : (l : ℕ) → Matrix (Fin (2 * l + 1)) (Fin (2 * l + 1)) ℝ)
    (a b c : ℝ) (max_degree : ℕ) (data : ℕ → Fin m → ℝ) : List (Fin m → ℝ) :=
  (List.range (max_degree + 1)).flatMap fun l =>
    List.ofFn fun rowIdx : Fin (2 * l + 1) => fun col =>
      ∑ j : Fin (2 * l + 1),
        wigner_d_matrix l (Js l) a b c rowIdx j * data (blockStart l + (j : ℕ)) col

/-! ### NaN-tracking model

`RF` is a float-like scalar: `some x` is the finite real value `x` and `none`
stands for IEEE NaN (or an infinity; only 0/0, which is NaN, actually arises
below).  Arithmetic propagates `none` exactly as IEEE propagates NaN —
in particular `0 * NaN = NaN` — division by zero gives `none`, the square
root of a negative number gives `none` (as IEEE `sqrt`), `acos` outside
[-1, 1] gives `none`, and every comparison with NaN is false. -/

abbrev RF := Option ℝ

def addN : RF → RF → RF
  | some a, some b => some (a + b)
  | _, _ => none

def subN : RF → RF → RF
  | some a, some b => some (a - b)
  | _, _ => none

def mulN : RF → RF → RF
  | some a, some b => some (a * b)
  | _, _ => none

def divN : RF → RF → RF
  | some a, some b => if b = 0 then none else some (a / b)
  | _, _ => none

def sqrtN : RF → RF
  | some a => if 0 ≤ a then some (Real.sqrt a) else none
  | none => none

def sinN : RF → RF
  | some a => some (Real.sin a)
  | none => none

def cosN : RF → RF
  | some a => some (Real.cos a)
  | none => none

def acosN : RF → RF
  | some a => if -1 ≤ a ∧ a ≤ 1 then some (Real.arccos a) else none
  | none => none

def absN : RF → RF
  | some a => some |a|
  | none => none

def clampN (x : RF) (lo hi : ℝ) : RF :=
  match x with
  | some a => some (clamp a lo hi)
  | none => none

/-- NaN-false comparison `x < c` (false whenever `x` is NaN). -/
def ltN : RF → ℝ → Prop
  | some a, c => a < c
  | none, _ => False

/-- NaN-false comparison `c < x` (false whenever `x` is NaN). -/
def gtN : RF → ℝ → Prop
  | some a, c => c < a
  | none, _ => False

abbrev VN := Fin 3 → RF

abbrev MN := Fin 3 → Fin 3 → RF

/-- Embed an exact vector into the NaN-tracking model. -/
def toVN (v : V3) : VN := fun i => some (v i)

/-- Embed an exact matrix into the NaN-tracking model. -/
def toMN (r : M3) : MN := fun i j => some (r i j)

def traceN (r : MN) : RF := addN (addN (r 0 0) (r 1 1)) (r 2 2)

def mulMatN (p q : MN) : MN := fun i j =>
  addN (addN (mulN (p i 0) (q 0 j)) (mulN (p i 1) (q 1 j))) (mulN (p i 2) (q 2 j))

/-- `so3_hat` in the NaN model; the source elementwise products `e_x * v₀ + …`
turn the structural zeros of the basis matrices into NaN when a component of
`v` is NaN (IEEE `0 * NaN = NaN`), which this sum of products mirrors. -/
def so3_hatN (v : VN) : MN := fun i j =>
  addN (addN (mulN (some (e_x i j)) (v 0)) (mulN (some (e_y i j)) (v 1)))
    (mulN (some (e_z i j)) (v 2))

def norm3N (v : VN) : RF :=
  sqrtN (addN (addN (mulN (v 0) (v 0)) (mulN (v 1) (v 1))) (mulN (v 2) (v 2)))

/-- `so3_exp` in the NaN model (the `theta < 1e-20` mask is false on NaN). -/
def so3_expN (v : VN) : MN :=
  let theta := norm3N v
  let v_normed : VN := fun i => if ltN theta 1e-20 then some 0 else divN (v i) theta
  let k := so3_hatN v_normed
  fun i j =>
    addN (addN (some ((1 : M3) i j)) (mulN (sinN theta) (k i j)))
      (mulN (subN (some 1) (cosN theta)) (mulMatN k k i j))

/-- `so3_vee` in the NaN model. -/
def so3_veeN (x : MN) : VN :=
  ![mulN (some (-1)) (x 1 2), x 0 2, mulN (some (-1)) (x 0 1)]

/-- `so3_log_pi` in the NaN model.  The sign search computes the 8 candidate
vectors `x_stack` exactly as the source does; `torch.argmin` over the 8
round-trip distances (which are all NaN whenever `x` is NaN, making the
selected index implementation-defined) is modelled by the parameter `sel`:
every theorem below holds for all possible selections. -/
def negN : RF → RF
  | some a => some (-a)
  | none => none

def so3_log_piN (sel : Fin 8) (r : MN) (theta : RF) : MN :=
  let sym : MN := fun i j => mulN (some 2⁻¹) (addN (r i j) (r j i))
  let z : MN := fun i j =>
    mulN (divN (mulN theta theta) (subN (some 1) (cosN theta)))
      (subN (sym i j) (some ((1 : M3) i j)))
  let q_1 := z 0 0
  let q_2 := z 1 1
  let q_3 := z 2 2
  let x : VN := ![sqrtN (divN (subN (subN q_1 q_2) q_3) (some 2)),
                  sqrtN (divN (subN (addN (negN q_1) q_2) q_3) (some 2)),
                  sqrtN (divN (addN (subN (negN q_1) q_2) q_3) (some 2))]
  let x_stack : Fin 8 → VN := fun s i => mulN (some (signs8 s i)) (x i)
  so3_hatN (x_stack sel)

/-- `so3_log` in the NaN model (comparisons are NaN-false, matching torch;
`sel` is the near-π sign-selection index, see `so3_log_piN`). -/
def so3_logN (sel : Fin 8) (r : MN) : MN :=
  let anti_sym : MN := fun i j => mulN (some 2⁻¹) (subN (r i j) (r j i))
  let cos_theta := clampN (mulN (some 2⁻¹) (subN (traceN r) (some 1))) (-1) 1
  let theta := acosN cos_theta
  let ratio :=
    if ltN theta 1e-20 then addN (some 1) (divN (mulN theta theta) (some 6))
    else divN theta (sinN theta)
  let log : MN := fun i j => mulN ratio (anti_sym i j)
  if gtN (absN cos_theta) (1 - 1e-5) then so3_log_piN sel r theta else log

/-- `so3_xset` in the NaN model: `x / x_norm * (x_norm + 2πk)`. -/
def so3_xsetN (x : VN) (k_max : ℕ) : Fin (2 * k_max + 1) → VN :=
  fun j i =>
    mulN (divN (x i) (norm3N x))
      (addN (norm3N x) (some (2 * π * ((j : ℕ) - (k_max : ℕ) : ℤ))))

end

/-! ### Helper lemmas -/

theorem clamp_of_le_of_le {x lo hi : ℝ} (h1 : lo ≤ x) (h2 : x ≤ hi) :
    clamp x lo hi = x := by
  unfold clamp
  rw [min_eq_left h2, max_eq_right h1]

theorem clamp_le_hi {x lo hi : ℝ} (h : lo ≤ hi) : clamp x lo hi ≤ hi := by
  unfold clamp
  exact max_le h (min_le_right _ _)

theorem lo_le_clamp {x lo hi : ℝ} : lo ≤ clamp x lo hi := le_max_left _ _

theorem norm3_nonneg (v : V3) : 0 ≤ norm3 v := Real.sqrt_nonneg _

theorem norm3_sq (v : V3) : norm3 v ^ 2 = v 0 ^ 2 + v 1 ^ 2 + v 2 ^ 2 :=
  Real.sq_sqrt (by positivity)

theorem so3_hat_apply (v : V3) :
    so3_hat v = !![0, -v 2, v 1; v 2, 0, -v 0; -v 1, v 0, 0] := by
  funext i j
  fin_cases i <;> fin_cases j <;>
    simp [so3_hat, e_x, e_y, e_z, Matrix.add_apply, Matrix.smul_apply,
      Matrix.cons_val_zero, Matrix.cons_val_one, Matrix.head_cons,
      Matrix.vecHead, Matrix.vecTail, Matrix.cons_val_fin_one]

theorem vee_hat (v : V3) : so3_vee (so3_hat v) = v := by
  funext i
  rw [so3_hat_apply]
  fin_cases i <;> simp [so3_vee]

theorem hat_zero : so3_hat (fun _ => (0 : ℝ)) = 0 := by
  rw [so3_hat_apply]
  ext i j
  fin_cases i <;> fin_cases j <;>
    simp [Matrix.vecHead, Matrix.vecTail, Function.comp]

theorem hat_transpose (v : V3) : (so3_hat v)ᵀ = -so3_hat v := by
  rw [so3_hat_apply]
  ext i j
  fin_cases i <;> fin_cases j <;> simp

theorem hat_smul (c : ℝ) (v : V3) :
    so3_hat (fun i => c * v i) = c • so3_hat v := by
  rw [so3_hat_apply, so3_hat_apply]
  ext i j
  fin_cases i <;> fin_cases j <;> simp [Matrix.smul_apply] <;> ring

theorem hat_mul_hat (v : V3) :
    so3_hat v * so3_hat v =
      Matrix.vecMulVec v v - (v 0 ^ 2 + v 1 ^ 2 + v 2 ^ 2) • 1 := by
  rw [so3_hat_apply]
  ext i j
  fin_cases i <;> fin_cases j <;>
    simp [Matrix.mul_apply, Fin.sum_univ_three, Matrix.vecMulVec_apply,
      Matrix.sub_apply, Matrix.smul_apply, Matrix.one_apply] <;> ring

theorem so3_exp_of_small {v : V3} (h : norm3 v < 1e-20) : so3_exp v = 1 := by
  rw [so3_exp]
  simp only [if_pos h, hat_zero]
  simp

theorem so3_exp_of_ge {v : V3} (h : ¬ norm3 v < 1e-20) :
    so3_exp v =
      1 + Real.sin (norm3 v) • so3_hat (fun i => v i / norm3 v) +
        (1 - Real.cos (norm3 v)) •
          (so3_hat (fun i => v i / norm3 v) * so3_hat (fun i => v i / norm3 v)) := by
  rw [so3_exp]
  simp only [if_neg h]

theorem norm3_pos {v : V3} (h : ¬ norm3 v < 1e-20) : 0 < norm3 v := by
  have : (0 : ℝ) < 1e-20 := by norm_num
  linarith [not_lt.mp h]

theorem unit_axis_sq {v : V3} (hn : norm3 v ≠ 0) :
    (v 0 / norm3 v) ^ 2 + (v 1 / norm3 v) ^ 2 + (v 2 / norm3 v) ^ 2 = 1 := by
  have h := norm3_sq v
  field_simp
  linarith [norm3_sq v]

theorem trace_exp {v : V3} (h : ¬ norm3 v < 1e-20) :
    Matrix.trace (so3_exp v) = 1 + 2 * Real.cos (norm3 v) := by
  have hn : norm3 v ≠ 0 := ne_of_gt (norm3_pos h)
  have hu := unit_axis_sq hn
  rw [so3_exp_of_ge h, hat_mul_hat]
  rw [Matrix.trace_fin_three]
  simp only [Matrix.add_apply, Matrix.smul_apply, Matrix.one_apply,
    Matrix.sub_apply, Matrix.vecMulVec_apply, smul_eq_mul]
  rw [so3_hat_apply]
  simp [Matrix.vecHead, Matrix.vecTail]
  linear_combination (2 * Real.cos (norm3 v) - 2) * hu

theorem exp_antisym {v : V3} (h : ¬ norm3 v < 1e-20) :
    (2⁻¹ : ℝ) • (so3_exp v - (so3_exp v)ᵀ) =
      Real.sin (norm3 v) • so3_hat (fun i => v i / norm3 v) := by
  rw [so3_exp_of_ge h, hat_mul_hat]
  ext i j
  fin_cases i <;> fin_cases j <;>
    · simp only [Matrix.transpose_apply, Matrix.add_apply, Matrix.sub_apply,
        Matrix.smul_apply, Matrix.one_apply, Matrix.vecMulVec_apply, smul_eq_mul]
      rw [so3_hat_apply]
      simp [Matrix.vecHead, Matrix.vecTail]
      try ring

theorem exp_sym {v : V3} (h : ¬ norm3 v < 1e-20) :
    (2⁻¹ : ℝ) • (so3_exp v + (so3_exp v)ᵀ) =
      1 + (1 - Real.cos (norm3 v)) •
        (so3_hat (fun i => v i / norm3 v) * so3_hat (fun i => v i / norm3 v)) := by
  rw [so3_exp_of_ge h, hat_mul_hat]
  ext i j
  fin_cases i <;> fin_cases j <;>
    · simp only [Matrix.transpose_apply, Matrix.add_apply, Matrix.sub_apply,
        Matrix.smul_apply, Matrix.one_apply, Matrix.vecMulVec_apply, smul_eq_mul]
      rw [so3_hat_apply]
      simp [Matrix.vecHead, Matrix.vecTail]
      ring

theorem arccos_lt_pi_of_gt {x : ℝ} (h : -1 < x) : Real.arccos x < π := by
  by_cases hx : x ≤ 1
  · refine lt_of_le_of_ne (Real.arccos_le_pi x) fun heq => ?_
    have := Real.cos_arccos h.le hx
    rw [heq, Real.cos_pi] at this
    exact absurd this.symm (ne_of_gt h)
  · have : Real.arccos x = 0 := Real.arccos_eq_zero.mpr (le_of_not_le hx)
    rw [this]
    exact Real.pi_pos

theorem cos_lt_one_of_pos_of_lt_pi {x : ℝ} (h0 : 0 < x) (hpi : x < π) :
    Real.cos x < 1 := by
  refine lt_of_le_of_ne (Real.cos_le_one x) fun heq => ?_
  have hx2 : x < 2 * π := lt_trans hpi (by linarith [Real.pi_pos])
  have := (Real.cos_eq_one_iff_of_lt_of_lt (by linarith [Real.pi_pos]) hx2).mp heq
  exact absurd this (ne_of_gt h0)

theorem foldl_min_le {α : Type} (f : α → ℝ) (L : List α) (a : α) :
    f (L.foldl (fun acc s => if f s < f acc then s else acc) a) ≤ f a ∧
      ∀ x ∈ L, f (L.foldl (fun acc s => if f s < f acc then s else acc) a) ≤ f x := by
  induction L generalizing a with
  | nil => simp
  | cons hd t ih =>
    simp only [List.foldl_cons]
    rcases ih (if f hd < f a then hd else a) with ⟨h1, h2⟩
    refine ⟨le_trans h1 ?_, ?_⟩
    · split_ifs with hc
      · exact le_of_lt hc
      · exact le_refl _
    · intro x hx
      rcases List.mem_cons.mp hx with rfl | hx
      · refine le_trans h1 ?_
        split_ifs with hc
        · exact le_refl _
        · exact not_lt.mp hc
      · exact h2 x hx

theorem argminF_le {n : ℕ} (f : Fin (n + 1) → ℝ) (t : Fin (n + 1)) :
    f (argminF f) ≤ f t :=
  (foldl_min_le f (List.finRange (n + 1)) 0).2 t (List.mem_finRange t)

theorem signs8_sq (s : Fin 8) (i : Fin 3) : signs8 s i ^ 2 = 1 := by
  unfold signs8
  split_ifs <;> norm_num

theorem sign_exists (v : V3) : ∃ s : Fin 8, ∀ i, signs8 s i * |v i| = v i := by
  have pos : ∀ x : ℝ, 0 ≤ x → (1 : ℝ) * |x| = x := fun x h => by
    rw [one_mul, abs_of_nonneg h]
  have neg : ∀ x : ℝ, x < 0 → (-1 : ℝ) * |x| = x := fun x h => by
    rw [abs_of_neg h]
    ring
  rcases le_or_lt 0 (v 0) with h0 | h0 <;> rcases le_or_lt 0 (v 1) with h1 | h1 <;>
    rcases le_or_lt 0 (v 2) with h2 | h2
  · refine ⟨7, fun i => ?_⟩
    fin_cases i
    · show signs8 7 0 * |v 0| = v 0
      rw [show signs8 7 0 = 1 from rfl]
      exact pos _ h0
    · show signs8 7 1 * |v 1| = v 1
      rw [show signs8 7 1 = 1 from rfl]
      exact pos _ h1
    · show signs8 7 2 * |v 2| = v 2
      rw [show signs8 7 2 = 1 from rfl]
      exact pos _ h2
  · refine ⟨3, fun i => ?_⟩
    fin_cases i
    · show signs8 3 0 * |v 0| = v 0
      rw [show signs8 3 0 = 1 from rfl]
      exact pos _ h0
    · show signs8 3 1 * |v 1| = v 1
      rw [show signs8 3 1 = 1 from rfl]
      exact pos _ h1
    · show signs8 3 2 * |v 2| = v 2
      rw [show signs8 3 2 = -1 from rfl]
      exact neg _ h2
  · refine ⟨5, fun i => ?_⟩
    fin_cases i
    · show signs8 5 0 * |v 0| = v 0
      rw [show signs8 5 0 = 1 from rfl]
      exact pos _ h0
    · show signs8 5 1 * |v 1| = v 1
      rw [show signs8 5 1 = -1 from rfl]
      exact neg _ h1
    · show signs8 5 2 * |v 2| = v 2
      rw [show signs8 5 2 = 1 from rfl]
      exact pos _ h2
  · refine ⟨1, fun i => ?_⟩
    fin_cases i
    · show signs8 1 0 * |v 0| = v 0
      rw [show signs8 1 0 = 1 from rfl]
      exact pos _ h0
    · show signs8 1 1 * |v 1| = v 1
      rw [show signs8 1 1 = -1 from rfl]
      exact neg _ h1
    · show signs8 1 2 * |v 2| = v 2
      rw [show signs8 1 2 = -1 from rfl]
      exact neg _ h2
  · refine ⟨6, fun i => ?_⟩
    fin_cases i
    · show signs8 6 0 * |v 0| = v 0
      rw [show signs8 6 0 = -1 from rfl]
      exact neg _ h0
    · show signs8 6 1 * |v 1| = v 1
      rw [show signs8 6 1 = 1 from rfl]
      exact pos _ h1
    · show signs8 6 2 * |v 2| = v 2
      rw [show signs8 6 2 = 1 from rfl]
      exact pos _ h2
  · refine ⟨2, fun i => ?_⟩
    fin_cases i
    · show signs8 2 0 * |v 0| = v 0
      rw [show signs8 2 0 = -1 from rfl]
      exact neg _ h0
    · show signs8 2 1 * |v 1| = v 1
      rw [show signs8 2 1 = 1 from rfl]
      exact pos _ h1
    · show signs8 2 2 * |v 2| = v 2
      rw [show signs8 2 2 = -1 from rfl]
      exact neg _ h2
  · refine ⟨4, fun i => ?_⟩
    fin_cases i
    · show signs8 4 0 * |v 0| = v 0
      rw [show signs8 4 0 = -1 from rfl]
      exact neg _ h0
    · show signs8 4 1 * |v 1| = v 1
      rw [show signs8 4 1 = -1 from rfl]
      exact neg _ h1
    · show signs8 4 2 * |v 2| = v 2
      rw [show signs8 4 2 = 1 from rfl]
      exact pos _ h2
  · refine ⟨0, fun i => ?_⟩
    fin_cases i
    · show signs8 0 0 * |v 0| = v 0
      rw [show signs8 0 0 = -1 from rfl]
      exact neg _ h0
    · show signs8 0 1 * |v 1| = v 1
      rw [show signs8 0 1 = -1 from rfl]
      exact neg _ h1
    · show signs8 0 2 * |v 2| = v 2
      rw [show signs8 0 2 = -1 from rfl]
      exact neg _ h2

theorem logPiZ_exp {v : V3} (h1 : ¬ norm3 v < 1e-20) (h2 : norm3 v < π) :
    logPiZ (so3_exp v) (norm3 v) =
      norm3 v ^ 2 •
        (Matrix.vecMulVec (fun i => v i / norm3 v) (fun i => v i / norm3 v) - 1) := by
  have ht0 : 0 < norm3 v := norm3_pos h1
  have hne : norm3 v ≠ 0 := ne_of_gt ht0
  have hcos : Real.cos (norm3 v) < 1 := cos_lt_one_of_pos_of_lt_pi ht0 h2
  have hden : (1 : ℝ) - Real.cos (norm3 v) ≠ 0 := ne_of_gt (by linarith)
  have hu := unit_axis_sq hne
  unfold logPiZ
  rw [exp_sym h1]
  simp only [hat_mul_hat]
  rw [show ((fun i => v i / norm3 v) 0) ^ 2 + ((fun i => v i / norm3 v) 1) ^ 2 +
      ((fun i => v i / norm3 v) 2) ^ 2 = 1 from hu, one_smul, add_sub_cancel_left,
    smul_smul, div_mul_cancel₀ _ hden]

theorem logPiX_exp {v : V3} (h1 : ¬ norm3 v < 1e-20) (h2 : norm3 v < π) :
    logPiX (so3_exp v) (norm3 v) = ![|v 0|, |v 1|, |v 2|] := by
  have ht0 : 0 < norm3 v := norm3_pos h1
  have hne : norm3 v ≠ 0 := ne_of_gt ht0
  have ht2 := norm3_sq v
  have hz := logPiZ_exp h1 h2
  funext i
  have hzd : ∀ j : Fin 3, logPiZ (so3_exp v) (norm3 v) j j =
      norm3 v ^ 2 * (v j / norm3 v * (v j / norm3 v) - 1) := by
    intro j
    rw [hz]
    simp [Matrix.smul_apply, Matrix.sub_apply, Matrix.vecMulVec_apply,
      Matrix.one_apply]
  unfold logPiX
  simp only [hzd]
  fin_cases i
  · show Real.sqrt _ = |v 0|
    rw [show (norm3 v ^ 2 * (v 0 / norm3 v * (v 0 / norm3 v) - 1) -
        norm3 v ^ 2 * (v 1 / norm3 v * (v 1 / norm3 v) - 1) -
        norm3 v ^ 2 * (v 2 / norm3 v * (v 2 / norm3 v) - 1)) / 2 = v 0 ^ 2 by
      field_simp
      linear_combination norm3 v ^ 2 * ht2]
    exact Real.sqrt_sq_eq_abs _
  · show Real.sqrt _ = |v 1|
    rw [show (-(norm3 v ^ 2 * (v 0 / norm3 v * (v 0 / norm3 v) - 1)) +
        norm3 v ^ 2 * (v 1 / norm3 v * (v 1 / norm3 v) - 1) -
        norm3 v ^ 2 * (v 2 / norm3 v * (v 2 / norm3 v) - 1)) / 2 = v 1 ^ 2 by
      field_simp
      linear_combination norm3 v ^ 6 * ht2]
    exact Real.sqrt_sq_eq_abs _
  · show Real.sqrt _ = |v 2|
    rw [show (-(norm3 v ^ 2 * (v 0 / norm3 v * (v 0 / norm3 v) - 1)) -
        norm3 v ^ 2 * (v 1 / norm3 v * (v 1 / norm3 v) - 1) +
        norm3 v ^ 2 * (v 2 / norm3 v * (v 2 / norm3 v) - 1)) / 2 = v 2 ^ 2 by
      field_simp
      linear_combination norm3 v ^ 6 * ht2]
    exact Real.sqrt_sq_eq_abs _

theorem logPiCand_exp {v : V3} (h1 : ¬ norm3 v < 1e-20) (h2 : norm3 v < π)
    (s : Fin 8) :
    logPiCand (so3_exp v) (norm3 v) s = fun i => signs8 s i * |v i| := by
  funext i
  unfold logPiCand
  rw [logPiX_exp h1 h2]
  fin_cases i <;> simp

theorem norm3_cand {v : V3} (h1 : ¬ norm3 v < 1e-20) (h2 : norm3 v < π)
    (s : Fin 8) :
    norm3 (logPiCand (so3_exp v) (norm3 v) s) = norm3 v := by
  rw [logPiCand_exp h1 h2]
  unfold norm3
  congr 1
  have e : ∀ i : Fin 3, (signs8 s i * |v i|) ^ 2 = v i ^ 2 := fun i => by
    rw [mul_pow, signs8_sq, one_mul, sq_abs]
  simp only [e]

theorem exp_injective_of_norm_eq {v w : V3} (h1 : ¬ norm3 v < 1e-20)
    (h2 : norm3 v < π) (hnorm : norm3 w = norm3 v)
    (hexp : so3_exp w = so3_exp v) : w = v := by
  have h1w : ¬ norm3 w < 1e-20 := by rw [hnorm]; exact h1
  have ha := exp_antisym h1w
  have hb := exp_antisym h1
  rw [hexp, hnorm] at ha
  have hkey : Real.sin (norm3 v) • so3_hat (fun i => w i / norm3 v) =
      Real.sin (norm3 v) • so3_hat (fun i => v i / norm3 v) := ha.symm.trans hb
  have hsin : Real.sin (norm3 v) ≠ 0 :=
    ne_of_gt (Real.sin_pos_of_pos_of_lt_pi (norm3_pos h1) h2)
  have hhat : so3_hat (fun i => w i / norm3 v) = so3_hat (fun i => v i / norm3 v) :=
    smul_right_injective M3 hsin hkey
  have hvee := congrArg so3_vee hhat
  rw [vee_hat, vee_hat] at hvee
  funext i
  have hi := congrFun hvee i
  simp only at hi
  have hne : norm3 v ≠ 0 := ne_of_gt (norm3_pos h1)
  field_simp at hi
  exact hi

theorem so3_log_pi_exp {v : V3} (h1 : ¬ norm3 v < 1e-20) (h2 : norm3 v < π) :
    so3_log_pi (so3_exp v) (norm3 v) = so3_hat v := by
  obtain ⟨s₀, hs₀⟩ := sign_exists v
  have hcand₀ : logPiCand (so3_exp v) (norm3 v) s₀ = v := by
    rw [logPiCand_exp h1 h2]
    funext i
    exact hs₀ i
  have hd0 : logPiDiff (so3_exp v) (norm3 v) s₀ = 0 := by
    unfold logPiDiff
    rw [hcand₀]
    simp
  have hdnn : ∀ s, 0 ≤ logPiDiff (so3_exp v) (norm3 v) s := fun s =>
    Finset.sum_nonneg fun i _ => Finset.sum_nonneg fun j _ => sq_nonneg _
  set sel := argminF (logPiDiff (so3_exp v) (norm3 v)) with hsel
  have hdsel : logPiDiff (so3_exp v) (norm3 v) sel = 0 :=
    le_antisymm (hd0 ▸ argminF_le (logPiDiff (so3_exp v) (norm3 v)) s₀) (hdnn sel)
  have hexpsel : so3_exp (logPiCand (so3_exp v) (norm3 v) sel) = so3_exp v := by
    unfold logPiDiff at hdsel
    ext i j
    have houter := (Finset.sum_eq_zero_iff_of_nonneg fun i _ =>
      Finset.sum_nonneg fun j _ => sq_nonneg _).mp hdsel i (Finset.mem_univ i)
    have hinner := (Finset.sum_eq_zero_iff_of_nonneg fun j _ =>
      sq_nonneg _).mp houter j (Finset.mem_univ j)
    have := pow_eq_zero_iff (n := 2) (by norm_num) |>.mp hinner
    linarith [sub_eq_zero.mp this]
  have hcandsel : logPiCand (so3_exp v) (norm3 v) sel = v :=
    exp_injective_of_norm_eq h1 h2 (norm3_cand h1 h2 sel) hexpsel
  unfold so3_log_pi
  rw [← hsel, hcandsel]

theorem logCosTheta_exp {v : V3} (h1 : ¬ norm3 v < 1e-20) :
    logCosTheta (so3_exp v) = Real.cos (norm3 v) := by
  unfold logCosTheta batch_trace
  rw [trace_exp h1]
  rw [show (2⁻¹ : ℝ) * (1 + 2 * Real.cos (norm3 v) - 1) = Real.cos (norm3 v) by ring]
  exact clamp_of_le_of_le (Real.neg_one_le_cos _) (Real.cos_le_one _)

theorem logTheta_exp {v : V3} (h1 : ¬ norm3 v < 1e-20) (h2 : norm3 v < π) :
    logTheta (so3_exp v) = norm3 v := by
  unfold logTheta
  rw [logCosTheta_exp h1]
  exact Real.arccos_cos (norm3_pos h1).le h2.le

theorem so3_log_exp {v : V3} (h1 : ¬ norm3 v < 1e-20) (h2 : norm3 v < π) :
    so3_log (so3_exp v) = so3_hat v := by
  have ht0 := norm3_pos h1
  have hne : norm3 v ≠ 0 := ne_of_gt ht0
  simp only [so3_log, logTheta_exp h1 h2]
  rw [if_neg h1]
  by_cases hpi : 1 - 1e-5 < |logCosTheta (so3_exp v)|
  · rw [if_pos hpi]
    exact so3_log_pi_exp h1 h2
  · rw [if_neg hpi]
    rw [exp_antisym h1, smul_smul]
    have hsin : Real.sin (norm3 v) ≠ 0 :=
      ne_of_gt (Real.sin_pos_of_pos_of_lt_pi ht0 h2)
    rw [div_mul_cancel₀ _ hsin]
    rw [show (fun i => v i / norm3 v) = fun i => (norm3 v)⁻¹ * v i from
      funext fun i => by rw [div_eq_inv_mul]]
    rw [hat_smul, smul_smul, mul_inv_cancel₀ hne, one_smul]

theorem logTheta_small_implies_near_pi (r : M3) (h : logTheta r < 1e-20) :
    1 - 1e-5 < |logCosTheta r| := by
  have hc1 : logCosTheta r ≤ 1 := clamp_le_hi (by norm_num)
  have hc0 : (-1 : ℝ) ≤ logCosTheta r := lo_le_clamp
  have hcos : Real.cos (logTheta r) = logCosTheta r := Real.cos_arccos hc0 hc1
  have hb : 1 - logTheta r ^ 2 / 2 ≤ logCosTheta r := by
    rw [← hcos]
    exact Real.one_sub_sq_div_two_le_cos
  have ht0 : 0 ≤ logTheta r := Real.arccos_nonneg _
  have hlt : 1 - 1e-5 < 1 - logTheta r ^ 2 / 2 := by nlinarith
  calc 1 - 1e-5 < logCosTheta r := lt_of_lt_of_le hlt hb
    _ ≤ |logCosTheta r| := le_abs_self _

theorem norm3N_zero : norm3N (fun _ => some 0) = some 0 := by
  simp [norm3N, mulN, addN, sqrtN]

theorem ltN_zero_small : ltN (some 0) 1e-20 := by
  norm_num [ltN]

theorem so3_expN_zero : so3_expN (fun _ => some 0) = toMN 1 := by
  funext i j
  simp [so3_expN, norm3N_zero, ltN_zero_small, so3_hatN, mulMatN, mulN, addN,
    subN, sinN, cosN, toMN]

theorem so3_log_piN_one (sel : Fin 8) (i j : Fin 3) :
    so3_log_piN sel (toMN 1) (some 0) i j = none := by
  simp [so3_log_piN, toMN, mulN, addN, subN, divN, sqrtN, cosN, so3_hatN, negN]

theorem traceN_one : traceN (toMN 1) = some 3 := by
  simp [traceN, toMN, addN, Matrix.one_apply]
  norm_num

theorem clampN_one : clampN (mulN (some 2⁻¹) (subN (traceN (toMN 1)) (some 1)))
    (-1) 1 = some 1 := by
  rw [traceN_one]
  simp only [subN, mulN, clampN]
  norm_num [clamp]

theorem so3_logN_one (sel : Fin 8) (i j : Fin 3) :
    so3_logN sel (toMN 1) i j = none := by
  have hth : acosN (clampN (mulN (some 2⁻¹) (subN (traceN (toMN 1)) (some 1)))
      (-1) 1) = some 0 := by
    rw [clampN_one]
    simp only [acosN]
    rw [if_pos (by norm_num : (-1 : ℝ) ≤ 1 ∧ (1 : ℝ) ≤ 1), Real.arccos_one]
  have hgt : gtN (absN (clampN (mulN (some 2⁻¹) (subN (traceN (toMN 1)) (some 1)))
      (-1) 1)) (1 - 1e-5) := by
    rw [clampN_one]
    simp only [absN, gtN]
    norm_num
  simp only [so3_logN]
  rw [if_pos hgt, hth]
  exact so3_log_piN_one sel i j

theorem toVN_zero : toVN ![0, 0, 0] = fun _ => some 0 := by
  funext i
  fin_cases i <;> simp [toVN]

theorem norm3N_toVN (v : V3) : norm3N (toVN v) = some (norm3 v) := by
  simp only [norm3N, toVN, mulN, addN, sqrtN]
  rw [if_pos (add_nonneg (add_nonneg (mul_self_nonneg (v 0)) (mul_self_nonneg (v 1)))
    (mul_self_nonneg (v 2)))]
  rw [show v 0 * v 0 + v 1 * v 1 + v 2 * v 2 = v 0 ^ 2 + v 1 ^ 2 + v 2 ^ 2 by ring]
  rfl

theorem comp_sq_le (v : V3) (i : Fin 3) : v i ^ 2 ≤ v 0 ^ 2 + v 1 ^ 2 + v 2 ^ 2 := by
  fin_cases i
  · show v 0 ^ 2 ≤ _
    nlinarith [sq_nonneg (v 1), sq_nonneg (v 2)]
  · show v 1 ^ 2 ≤ _
    nlinarith [sq_nonneg (v 0), sq_nonneg (v 2)]
  · show v 2 ^ 2 ≤ _
    nlinarith [sq_nonneg (v 0), sq_nonneg (v 1)]

theorem abs_le_norm3 (v : V3) (i : Fin 3) : |v i| ≤ norm3 v := by
  rw [← Real.sqrt_sq_eq_abs]
  unfold norm3
  exact Real.sqrt_le_sqrt (comp_sq_le v i)

theorem hat_entry_bound (v : V3) (a b : Fin 3) : |so3_hat v a b| ≤ norm3 v := by
  rw [so3_hat_apply]
  fin_cases a <;> fin_cases b <;>
    simp [Matrix.vecHead, Matrix.vecTail] <;>
    first
      | exact norm3_nonneg v
      | exact abs_le_norm3 v _
      | simpa using abs_le_norm3 v _

theorem hat_sq_entry_bound (v : V3) (a b : Fin 3) :
    |(so3_hat v * so3_hat v) a b| ≤ norm3 v ^ 2 := by
  have hn2 := norm3_sq v
  rw [hat_mul_hat]
  have hentry : (Matrix.vecMulVec v v - (v 0 ^ 2 + v 1 ^ 2 + v 2 ^ 2) • 1) a b =
      v a * v b - (v 0 ^ 2 + v 1 ^ 2 + v 2 ^ 2) * (if a = b then 1 else 0) := by
    simp [Matrix.sub_apply, Matrix.vecMulVec_apply, Matrix.smul_apply,
      Matrix.one_apply]
  rw [hentry]
  by_cases hab : a = b
  · rw [if_pos hab, mul_one, hab, hn2]
    exact abs_le.mpr ⟨by nlinarith [comp_sq_le v b, sq_nonneg (v b)],
      by nlinarith [comp_sq_le v b, sq_nonneg (v b)]⟩
  · rw [if_neg hab, mul_zero, sub_zero, abs_mul, pow_two]
    exact mul_le_mul (abs_le_norm3 v a) (abs_le_norm3 v b) (abs_nonneg _)
      (norm3_nonneg v)

theorem expForm {v : V3} (h : ¬ norm3 v < 1e-20) :
    so3_exp v = 1 + (Real.sin (norm3 v) / norm3 v) • so3_hat v +
      ((1 - Real.cos (norm3 v)) / norm3 v ^ 2) • (so3_hat v * so3_hat v) := by
  have hne : norm3 v ≠ 0 := ne_of_gt (norm3_pos h)
  rw [so3_exp_of_ge h]
  rw [show (fun i => v i / norm3 v) = fun i => (norm3 v)⁻¹ * v i from
    funext fun i => by rw [div_eq_inv_mul]]
  rw [hat_smul, smul_smul, smul_mul_smul_comm, smul_smul]
  rw [show Real.sin (norm3 v) * (norm3 v)⁻¹ = Real.sin (norm3 v) / norm3 v by ring]
  rw [show (1 - Real.cos (norm3 v)) * ((norm3 v)⁻¹ * (norm3 v)⁻¹) =
    (1 - Real.cos (norm3 v)) / norm3 v ^ 2 by ring]

theorem norm3_scale (a : ℝ) (v : V3) :
    norm3 (fun i => v i * a) = |a| * norm3 v := by
  unfold norm3
  rw [show (fun i => v i * a) 0 ^ 2 + (fun i => v i * a) 1 ^ 2 +
      (fun i => v i * a) 2 ^ 2 = a ^ 2 * (v 0 ^ 2 + v 1 ^ 2 + v 2 ^ 2) by ring]
  rw [Real.sqrt_mul (sq_nonneg a), Real.sqrt_sq_eq_abs]

theorem so3_xset_eq_scale (v : V3) (k_max : ℕ)
    (j : Fin (2 * k_max + 1)) :
    so3_xset v k_max j = fun i =>
      v i * ((norm3 v + 2 * π * ((j : ℕ) - (k_max : ℕ) : ℤ)) / norm3 v) := by
  funext i
  simp only [so3_xset]
  ring

theorem norm3_xset {v : V3} (hv : norm3 v ≠ 0) (k_max : ℕ)
    (j : Fin (2 * k_max + 1)) :
    norm3 (so3_xset v k_max j) = |norm3 v + 2 * π * ((j : ℕ) - (k_max : ℕ) : ℤ)| := by
  have hpos : 0 < norm3 v := lt_of_le_of_ne (norm3_nonneg v) (Ne.symm hv)
  rw [so3_xset_eq_scale v, norm3_scale, abs_div, abs_of_pos hpos]
  field_simp

theorem sin_abs_div_mul {c : ℝ} (hc : c ≠ 0) :
    Real.sin |c| / |c| * c = Real.sin c := by
  rcases lt_or_gt_of_ne hc with h | h
  · rw [abs_of_neg h, Real.sin_neg]
    field_simp
  · rw [abs_of_pos h]
    field_simp

theorem exp_scale_eq {v : V3} (hvn : ¬ norm3 v < 1e-20) {c : ℝ}
    (hc : ¬ |c| < 1e-20) (hsin : Real.sin c = Real.sin (norm3 v))
    (hcos : Real.cos c = Real.cos (norm3 v)) :
    so3_exp (fun i => v i * (c / norm3 v)) = so3_exp v := by
  have hpos : 0 < norm3 v := norm3_pos hvn
  have hne : norm3 v ≠ 0 := ne_of_gt hpos
  have hcne : c ≠ 0 := by
    intro h
    rw [h] at hc
    simp at hc
    linarith
  have hw : norm3 (fun i => v i * (c / norm3 v)) = |c| := by
    rw [norm3_scale, abs_div, abs_of_pos hpos]
    field_simp
  have hwn : ¬ norm3 (fun i => v i * (c / norm3 v)) < 1e-20 := by
    rw [hw]
    exact hc
  rw [expForm hwn, expForm hvn, hw]
  have hhat : so3_hat (fun i => v i * (c / norm3 v)) = (c / norm3 v) • so3_hat v := by
    rw [show (fun i => v i * (c / norm3 v)) = fun i => (c / norm3 v) * v i from
      funext fun i => by ring]
    exact hat_smul _ v
  rw [hhat, smul_smul, smul_mul_smul_comm, smul_smul]
  have h1 : Real.sin |c| / |c| * (c / norm3 v) = Real.sin (norm3 v) / norm3 v := by
    rw [show Real.sin |c| / |c| * (c / norm3 v) =
      Real.sin |c| / |c| * c / norm3 v by ring]
    rw [sin_abs_div_mul hcne, hsin]
  have h2 : (1 - Real.cos |c|) / |c| ^ 2 * (c / norm3 v * (c / norm3 v)) =
      (1 - Real.cos (norm3 v)) / norm3 v ^ 2 := by
    rw [Real.cos_abs, sq_abs]
    rw [show (1 - Real.cos c) / c ^ 2 * (c / norm3 v * (c / norm3 v)) =
      (1 - Real.cos c) * (c ^ 2 / c ^ 2) / norm3 v ^ 2 by ring]
    rw [div_self (pow_ne_zero 2 hcne), mul_one, hcos]
  rw [h1, h2]

theorem exp_entry_close_one {u : V3} (h : ¬ norm3 u < 1e-20)
    (hsin : |Real.sin (norm3 u)| ≤ 1e-20)
    (hcos : 1 - Real.cos (norm3 u) ≤ 1e-40 / 2) (a b : Fin 3) :
    |so3_exp u a b - (1 : M3) a b| ≤ 1e-6 := by
  have hpos : 0 < norm3 u := norm3_pos h
  have hcos0 : 0 ≤ 1 - Real.cos (norm3 u) := by
    linarith [Real.cos_le_one (norm3 u)]
  rw [expForm h]
  simp only [Matrix.add_apply, Matrix.smul_apply, smul_eq_mul]
  rw [show (1 : M3) a b + Real.sin (norm3 u) / norm3 u * so3_hat u a b +
      (1 - Real.cos (norm3 u)) / norm3 u ^ 2 * (so3_hat u * so3_hat u) a b -
      (1 : M3) a b =
      Real.sin (norm3 u) / norm3 u * so3_hat u a b +
      (1 - Real.cos (norm3 u)) / norm3 u ^ 2 * (so3_hat u * so3_hat u) a b by ring]
  have b1 : |Real.sin (norm3 u) / norm3 u * so3_hat u a b| ≤ 1e-20 := by
    rw [abs_mul, abs_div, abs_of_pos hpos]
    calc |Real.sin (norm3 u)| / norm3 u * |so3_hat u a b| ≤
        |Real.sin (norm3 u)| / norm3 u * norm3 u := by
          apply mul_le_mul_of_nonneg_left (hat_entry_bound u a b)
          positivity
      _ = |Real.sin (norm3 u)| := by field_simp
      _ ≤ 1e-20 := hsin
  have b2 : |(1 - Real.cos (norm3 u)) / norm3 u ^ 2 * (so3_hat u * so3_hat u) a b| ≤
      1e-40 / 2 := by
    rw [abs_mul, abs_div, abs_of_nonneg hcos0, abs_of_pos (by positivity : (0:ℝ) < norm3 u ^ 2)]
    calc (1 - Real.cos (norm3 u)) / norm3 u ^ 2 * |(so3_hat u * so3_hat u) a b| ≤
        (1 - Real.cos (norm3 u)) / norm3 u ^ 2 * norm3 u ^ 2 := by
          apply mul_le_mul_of_nonneg_left (hat_sq_entry_bound u a b)
          positivity
      _ = 1 - Real.cos (norm3 u) := by field_simp
      _ ≤ 1e-40 / 2 := hcos
  calc |Real.sin (norm3 u) / norm3 u * so3_hat u a b +
      (1 - Real.cos (norm3 u)) / norm3 u ^ 2 * (so3_hat u * so3_hat u) a b| ≤
      |Real.sin (norm3 u) / norm3 u * so3_hat u a b| +
      |(1 - Real.cos (norm3 u)) / norm3 u ^ 2 * (so3_hat u * so3_hat u) a b| :=
        abs_add _ _
    _ ≤ 1e-20 + 1e-40 / 2 := add_le_add b1 b2
    _ ≤ 1e-6 := by norm_num

theorem abs_sin_abs (x : ℝ) : abs (Real.sin (abs x)) = abs (Real.sin x) := by
  rcases le_or_lt 0 x with h | h
  · rw [abs_of_nonneg h]
  · rw [abs_of_neg h, Real.sin_neg, abs_neg]

theorem rodrigues_orthog {u : V3} (hu : u 0 ^ 2 + u 1 ^ 2 + u 2 ^ 2 = 1)
    (t : ℝ) :
    (1 + Real.sin t • so3_hat u + (1 - Real.cos t) • (so3_hat u * so3_hat u))ᵀ *
      (1 + Real.sin t • so3_hat u + (1 - Real.cos t) • (so3_hat u * so3_hat u)) =
      1 := by
  have ht := Real.sin_sq_add_cos_sq t
  rw [so3_hat_apply]
  ext a b
  fin_cases a <;> fin_cases b
  · simp [Matrix.mul_apply, Matrix.transpose_apply, Matrix.add_apply,
      Matrix.smul_apply, Matrix.one_apply, Fin.sum_univ_three,
      Matrix.vecHead, Matrix.vecTail]
    linear_combination (u 2 ^ 2 - 2 * u 2 ^ 2 * Real.cos t + u 2 ^ 2 * Real.cos t ^ 2 + u 1 ^ 2 - 2 * u 1 ^ 2 * Real.cos t + u 1 ^ 2 * Real.cos t ^ 2) * hu + (u 2 ^ 2 + u 1 ^ 2) * ht
  · simp [Matrix.mul_apply, Matrix.transpose_apply, Matrix.add_apply,
      Matrix.smul_apply, Matrix.one_apply, Fin.sum_univ_three,
      Matrix.vecHead, Matrix.vecTail]
    linear_combination (-u 0 * u 1 + 2 * u 0 * u 1 * Real.cos t - u 0 * u 1 * Real.cos t ^ 2) * hu + (-u 0 * u 1) * ht
  · simp [Matrix.mul_apply, Matrix.transpose_apply, Matrix.add_apply,
      Matrix.smul_apply, Matrix.one_apply, Fin.sum_univ_three,
      Matrix.vecHead, Matrix.vecTail]
    linear_combination (-u 0 * u 2 + 2 * u 0 * u 2 * Real.cos t - u 0 * u 2 * Real.cos t ^ 2) * hu + (-u 0 * u 2) * ht
  · simp [Matrix.mul_apply, Matrix.transpose_apply, Matrix.add_apply,
      Matrix.smul_apply, Matrix.one_apply, Fin.sum_univ_three,
      Matrix.vecHead, Matrix.vecTail]
    linear_combination (-u 0 * u 1 + 2 * u 0 * u 1 * Real.cos t - u 0 * u 1 * Real.cos t ^ 2) * hu + (-u 0 * u 1) * ht
  · simp [Matrix.mul_apply, Matrix.transpose_apply, Matrix.add_apply,
      Matrix.smul_apply, Matrix.one_apply, Fin.sum_univ_three,
      Matrix.vecHead, Matrix.vecTail]
    linear_combination (-1 + Real.cos t ^ 2 + Real.sin t ^ 2 + u 2 ^ 2 - 2 * u 2 ^ 2 * Real.cos t + u 2 ^ 2 * Real.cos t ^ 2 + u 0 ^ 2 - 2 * u 0 ^ 2 * Real.cos t + u 0 ^ 2 * Real.cos t ^ 2) * hu + (1 - u 1 ^ 2) * ht
  · simp [Matrix.mul_apply, Matrix.transpose_apply, Matrix.add_apply,
      Matrix.smul_apply, Matrix.one_apply, Fin.sum_univ_three,
      Matrix.vecHead, Matrix.vecTail]
    linear_combination (-u 1 * u 2 + 2 * u 1 * u 2 * Real.cos t - u 1 * u 2 * Real.cos t ^ 2) * hu + (-u 1 * u 2) * ht
  · simp [Matrix.mul_apply, Matrix.transpose_apply, Matrix.add_apply,
      Matrix.smul_apply, Matrix.one_apply, Fin.sum_univ_three,
      Matrix.vecHead, Matrix.vecTail]
    linear_combination (-u 0 * u 2 + 2 * u 0 * u 2 * Real.cos t - u 0 * u 2 * Real.cos t ^ 2) * hu + (-u 0 * u 2) * ht
  · simp [Matrix.mul_apply, Matrix.transpose_apply, Matrix.add_apply,
      Matrix.smul_apply, Matrix.one_apply, Fin.sum_univ_three,
      Matrix.vecHead, Matrix.vecTail]
    linear_combination (-u 1 * u 2 + 2 * u 1 * u 2 * Real.cos t - u 1 * u 2 * Real.cos t ^ 2) * hu + (-u 1 * u 2) * ht
  · simp [Matrix.mul_apply, Matrix.transpose_apply, Matrix.add_apply,
      Matrix.smul_apply, Matrix.one_apply, Fin.sum_univ_three,
      Matrix.vecHead, Matrix.vecTail]
    linear_combination (-1 + Real.cos t ^ 2 + Real.sin t ^ 2 + u 1 ^ 2 - 2 * u 1 ^ 2 * Real.cos t + u 1 ^ 2 * Real.cos t ^ 2 + u 0 ^ 2 - 2 * u 0 ^ 2 * Real.cos t + u 0 ^ 2 * Real.cos t ^ 2) * hu + (1 - u 2 ^ 2) * ht

theorem rodrigues_det {u : V3} (hu : u 0 ^ 2 + u 1 ^ 2 + u 2 ^ 2 = 1)
    (t : ℝ) :
    (1 + Real.sin t • so3_hat u + (1 - Real.cos t) • (so3_hat u * so3_hat u)).det
      = 1 := by
  have ht := Real.sin_sq_add_cos_sq t
  rw [so3_hat_apply, Matrix.det_fin_three]
  simp [Matrix.mul_apply, Matrix.transpose_apply, Matrix.add_apply,
      Matrix.smul_apply, Matrix.one_apply, Fin.sum_univ_three,
      Matrix.vecHead, Matrix.vecTail]
  linear_combination (-1 + Real.cos t ^ 2 + Real.sin t ^ 2 + u 2 ^ 2 - 2 * u 2 ^ 2 * Real.cos t + u 2 ^ 2 * Real.cos t ^ 2 + u 1 ^ 2 - 2 * u 1 ^ 2 * Real.cos t + u 1 ^ 2 * Real.cos t ^ 2 + u 0 ^ 2 - 2 * u 0 ^ 2 * Real.cos t + u 0 ^ 2 * Real.cos t ^ 2) * hu + (1) * ht

theorem quatMat_orthog {a b c d : ℝ} (hq : a ^ 2 + b ^ 2 + c ^ 2 + d ^ 2 = 1) :
    (!![a * a - b * b - c * c + d * d, 2 * (a * b + c * d), 2 * (a * c - b * d);
       2 * (a * b - c * d), -a * a + b * b - c * c + d * d, 2 * (b * c + a * d);
       2 * (a * c + b * d), 2 * (b * c - a * d), -a * a - b * b + c * c + d * d] : M3)ᵀ *
      (!![a * a - b * b - c * c + d * d, 2 * (a * b + c * d), 2 * (a * c - b * d);
       2 * (a * b - c * d), -a * a + b * b - c * c + d * d, 2 * (b * c + a * d);
       2 * (a * c + b * d), 2 * (b * c - a * d), -a * a - b * b + c * c + d * d] : M3) = 1 := by
  ext i j
  fin_cases i <;> fin_cases j
  · simp [Matrix.mul_apply, Matrix.transpose_apply, Matrix.add_apply,
      Matrix.smul_apply, Matrix.one_apply, Fin.sum_univ_three,
      Matrix.vecHead, Matrix.vecTail]
    linear_combination (1 + d ^ 2 + c ^ 2 + b ^ 2 + a ^ 2) * hq
  · simp [Matrix.mul_apply, Matrix.transpose_apply, Matrix.add_apply,
      Matrix.smul_apply, Matrix.one_apply, Fin.sum_univ_three,
      Matrix.vecHead, Matrix.vecTail]
    ring
  · simp [Matrix.mul_apply, Matrix.transpose_apply, Matrix.add_apply,
      Matrix.smul_apply, Matrix.one_apply, Fin.sum_univ_three,
      Matrix.vecHead, Matrix.vecTail]
    ring
  · simp [Matrix.mul_apply, Matrix.transpose_apply, Matrix.add_apply,
      Matrix.smul_apply, Matrix.one_apply, Fin.sum_univ_three,
      Matrix.vecHead, Matrix.vecTail]
    ring
  · simp [Matrix.mul_apply, Matrix.transpose_apply, Matrix.add_apply,
      Matrix.smul_apply, Matrix.one_apply, Fin.sum_univ_three,
      Matrix.vecHead, Matrix.vecTail]
    linear_combination (1 + d ^ 2 + c ^ 2 + b ^ 2 + a ^ 2) * hq
  · simp [Matrix.mul_apply, Matrix.transpose_apply, Matrix.add_apply,
      Matrix.smul_apply, Matrix.one_apply, Fin.sum_univ_three,
      Matrix.vecHead, Matrix.vecTail]
    ring
  · simp [Matrix.mul_apply, Matrix.transpose_apply, Matrix.add_apply,
      Matrix.smul_apply, Matrix.one_apply, Fin.sum_univ_three,
      Matrix.vecHead, Matrix.vecTail]
    ring
  · simp [Matrix.mul_apply, Matrix.transpose_apply, Matrix.add_apply,
      Matrix.smul_apply, Matrix.one_apply, Fin.sum_univ_three,
      Matrix.vecHead, Matrix.vecTail]
    ring
  · simp [Matrix.mul_apply, Matrix.transpose_apply, Matrix.add_apply,
      Matrix.smul_apply, Matrix.one_apply, Fin.sum_univ_three,
      Matrix.vecHead, Matrix.vecTail]
    linear_combination (1 + d ^ 2 + c ^ 2 + b ^ 2 + a ^ 2) * hq

theorem quatMat_det {a b c d : ℝ} (hq : a ^ 2 + b ^ 2 + c ^ 2 + d ^ 2 = 1) :
    (!![a * a - b * b - c * c + d * d, 2 * (a * b + c * d), 2 * (a * c - b * d);
       2 * (a * b - c * d), -a * a + b * b - c * c + d * d, 2 * (b * c + a * d);
       2 * (a * c + b * d), 2 * (b * c - a * d), -a * a - b * b + c * c + d * d] : M3).det = 1 := by
  rw [Matrix.det_fin_three]
  simp [Matrix.mul_apply, Matrix.transpose_apply, Matrix.add_apply,
      Matrix.smul_apply, Matrix.one_apply, Fin.sum_univ_three,
      Matrix.vecHead, Matrix.vecTail]
  linear_combination (1 + d ^ 2 + d ^ 4 + c ^ 2 + 2 * c ^ 2 * d ^ 2 + c ^ 4 + b ^ 2 + 2 * b ^ 2 * d ^ 2 + 2 * b ^ 2 * c ^ 2 + b ^ 4 + a ^ 2 + 2 * a ^ 2 * d ^ 2 + 2 * a ^ 2 * c ^ 2 + 2 * a ^ 2 * b ^ 2 + a ^ 4) * hq

theorem comp4_sq_le (q : Fin 4 → ℝ) (i : Fin 4) :
    q i ^ 2 ≤ q 0 ^ 2 + q 1 ^ 2 + q 2 ^ 2 + q 3 ^ 2 := by
  fin_cases i
  · show q 0 ^ 2 ≤ _
    nlinarith [sq_nonneg (q 1), sq_nonneg (q 2), sq_nonneg (q 3)]
  · show q 1 ^ 2 ≤ _
    nlinarith [sq_nonneg (q 0), sq_nonneg (q 2), sq_nonneg (q 3)]
  · show q 2 ^ 2 ≤ _
    nlinarith [sq_nonneg (q 0), sq_nonneg (q 1), sq_nonneg (q 3)]
  · show q 3 ^ 2 ≤ _
    nlinarith [sq_nonneg (q 0), sq_nonneg (q 1), sq_nonneg (q 2)]

theorem quat_sum_sq_pos {q : Fin 4 → ℝ} (hq : q ≠ 0) :
    0 < q 0 ^ 2 + q 1 ^ 2 + q 2 ^ 2 + q 3 ^ 2 := by
  rcases Function.ne_iff.mp hq with ⟨i, hi⟩
  simp only [Pi.zero_apply] at hi
  exact lt_of_lt_of_le (pow_two_pos_of_ne_zero hi) (comp4_sq_le q i)

theorem quat_unit {q : Fin 4 → ℝ} (hq : q ≠ 0) :
    (q 0 / Real.sqrt (q 0 ^ 2 + q 1 ^ 2 + q 2 ^ 2 + q 3 ^ 2)) ^ 2 +
      (q 1 / Real.sqrt (q 0 ^ 2 + q 1 ^ 2 + q 2 ^ 2 + q 3 ^ 2)) ^ 2 +
      (q 2 / Real.sqrt (q 0 ^ 2 + q 1 ^ 2 + q 2 ^ 2 + q 3 ^ 2)) ^ 2 +
      (q 3 / Real.sqrt (q 0 ^ 2 + q 1 ^ 2 + q 2 ^ 2 + q 3 ^ 2)) ^ 2 = 1 := by
  have hpos := quat_sum_sq_pos hq
  have hs : Real.sqrt (q 0 ^ 2 + q 1 ^ 2 + q 2 ^ 2 + q 3 ^ 2) ^ 2 =
      q 0 ^ 2 + q 1 ^ 2 + q 2 ^ 2 + q 3 ^ 2 := Real.sq_sqrt hpos.le
  have hne : Real.sqrt (q 0 ^ 2 + q 1 ^ 2 + q 2 ^ 2 + q 3 ^ 2) ≠ 0 :=
    ne_of_gt (Real.sqrt_pos.mpr hpos)
  field_simp

theorem clamp_of_hi_le {x lo hi : ℝ} (h1 : hi ≤ x) (h2 : lo ≤ hi) :
    clamp x lo hi = hi := by
  unfold clamp
  rw [min_eq_right h1, max_eq_right h2]

theorem eazyz_middle (q : Fin 4 → ℝ) :
    quaternions_to_eazyz q 1 =
      Real.arccos (clamp (q 3 ^ 2 - q 0 ^ 2 - q 1 ^ 2 + q 2 ^ 2)
        (-1 + 1e-6) (1 - 1e-6)) := by
  simp [quaternions_to_eazyz]

theorem argmaxF4_eq_three {f : Fin 4 → ℝ} (h1 : ¬ f 0 < f 1) (h2 : ¬ f 0 < f 2)
    (h3 : f 0 < f 3) : argmaxF f = 3 := by
  unfold argmaxF
  rw [show List.finRange 4 = [0, 1, 2, 3] by decide]
  simp only [List.foldl_cons, List.foldl_nil, ite_self]
  rw [if_neg h1, if_neg h2, if_pos h3]

theorem quatDenomPre_one : quatDenomPre 1 = ![0, 0, 0, 4] := by
  funext i
  fin_cases i <;> simp [quatDenomPre, Matrix.one_apply] <;> norm_num

theorem quatDenom_one : quatDenom 1 = fun i =>
    (2⁻¹ : ℝ) * Real.sqrt (1e-6 + |(![0, 0, 0, 4] : Fin 4 → ℝ) i|) := by
  funext i
  rw [quatDenom, quatDenomPre_one]

theorem argmax_quatDenom_one : argmaxF (quatDenom 1) = 3 := by
  rw [quatDenom_one]
  apply argmaxF4_eq_three
  · simp
  · simp
  · have hlt : Real.sqrt (1e-6 + |(0 : ℝ)|) < Real.sqrt (1e-6 + |(4 : ℝ)|) := by
      apply Real.sqrt_lt_sqrt (by norm_num)
      norm_num
    simpa using mul_lt_mul_of_pos_left hlt (by norm_num : (0 : ℝ) < 2⁻¹)

theorem m2q_one : so3_matrix_to_quaternions 1 =
    ![0, 0, 0, 2⁻¹ * Real.sqrt (1e-6 + 4)] := by
  unfold so3_matrix_to_quaternions
  rw [argmax_quatDenom_one]
  funext i
  fin_cases i <;>
    simp [quatCases, quatDenom, quatDenomPre, Matrix.one_apply, Matrix.vecHead,
      Matrix.vecTail] <;> norm_num

theorem z_rot_mat_deg_zero (angle : ℝ) : z_rot_mat 0 angle = 1 := by
  ext i j
  fin_cases i
  fin_cases j
  simp [z_rot_mat, Matrix.one_apply]

theorem z_rot_mat_angle_zero (l : ℕ) : z_rot_mat l 0 = 1 := by
  ext i j
  unfold z_rot_mat
  by_cases hij : j = i
  · rw [if_pos hij, mul_zero, Real.cos_zero, Matrix.one_apply, if_pos hij.symm]
  · rw [Matrix.one_apply, if_neg hij, if_neg (Ne.symm hij)]
    by_cases hrev : (j : ℕ) + (i : ℕ) = 2 * l
    · rw [if_pos hrev, mul_zero, Real.sin_zero]
    · rw [if_neg hrev]

theorem wigner_d_matrix_angles_zero (l : ℕ)
    (J : Matrix (Fin (2 * l + 1)) (Fin (2 * l + 1)) ℝ) :
    wigner_d_matrix l J 0 0 0 = J * J := by
  unfold wigner_d_matrix
  rw [z_rot_mat_angle_zero]
  simp

theorem blockStart_eq_sq (n : ℕ) : blockStart n = n ^ 2 := by
  induction n with
  | zero => rfl
  | succ l ih =>
    show blockStart l + (2 * l + 1) = (l + 1) ^ 2
    rw [ih]
    ring

theorem block_length_core (k : ℕ) :
    ((List.range k).map fun l => 2 * l + 1).sum = k ^ 2 := by
  induction k with
  | zero => rfl
  | succ n ih =>
    rw [List.range_succ, List.map_append, List.sum_append, ih]
    simp
    ring

theorem blockStart_bound {l L : ℕ} (hl : l < L + 1) (j : ℕ) (hj : j < 2 * l + 1) :
    blockStart l + j < (L + 1) ^ 2 := by
  rw [blockStart_eq_sq]
  have h1 : l ^ 2 + j < (l + 1) ^ 2 := by nlinarith
  have h2 : (l + 1) ^ 2 ≤ (L + 1) ^ 2 := Nat.pow_le_pow_left hl 2
  omega

theorem foldl_max_ge {α : Type} (f : α → ℝ) (L : List α) (a : α) :
    f a ≤ f (L.foldl (fun acc s => if f acc < f s then s else acc) a) ∧
      ∀ x ∈ L, f x ≤ f (L.foldl (fun acc s => if f acc < f s then s else acc) a) := by
  induction L generalizing a with
  | nil => simp
  | cons hd t ih =>
    simp only [List.foldl_cons]
    rcases ih (if f a < f hd then hd else a) with ⟨h1, h2⟩
    refine ⟨le_trans ?_ h1, ?_⟩
    · split_ifs with hc
      · exact le_of_lt hc
      · exact le_refl _
    · intro x hx
      rcases List.mem_cons.mp hx with rfl | hx
      · refine le_trans ?_ h1
        split_ifs with hc
        · exact le_refl _
        · exact not_lt.mp hc
      · exact h2 x hx

theorem argmaxF_ge {n : ℕ} (f : Fin (n + 1) → ℝ) (t : Fin (n + 1)) :
    f t ≤ f (argmaxF f) :=
  (foldl_max_ge f (List.finRange (n + 1)) 0).2 t (List.mem_finRange t)

theorem orth_col_entry {r : M3} (horth : rᵀ * r = 1) (a b : Fin 3) :
    r 0 a * r 0 b + r 1 a * r 1 b + r 2 a * r 2 b = if a = b then 1 else 0 := by
  have h := congrFun (congrFun horth a) b
  simpa [Matrix.mul_apply, Matrix.transpose_apply, Fin.sum_univ_three,
    Matrix.one_apply] using h

theorem orth_row_entry {r : M3} (horth : rᵀ * r = 1) (a b : Fin 3) :
    r a 0 * r b 0 + r a 1 * r b 1 + r a 2 * r b 2 = if a = b then 1 else 0 := by
  have hr : r * rᵀ = 1 := Matrix.mul_eq_one_comm.mp horth
  have h := congrFun (congrFun hr a) b
  simpa [Matrix.mul_apply, Matrix.transpose_apply, Fin.sum_univ_three,
    Matrix.one_apply] using h

theorem rot_adjugate {r : M3} (horth : rᵀ * r = 1) (hdet : r.det = 1) :
    r.adjugate = rᵀ := by
  have hr : r * rᵀ = 1 := Matrix.mul_eq_one_comm.mp horth
  calc r.adjugate = r.adjugate * (r * rᵀ) := by rw [hr, mul_one]
    _ = (r.adjugate * r) * rᵀ := (mul_assoc _ _ _).symm
    _ = (r.det • 1) * rᵀ := by rw [Matrix.adjugate_mul]
    _ = rᵀ := by rw [hdet, one_smul, one_mul]

theorem rot_entry_abs_le_one {r : M3} (horth : rᵀ * r = 1) (a b : Fin 3) :
    |r a b| ≤ 1 := by
  have hcol := orth_col_entry horth b b
  rw [if_pos rfl] at hcol
  have hsq : r a b ^ 2 ≤ 1 := by
    fin_cases a
    · show r 0 b ^ 2 ≤ 1
      nlinarith [sq_nonneg (r 1 b), sq_nonneg (r 2 b)]
    · show r 1 b ^ 2 ≤ 1
      nlinarith [sq_nonneg (r 0 b), sq_nonneg (r 2 b)]
    · show r 2 b ^ 2 ≤ 1
      nlinarith [sq_nonneg (r 0 b), sq_nonneg (r 1 b)]
  exact abs_le.mpr ⟨by nlinarith [sq_nonneg (r a b + 1)],
    by nlinarith [sq_nonneg (r a b - 1)]⟩

theorem quadQ_div (w : Fin 4 → ℝ) (s : ℝ) :
    quadQ (fun i => w i / s) = (s ^ 2)⁻¹ • quadQ w := by
  ext a b
  fin_cases a <;> fin_cases b <;>
    · simp [quadQ, Matrix.smul_apply, smul_eq_mul, Matrix.vecHead, Matrix.vecTail]
      ring

theorem quadQ_smul (w : Fin 4 → ℝ) (c : ℝ) :
    quadQ (fun i => c * w i) = (c ^ 2) • quadQ w := by
  ext a b
  fin_cases a <;> fin_cases b <;>
    · simp [quadQ, Matrix.smul_apply, smul_eq_mul, Matrix.vecHead, Matrix.vecTail]
      ring

theorem q2m_eq_quad (v : Fin 4 → ℝ) :
    quaternions_to_so3_matrix v =
      (v 0 ^ 2 + v 1 ^ 2 + v 2 ^ 2 + v 3 ^ 2)⁻¹ • quadQ v := by
  have hS : 0 ≤ v 0 ^ 2 + v 1 ^ 2 + v 2 ^ 2 + v 3 ^ 2 := by positivity
  have h1 : quaternions_to_so3_matrix v =
      quadQ (fun i => v i / Real.sqrt (v 0 ^ 2 + v 1 ^ 2 + v 2 ^ 2 + v 3 ^ 2)) := rfl
  rw [h1, quadQ_div, Real.sq_sqrt hS]

theorem q2m_div_entry (u : Fin 4 → ℝ) (s : ℝ) (hs : s ≠ 0) (a b : Fin 3) :
    quaternions_to_so3_matrix (fun i => u i / s) a b =
      (u 0 ^ 2 + u 1 ^ 2 + u 2 ^ 2 + u 3 ^ 2)⁻¹ * quadQ u a b := by
  have h := q2m_eq_quad (fun i => u i / s)
  rw [quadQ_div] at h
  rw [h]
  simp only [Matrix.smul_apply, smul_eq_mul]
  have h3 : (u 0 / s) ^ 2 + (u 1 / s) ^ 2 + (u 2 / s) ^ 2 + (u 3 / s) ^ 2
      = (u 0 ^ 2 + u 1 ^ 2 + u 2 ^ 2 + u 3 ^ 2) / s ^ 2 := by ring
  have key : ∀ Q : ℝ, (s ^ 2 / (u 0 ^ 2 + u 1 ^ 2 + u 2 ^ 2 + u 3 ^ 2)) * ((s ^ 2)⁻¹ * Q)
      = (u 0 ^ 2 + u 1 ^ 2 + u 2 ^ 2 + u 3 ^ 2)⁻¹ * Q := by
    intro Q
    rw [div_eq_mul_inv]
    calc s ^ 2 * (u 0 ^ 2 + u 1 ^ 2 + u 2 ^ 2 + u 3 ^ 2)⁻¹ * ((s ^ 2)⁻¹ * Q)
        = (s ^ 2 * (s ^ 2)⁻¹) * ((u 0 ^ 2 + u 1 ^ 2 + u 2 ^ 2 + u 3 ^ 2)⁻¹ * Q) := by ring
      _ = _ := by rw [mul_inv_cancel₀ (pow_ne_zero 2 hs), one_mul]
  rw [h3, inv_div, key]

theorem c5_final (S Q t : ℝ) (hS : 4 ≤ S) (hN : |Q - t * S| ≤ 2e-5) :
    |S⁻¹ * Q - t| ≤ 1e-5 := by
  have hS0 : (0:ℝ) < S := by linarith
  have hSne : S ≠ 0 := ne_of_gt hS0
  have heq : S⁻¹ * Q - t = S⁻¹ * (Q - t * S) := by
    rw [mul_sub]
    congr 1
    rw [mul_comm t S, ← mul_assoc, inv_mul_cancel₀ hSne, one_mul]
  rw [heq, abs_mul, abs_inv, abs_of_pos hS0]
  have h1 : S⁻¹ ≤ 4⁻¹ := by
    apply inv_le_inv_of_le
    · norm_num
    · exact hS
  calc S⁻¹ * |Q - t * S| ≤ 4⁻¹ * 2e-5 := by
        apply mul_le_mul h1 hN (abs_nonneg _) (by norm_num)
    _ ≤ 1e-5 := by norm_num

theorem c5_num (p t B E : ℝ) (hp0 : 0 ≤ p) (hp4 : p ≤ 4) (ht : |t| ≤ 1)
    (hB : |B| ≤ 8) (hE : |E| ≤ 1) :
    |1e-6 * (B - 2 * p * t) + 1e-12 * (E - t)| ≤ 2e-5 := by
  have ht0 := abs_nonneg t
  have h2 : |2 * p * t| ≤ 8 := by
    rw [abs_mul, abs_mul, abs_two, abs_of_nonneg hp0]
    nlinarith [abs_le.mp ht]
  have h1 : |B - 2 * p * t| ≤ 16 := le_trans (abs_sub _ _) (by linarith)
  have h3 : |E - t| ≤ 2 := le_trans (abs_sub _ _) (by linarith)
  calc |1e-6 * (B - 2 * p * t) + 1e-12 * (E - t)|
      ≤ |1e-6 * (B - 2 * p * t)| + |1e-12 * (E - t)| := abs_add _ _
    _ = 1e-6 * |B - 2 * p * t| + 1e-12 * |E - t| := by
        rw [abs_mul, abs_mul, abs_of_nonneg (by norm_num : (0:ℝ) ≤ 1e-6),
          abs_of_nonneg (by norm_num : (0:ℝ) ≤ 1e-12)]
    _ ≤ 1e-6 * 16 + 1e-12 * 2 := by
        apply add_le_add
        · apply mul_le_mul_of_nonneg_left h1 (by norm_num)
        · apply mul_le_mul_of_nonneg_left h3 (by norm_num)
    _ ≤ 2e-5 := by norm_num

theorem abs_two_mul_le_eight (x : ℝ) (h : |x| ≤ 4) : |2 * x| ≤ 8 := by
  rw [abs_mul, abs_two]
  linarith

theorem nonpos_of_sq_eq_mul_right (x a b : ℝ) (h : x ^ 2 = a * b) (ha : a < 0) :
    b ≤ 0 := by
  nlinarith [sq_nonneg x]

theorem nonpos_of_sq_eq_mul_left (x a b : ℝ) (h : x ^ 2 = a * b) (hb : b < 0) :
    a ≤ 0 := by
  nlinarith [sq_nonneg x]

theorem nonneg_of_sq_eq_mul (x a b : ℝ) (h : x ^ 2 = a * b) (ha : 1 ≤ a) :
    0 ≤ b := by
  nlinarith [sq_nonneg x]

theorem sq_le_sixteen_of_mul (x a b : ℝ) (h : x ^ 2 = a * b) (ha0 : 0 ≤ a)
    (ha4 : a ≤ 4) (hb0 : 0 ≤ b) (hb4 : b ≤ 4) : x ^ 2 ≤ 16 := by
  nlinarith

theorem abs_le_four_of_sq (x : ℝ) (h : x ^ 2 ≤ 16) : |x| ≤ 4 :=
  abs_le.mpr ⟨by nlinarith [sq_nonneg (x + 4)], by nlinarith [sq_nonneg (x - 4)]⟩

set_option maxHeartbeats 1000000 in
theorem quatPre_nonneg {r : M3} (horth : rᵀ * r = 1) (hdet : r.det = 1) :
    ∀ m : Fin 4, 0 ≤ quatDenomPre r m := by
  have h00 : r 0 0 * r 0 0 + r 1 0 * r 1 0 + r 2 0 * r 2 0 = 1 := by
    simpa using orth_col_entry horth 0 0
  have h01 : r 0 0 * r 0 1 + r 1 0 * r 1 1 + r 2 0 * r 2 1 = 0 := by
    simpa using orth_col_entry horth 0 1
  have h02 : r 0 0 * r 0 2 + r 1 0 * r 1 2 + r 2 0 * r 2 2 = 0 := by
    simpa using orth_col_entry horth 0 2
  have h11 : r 0 1 * r 0 1 + r 1 1 * r 1 1 + r 2 1 * r 2 1 = 1 := by
    simpa using orth_col_entry horth 1 1
  have h12 : r 0 1 * r 0 2 + r 1 1 * r 1 2 + r 2 1 * r 2 2 = 0 := by
    simpa using orth_col_entry horth 1 2
  have h22 : r 0 2 * r 0 2 + r 1 2 * r 1 2 + r 2 2 * r 2 2 = 1 := by
    simpa using orth_col_entry horth 2 2
  have g01 : r 0 0 * r 1 0 + r 0 1 * r 1 1 + r 0 2 * r 1 2 = 0 := by
    simpa using orth_row_entry horth 0 1
  have g02 : r 0 0 * r 2 0 + r 0 1 * r 2 1 + r 0 2 * r 2 2 = 0 := by
    simpa using orth_row_entry horth 0 2
  have g11 : r 1 0 * r 1 0 + r 1 1 * r 1 1 + r 1 2 * r 1 2 = 1 := by
    simpa using orth_row_entry horth 1 1
  have g12 : r 1 0 * r 2 0 + r 1 1 * r 2 1 + r 1 2 * r 2 2 = 0 := by
    simpa using orth_row_entry horth 1 2
  have g22 : r 2 0 * r 2 0 + r 2 1 * r 2 1 + r 2 2 * r 2 2 = 1 := by
    simpa using orth_row_entry horth 2 2
  have hadjM := rot_adjugate horth hdet
  rw [Matrix.adjugate_fin_three] at hadjM
  have adj00 : r 0 0 = r 1 1 * r 2 2 - r 1 2 * r 2 1 := by
    have h := congrFun (congrFun hadjM 0) 0
    simp only [Matrix.cons_val_zero, Matrix.cons_val_one, Matrix.head_cons,
      Matrix.vecHead, Matrix.vecTail, Matrix.transpose_apply, Matrix.of_apply,
      Function.comp, Matrix.cons_val_fin_one] at h
    exact h.symm
  have adj01 : r 1 0 = -(r 0 1 * r 2 2) + r 0 2 * r 2 1 := by
    have h := congrFun (congrFun hadjM 0) 1
    simp only [Matrix.cons_val_zero, Matrix.cons_val_one, Matrix.head_cons,
      Matrix.vecHead, Matrix.vecTail, Matrix.transpose_apply, Matrix.of_apply,
      Function.comp, Matrix.cons_val_fin_one] at h
    exact h.symm
  have adj02 : r 2 0 = r 0 1 * r 1 2 - r 0 2 * r 1 1 := by
    have h := congrFun (congrFun hadjM 0) 2
    simp only [Matrix.cons_val_zero, Matrix.cons_val_one, Matrix.head_cons,
      Matrix.vecHead, Matrix.vecTail, Matrix.transpose_apply, Matrix.of_apply,
      Function.comp, Matrix.cons_val_fin_one] at h
    exact h.symm
  have adj10 : r 0 1 = -(r 1 0 * r 2 2) + r 1 2 * r 2 0 := by
    have h := congrFun (congrFun hadjM 1) 0
    simp only [Matrix.cons_val_zero, Matrix.cons_val_one, Matrix.head_cons,
      Matrix.vecHead, Matrix.vecTail, Matrix.transpose_apply, Matrix.of_apply,
      Function.comp, Matrix.cons_val_fin_one] at h
    exact h.symm
  have adj11 : r 1 1 = r 0 0 * r 2 2 - r 0 2 * r 2 0 := by
    have h := congrFun (congrFun hadjM 1) 1
    simp only [Matrix.cons_val_zero, Matrix.cons_val_one, Matrix.head_cons,
      Matrix.vecHead, Matrix.vecTail, Matrix.transpose_apply, Matrix.of_apply,
      Function.comp, Matrix.cons_val_fin_one] at h
    exact h.symm
  have adj12 : r 2 1 = -(r 0 0 * r 1 2) + r 0 2 * r 1 0 := by
    have h := congrFun (congrFun hadjM 1) 2
    simp only [Matrix.cons_val_zero, Matrix.cons_val_one, Matrix.head_cons,
      Matrix.vecHead, Matrix.vecTail, Matrix.transpose_apply, Matrix.of_apply,
      Function.comp, Matrix.cons_val_fin_one] at h
    exact h.symm
  have adj20 : r 0 2 = r 1 0 * r 2 1 - r 1 1 * r 2 0 := by
    have h := congrFun (congrFun hadjM 2) 0
    simp only [Matrix.cons_val_zero, Matrix.cons_val_one, Matrix.head_cons,
      Matrix.vecHead, Matrix.vecTail, Matrix.transpose_apply, Matrix.of_apply,
      Function.comp, Matrix.cons_val_fin_one] at h
    exact h.symm
  have adj21 : r 1 2 = -(r 0 0 * r 2 1) + r 0 1 * r 2 0 := by
    have h := congrFun (congrFun hadjM 2) 1
    simp only [Matrix.cons_val_zero, Matrix.cons_val_one, Matrix.head_cons,
      Matrix.vecHead, Matrix.vecTail, Matrix.transpose_apply, Matrix.of_apply,
      Function.comp, Matrix.cons_val_fin_one] at h
    exact h.symm
  have adj22 : r 2 2 = r 0 0 * r 1 1 - r 0 1 * r 1 0 := by
    have h := congrFun (congrFun hadjM 2) 2
    simp only [Matrix.cons_val_zero, Matrix.cons_val_one, Matrix.head_cons,
      Matrix.vecHead, Matrix.vecTail, Matrix.transpose_apply, Matrix.of_apply,
      Function.comp, Matrix.cons_val_fin_one] at h
    exact h.symm
  have hp01 : (r 0 1 + r 1 0) ^ 2 = (1 + r 0 0 - r 1 1 - r 2 2) * (1 - r 0 0 + r 1 1 - r 2 2) := by
    linear_combination (1) * h00 + (1) * h11 + (-1) * g22 + (2) * adj22
  have hp02 : (r 0 2 + r 2 0) ^ 2 = (1 + r 0 0 - r 1 1 - r 2 2) * (1 - r 0 0 - r 1 1 + r 2 2) := by
    linear_combination (1) * h00 + (1) * h22 + (-1) * g11 + (2) * adj11
  have hp03 : (r 1 2 - r 2 1) ^ 2 = (1 + r 0 0 - r 1 1 - r 2 2) * (1 + r 0 0 + r 1 1 + r 2 2) := by
    linear_combination (-1) * h00 + (1) * g11 + (1) * g22 + (-2) * adj00
  have hp12 : (r 1 2 + r 2 1) ^ 2 = (1 - r 0 0 + r 1 1 - r 2 2) * (1 - r 0 0 - r 1 1 + r 2 2) := by
    linear_combination (-1) * h00 + (1) * g11 + (1) * g22 + (2) * adj00
  have hp13 : (r 2 0 - r 0 2) ^ 2 = (1 - r 0 0 + r 1 1 - r 2 2) * (1 + r 0 0 + r 1 1 + r 2 2) := by
    linear_combination (1) * h00 + (1) * h22 + (-1) * g11 + (-2) * adj11
  have hp23 : (r 0 1 - r 1 0) ^ 2 = (1 - r 0 0 - r 1 1 + r 2 2) * (1 + r 0 0 + r 1 1 + r 2 2) := by
    linear_combination (1) * h00 + (1) * h11 + (-1) * g22 + (-2) * adj22
  have key0 : (0:ℝ) ≤ 1 + r 0 0 - r 1 1 - r 2 2 := by
    by_contra hc
    push_neg at hc
    have k0 : 1 - r 0 0 + r 1 1 - r 2 2 ≤ 0 := nonpos_of_sq_eq_mul_right _ _ _ hp01 hc
    have k1 : 1 - r 0 0 - r 1 1 + r 2 2 ≤ 0 := nonpos_of_sq_eq_mul_right _ _ _ hp02 hc
    have k2 : 1 + r 0 0 + r 1 1 + r 2 2 ≤ 0 := nonpos_of_sq_eq_mul_right _ _ _ hp03 hc
    linarith [k0, k1, k2, hc]
  have key1 : (0:ℝ) ≤ 1 - r 0 0 + r 1 1 - r 2 2 := by
    by_contra hc
    push_neg at hc
    have k0 : 1 + r 0 0 - r 1 1 - r 2 2 ≤ 0 := nonpos_of_sq_eq_mul_left _ _ _ hp01 hc
    have k1 : 1 - r 0 0 - r 1 1 + r 2 2 ≤ 0 := nonpos_of_sq_eq_mul_right _ _ _ hp12 hc
    have k2 : 1 + r 0 0 + r 1 1 + r 2 2 ≤ 0 := nonpos_of_sq_eq_mul_right _ _ _ hp13 hc
    linarith [k0, k1, k2, hc]
  have key2 : (0:ℝ) ≤ 1 - r 0 0 - r 1 1 + r 2 2 := by
    by_contra hc
    push_neg at hc
    have k0 : 1 + r 0 0 - r 1 1 - r 2 2 ≤ 0 := nonpos_of_sq_eq_mul_left _ _ _ hp02 hc
    have k1 : 1 - r 0 0 + r 1 1 - r 2 2 ≤ 0 := nonpos_of_sq_eq_mul_left _ _ _ hp12 hc
    have k2 : 1 + r 0 0 + r 1 1 + r 2 2 ≤ 0 := nonpos_of_sq_eq_mul_right _ _ _ hp23 hc
    linarith [k0, k1, k2, hc]
  have key3 : (0:ℝ) ≤ 1 + r 0 0 + r 1 1 + r 2 2 := by
    by_contra hc
    push_neg at hc
    have k0 : 1 + r 0 0 - r 1 1 - r 2 2 ≤ 0 := nonpos_of_sq_eq_mul_left _ _ _ hp03 hc
    have k1 : 1 - r 0 0 + r 1 1 - r 2 2 ≤ 0 := nonpos_of_sq_eq_mul_left _ _ _ hp13 hc
    have k2 : 1 - r 0 0 - r 1 1 + r 2 2 ≤ 0 := nonpos_of_sq_eq_mul_left _ _ _ hp23 hc
    linarith [k0, k1, k2, hc]
  intro m
  fin_cases m
  · simpa [quatDenomPre] using key0
  · simpa [quatDenomPre] using key1
  · simpa [quatDenomPre] using key2
  · simpa [quatDenomPre] using key3

set_option maxHeartbeats 2000000 in
theorem c5_case0 {r : M3} (horth : rᵀ * r = 1) (hdet : r.det = 1)
    (hp : 1 ≤ quatDenomPre r 0) :
    ∀ a b : Fin 3, |quaternions_to_so3_matrix (quatCases r 0) a b - r a b| ≤ 1e-5 := by
  have h00 : r 0 0 * r 0 0 + r 1 0 * r 1 0 + r 2 0 * r 2 0 = 1 := by
    simpa using orth_col_entry horth 0 0
  have h01 : r 0 0 * r 0 1 + r 1 0 * r 1 1 + r 2 0 * r 2 1 = 0 := by
    simpa using orth_col_entry horth 0 1
  have h02 : r 0 0 * r 0 2 + r 1 0 * r 1 2 + r 2 0 * r 2 2 = 0 := by
    simpa using orth_col_entry horth 0 2
  have h11 : r 0 1 * r 0 1 + r 1 1 * r 1 1 + r 2 1 * r 2 1 = 1 := by
    simpa using orth_col_entry horth 1 1
  have h12 : r 0 1 * r 0 2 + r 1 1 * r 1 2 + r 2 1 * r 2 2 = 0 := by
    simpa using orth_col_entry horth 1 2
  have h22 : r 0 2 * r 0 2 + r 1 2 * r 1 2 + r 2 2 * r 2 2 = 1 := by
    simpa using orth_col_entry horth 2 2
  have g01 : r 0 0 * r 1 0 + r 0 1 * r 1 1 + r 0 2 * r 1 2 = 0 := by
    simpa using orth_row_entry horth 0 1
  have g02 : r 0 0 * r 2 0 + r 0 1 * r 2 1 + r 0 2 * r 2 2 = 0 := by
    simpa using orth_row_entry horth 0 2
  have g11 : r 1 0 * r 1 0 + r 1 1 * r 1 1 + r 1 2 * r 1 2 = 1 := by
    simpa using orth_row_entry horth 1 1
  have g12 : r 1 0 * r 2 0 + r 1 1 * r 2 1 + r 1 2 * r 2 2 = 0 := by
    simpa using orth_row_entry horth 1 2
  have g22 : r 2 0 * r 2 0 + r 2 1 * r 2 1 + r 2 2 * r 2 2 = 1 := by
    simpa using orth_row_entry horth 2 2
  have hadjM := rot_adjugate horth hdet
  rw [Matrix.adjugate_fin_three] at hadjM
  have adj00 : r 0 0 = r 1 1 * r 2 2 - r 1 2 * r 2 1 := by
    have h := congrFun (congrFun hadjM 0) 0
    simp only [Matrix.cons_val_zero, Matrix.cons_val_one, Matrix.head_cons,
      Matrix.vecHead, Matrix.vecTail, Matrix.transpose_apply, Matrix.of_apply,
      Function.comp, Matrix.cons_val_fin_one] at h
    exact h.symm
  have adj01 : r 1 0 = -(r 0 1 * r 2 2) + r 0 2 * r 2 1 := by
    have h := congrFun (congrFun hadjM 0) 1
    simp only [Matrix.cons_val_zero, Matrix.cons_val_one, Matrix.head_cons,
      Matrix.vecHead, Matrix.vecTail, Matrix.transpose_apply, Matrix.of_apply,
      Function.comp, Matrix.cons_val_fin_one] at h
    exact h.symm
  have adj02 : r 2 0 = r 0 1 * r 1 2 - r 0 2 * r 1 1 := by
    have h := congrFun (congrFun hadjM 0) 2
    simp only [Matrix.cons_val_zero, Matrix.cons_val_one, Matrix.head_cons,
      Matrix.vecHead, Matrix.vecTail, Matrix.transpose_apply, Matrix.of_apply,
      Function.comp, Matrix.cons_val_fin_one] at h
    exact h.symm
  have adj10 : r 0 1 = -(r 1 0 * r 2 2) + r 1 2 * r 2 0 := by
    have h := congrFun (congrFun hadjM 1) 0
    simp only [Matrix.cons_val_zero, Matrix.cons_val_one, Matrix.head_cons,
      Matrix.vecHead, Matrix.vecTail, Matrix.transpose_apply, Matrix.of_apply,
      Function.comp, Matrix.cons_val_fin_one] at h
    exact h.symm
  have adj11 : r 1 1 = r 0 0 * r 2 2 - r 0 2 * r 2 0 := by
    have h := congrFun (congrFun hadjM 1) 1
    simp only [Matrix.cons_val_zero, Matrix.cons_val_one, Matrix.head_cons,
      Matrix.vecHead, Matrix.vecTail, Matrix.transpose_apply, Matrix.of_apply,
      Function.comp, Matrix.cons_val_fin_one] at h
    exact h.symm
  have adj12 : r 2 1 = -(r 0 0 * r 1 2) + r 0 2 * r 1 0 := by
    have h := congrFun (congrFun hadjM 1) 2
    simp only [Matrix.cons_val_zero, Matrix.cons_val_one, Matrix.head_cons,
      Matrix.vecHead, Matrix.vecTail, Matrix.transpose_apply, Matrix.of_apply,
      Function.comp, Matrix.cons_val_fin_one] at h
    exact h.symm
  have adj20 : r 0 2 = r 1 0 * r 2 1 - r 1 1 * r 2 0 := by
    have h := congrFun (congrFun hadjM 2) 0
    simp only [Matrix.cons_val_zero, Matrix.cons_val_one, Matrix.head_cons,
      Matrix.vecHead, Matrix.vecTail, Matrix.transpose_apply, Matrix.of_apply,
      Function.comp, Matrix.cons_val_fin_one] at h
    exact h.symm
  have adj21 : r 1 2 = -(r 0 0 * r 2 1) + r 0 1 * r 2 0 := by
    have h := congrFun (congrFun hadjM 2) 1
    simp only [Matrix.cons_val_zero, Matrix.cons_val_one, Matrix.head_cons,
      Matrix.vecHead, Matrix.vecTail, Matrix.transpose_apply, Matrix.of_apply,
      Function.comp, Matrix.cons_val_fin_one] at h
    exact h.symm
  have adj22 : r 2 2 = r 0 0 * r 1 1 - r 0 1 * r 1 0 := by
    have h := congrFun (congrFun hadjM 2) 2
    simp only [Matrix.cons_val_zero, Matrix.cons_val_one, Matrix.head_cons,
      Matrix.vecHead, Matrix.vecTail, Matrix.transpose_apply, Matrix.of_apply,
      Function.comp, Matrix.cons_val_fin_one] at h
    exact h.symm
  have hp3 : (1:ℝ) ≤ 1 + r 0 0 - r 1 1 - r 2 2 := by
    simpa [quatDenomPre] using hp
  have hprod1 : (r 0 1 + r 1 0) ^ 2 = (1 + r 0 0 - r 1 1 - r 2 2) * (1 - r 0 0 + r 1 1 - r 2 2) := by
    linear_combination (1) * h00 + (1) * h11 + (-1) * g22 + (2) * adj22
  have hprod2 : (r 0 2 + r 2 0) ^ 2 = (1 + r 0 0 - r 1 1 - r 2 2) * (1 - r 0 0 - r 1 1 + r 2 2) := by
    linear_combination (1) * h00 + (1) * h22 + (-1) * g11 + (2) * adj11
  have hprod3 : (r 1 2 - r 2 1) ^ 2 = (1 + r 0 0 - r 1 1 - r 2 2) * (1 + r 0 0 + r 1 1 + r 2 2) := by
    linear_combination (-1) * h00 + (1) * g11 + (1) * g22 + (-2) * adj00
  have hq1 : (0:ℝ) ≤ 1 - r 0 0 + r 1 1 - r 2 2 :=
    nonneg_of_sq_eq_mul _ _ _ hprod1 hp3
  have hq2 : (0:ℝ) ≤ 1 - r 0 0 - r 1 1 + r 2 2 :=
    nonneg_of_sq_eq_mul _ _ _ hprod2 hp3
  have hq3 : (0:ℝ) ≤ 1 + r 0 0 + r 1 1 + r 2 2 :=
    nonneg_of_sq_eq_mul _ _ _ hprod3 hp3
  have hP4 : 1 + r 0 0 - r 1 1 - r 2 2 ≤ 4 := by linarith
  have hq14 : 1 - r 0 0 + r 1 1 - r 2 2 ≤ 4 := by linarith
  have hq24 : 1 - r 0 0 - r 1 1 + r 2 2 ≤ 4 := by linarith
  have hq34 : 1 + r 0 0 + r 1 1 + r 2 2 ≤ 4 := by linarith
  have hw1 : |r 0 1 + r 1 0| ≤ 4 :=
    abs_le_four_of_sq _ (sq_le_sixteen_of_mul _ _ _ hprod1
      (by linarith [hp3]) hP4 hq1 hq14)
  have hw2 : |r 0 2 + r 2 0| ≤ 4 :=
    abs_le_four_of_sq _ (sq_le_sixteen_of_mul _ _ _ hprod2
      (by linarith [hp3]) hP4 hq2 hq24)
  have hw3 : |r 1 2 - r 2 1| ≤ 4 :=
    abs_le_four_of_sq _ (sq_le_sixteen_of_mul _ _ _ hprod3
      (by linarith [hp3]) hP4 hq3 hq34)
  have hwP : |1 + r 0 0 - r 1 1 - r 2 2| ≤ 4 := by
    rw [abs_of_nonneg (by linarith)]
    exact hP4
  have hSu : (1 + r 0 0 - r 1 1 - r 2 2 + 1e-6) ^ 2 + (r 0 1 + r 1 0) ^ 2 + (r 0 2 + r 2 0) ^ 2 + (r 1 2 - r 2 1) ^ 2
      = 4 * (1 + r 0 0 - r 1 1 - r 2 2) + 2e-6 * (1 + r 0 0 - r 1 1 - r 2 2) + 1e-12 := by
    linear_combination (1) * h00 + (1) * h11 + (1) * h22 + (-2) * adj00 + (2) * adj11 + (2) * adj22
  have hS4 : (4:ℝ) ≤ (1 + r 0 0 - r 1 1 - r 2 2 + 1e-6) ^ 2 + (r 0 1 + r 1 0) ^ 2 + (r 0 2 + r 2 0) ^ 2 + (r 1 2 - r 2 1) ^ 2 := by
    linarith [hSu, hp3]
  have hdpos : 0 < quatDenom r 0 := by
    simp only [quatDenom]
    positivity
  have hdne : 4 * quatDenom r 0 ≠ 0 := ne_of_gt (by linarith)
  have hd2 : (2 * quatDenom r 0) ^ 2 = 1e-6 + (1 + r 0 0 - r 1 1 - r 2 2) := by
    have h1 : (2 * quatDenom r 0) ^ 2
        = Real.sqrt (1e-6 + |quatDenomPre r 0|) ^ 2 := by
      simp only [quatDenom]
      ring
    rw [h1, Real.sq_sqrt (by positivity),
      abs_of_nonneg (le_trans zero_le_one hp)]
    simp [quatDenomPre]
  have hq : quatCases r 0 = fun i =>
      (![1 + r 0 0 - r 1 1 - r 2 2 + 1e-6, r 0 1 + r 1 0, r 0 2 + r 2 0, r 1 2 - r 2 1] : Fin 4 → ℝ) i / (4 * quatDenom r 0) := by
    funext i
    fin_cases i
    · show quatDenom r 0 = (1 + r 0 0 - r 1 1 - r 2 2 + 1e-6) / (4 * quatDenom r 0)
      rw [eq_div_iff hdne]
      linear_combination hd2
    · rfl
    · rfl
    · rfl
  have hM : ∀ a b : Fin 3, quaternions_to_so3_matrix (quatCases r 0) a b =
      ((1 + r 0 0 - r 1 1 - r 2 2 + 1e-6) ^ 2 + (r 0 1 + r 1 0) ^ 2 + (r 0 2 + r 2 0) ^ 2 + (r 1 2 - r 2 1) ^ 2)⁻¹ *
        quadQ (![1 + r 0 0 - r 1 1 - r 2 2 + 1e-6, r 0 1 + r 1 0, r 0 2 + r 2 0, r 1 2 - r 2 1]) a b := by
    intro a b
    rw [hq, q2m_div_entry _ _ hdne a b]
    rfl
  intro a b
  fin_cases a <;> fin_cases b
  · show |quaternions_to_so3_matrix (quatCases r 0) 0 0 - r 0 0| ≤ 1e-5
    rw [hM 0 0]
    have hd00 : ((1 + r 0 0 - r 1 1 - r 2 2 + 1e-6) * (1 + r 0 0 - r 1 1 - r 2 2 + 1e-6) - (r 0 1 + r 1 0) * (r 0 1 + r 1 0) - (r 0 2 + r 2 0) * (r 0 2 + r 2 0) + (r 1 2 - r 2 1) * (r 1 2 - r 2 1))
        - r 0 0 * ((1 + r 0 0 - r 1 1 - r 2 2 + 1e-6) ^ 2 + (r 0 1 + r 1 0) ^ 2 + (r 0 2 + r 2 0) ^ 2 + (r 1 2 - r 2 1) ^ 2)
        = 1e-6 * (2 * (1 + r 0 0 - r 1 1 - r 2 2) - 2 * (1 + r 0 0 - r 1 1 - r 2 2) * r 0 0)
          + 1e-12 * (1 - r 0 0) := by
      linear_combination (-3) * h00 + (-1) * h11 + (-1) * h22 + (2) * g11 + (2) * g22 + (-2) * adj00 + (-2) * adj11 + (-2) * adj22
        - r 0 0 * ((1) * h00 + (1) * h11 + (1) * h22 + (-2) * adj00 + (2) * adj11 + (2) * adj22)
    exact c5_final _ ((1 + r 0 0 - r 1 1 - r 2 2 + 1e-6) * (1 + r 0 0 - r 1 1 - r 2 2 + 1e-6) - (r 0 1 + r 1 0) * (r 0 1 + r 1 0) - (r 0 2 + r 2 0) * (r 0 2 + r 2 0) + (r 1 2 - r 2 1) * (r 1 2 - r 2 1)) (r 0 0) hS4
      (by rw [hd00]
          exact c5_num (1 + r 0 0 - r 1 1 - r 2 2) (r 0 0) (2 * (1 + r 0 0 - r 1 1 - r 2 2)) 1 (by linarith) hP4
            (rot_entry_abs_le_one horth 0 0) (abs_two_mul_le_eight _ hwP) (by norm_num))
  · show |quaternions_to_so3_matrix (quatCases r 0) 0 1 - r 0 1| ≤ 1e-5
    rw [hM 0 1]
    have hd01 : (2 * ((1 + r 0 0 - r 1 1 - r 2 2 + 1e-6) * (r 0 1 + r 1 0) + (r 0 2 + r 2 0) * (r 1 2 - r 2 1)))
        - r 0 1 * ((1 + r 0 0 - r 1 1 - r 2 2 + 1e-6) ^ 2 + (r 0 1 + r 1 0) ^ 2 + (r 0 2 + r 2 0) ^ 2 + (r 1 2 - r 2 1) ^ 2)
        = 1e-6 * (2 * (r 0 1 + r 1 0) - 2 * (1 + r 0 0 - r 1 1 - r 2 2) * r 0 1)
          + 1e-12 * (0 - r 0 1) := by
      linear_combination (-2) * h01 + (2) * g01 + (2) * adj01 + (-2) * adj10
        - r 0 1 * ((1) * h00 + (1) * h11 + (1) * h22 + (-2) * adj00 + (2) * adj11 + (2) * adj22)
    exact c5_final _ (2 * ((1 + r 0 0 - r 1 1 - r 2 2 + 1e-6) * (r 0 1 + r 1 0) + (r 0 2 + r 2 0) * (r 1 2 - r 2 1))) (r 0 1) hS4
      (by rw [hd01]
          exact c5_num (1 + r 0 0 - r 1 1 - r 2 2) (r 0 1) (2 * (r 0 1 + r 1 0)) 0 (by linarith) hP4
            (rot_entry_abs_le_one horth 0 1) (abs_two_mul_le_eight _ hw1) (by norm_num))
  · show |quaternions_to_so3_matrix (quatCases r 0) 0 2 - r 0 2| ≤ 1e-5
    rw [hM 0 2]
    have hd02 : (2 * ((1 + r 0 0 - r 1 1 - r 2 2 + 1e-6) * (r 0 2 + r 2 0) - (r 0 1 + r 1 0) * (r 1 2 - r 2 1)))
        - r 0 2 * ((1 + r 0 0 - r 1 1 - r 2 2 + 1e-6) ^ 2 + (r 0 1 + r 1 0) ^ 2 + (r 0 2 + r 2 0) ^ 2 + (r 1 2 - r 2 1) ^ 2)
        = 1e-6 * (2 * (r 0 2 + r 2 0) - 2 * (1 + r 0 0 - r 1 1 - r 2 2) * r 0 2)
          + 1e-12 * (0 - r 0 2) := by
      linear_combination (-2) * h02 + (2) * g02 + (2) * adj02 + (-2) * adj20
        - r 0 2 * ((1) * h00 + (1) * h11 + (1) * h22 + (-2) * adj00 + (2) * adj11 + (2) * adj22)
    exact c5_final _ (2 * ((1 + r 0 0 - r 1 1 - r 2 2 + 1e-6) * (r 0 2 + r 2 0) - (r 0 1 + r 1 0) * (r 1 2 - r 2 1))) (r 0 2) hS4
      (by rw [hd02]
          exact c5_num (1 + r 0 0 - r 1 1 - r 2 2) (r 0 2) (2 * (r 0 2 + r 2 0)) 0 (by linarith) hP4
            (rot_entry_abs_le_one horth 0 2) (abs_two_mul_le_eight _ hw2) (by norm_num))
  · show |quaternions_to_so3_matrix (quatCases r 0) 1 0 - r 1 0| ≤ 1e-5
    rw [hM 1 0]
    have hd10 : (2 * ((1 + r 0 0 - r 1 1 - r 2 2 + 1e-6) * (r 0 1 + r 1 0) - (r 0 2 + r 2 0) * (r 1 2 - r 2 1)))
        - r 1 0 * ((1 + r 0 0 - r 1 1 - r 2 2 + 1e-6) ^ 2 + (r 0 1 + r 1 0) ^ 2 + (r 0 2 + r 2 0) ^ 2 + (r 1 2 - r 2 1) ^ 2)
        = 1e-6 * (2 * (r 0 1 + r 1 0) - 2 * (1 + r 0 0 - r 1 1 - r 2 2) * r 1 0)
          + 1e-12 * (0 - r 1 0) := by
      linear_combination (2) * h01 + (-2) * g01 + (-2) * adj01 + (2) * adj10
        - r 1 0 * ((1) * h00 + (1) * h11 + (1) * h22 + (-2) * adj00 + (2) * adj11 + (2) * adj22)
    exact c5_final _ (2 * ((1 + r 0 0 - r 1 1 - r 2 2 + 1e-6) * (r 0 1 + r 1 0) - (r 0 2 + r 2 0) * (r 1 2 - r 2 1))) (r 1 0) hS4
      (by rw [hd10]
          exact c5_num (1 + r 0 0 - r 1 1 - r 2 2) (r 1 0) (2 * (r 0 1 + r 1 0)) 0 (by linarith) hP4
            (rot_entry_abs_le_one horth 1 0) (abs_two_mul_le_eight _ hw1) (by norm_num))
  · show |quaternions_to_so3_matrix (quatCases r 0) 1 1 - r 1 1| ≤ 1e-5
    rw [hM 1 1]
    have hd11 : (-(1 + r 0 0 - r 1 1 - r 2 2 + 1e-6) * (1 + r 0 0 - r 1 1 - r 2 2 + 1e-6) + (r 0 1 + r 1 0) * (r 0 1 + r 1 0) - (r 0 2 + r 2 0) * (r 0 2 + r 2 0) + (r 1 2 - r 2 1) * (r 1 2 - r 2 1))
        - r 1 1 * ((1 + r 0 0 - r 1 1 - r 2 2 + 1e-6) ^ 2 + (r 0 1 + r 1 0) ^ 2 + (r 0 2 + r 2 0) ^ 2 + (r 1 2 - r 2 1) ^ 2)
        = 1e-6 * (2 * (-(1 + r 0 0 - r 1 1 - r 2 2)) - 2 * (1 + r 0 0 - r 1 1 - r 2 2) * r 1 1)
          + 1e-12 * ((-1) - r 1 1) := by
      linear_combination (-1) * h00 + (1) * h11 + (-1) * h22 + (2) * g11 + (-2) * adj00 + (-2) * adj11 + (2) * adj22
        - r 1 1 * ((1) * h00 + (1) * h11 + (1) * h22 + (-2) * adj00 + (2) * adj11 + (2) * adj22)
    exact c5_final _ (-(1 + r 0 0 - r 1 1 - r 2 2 + 1e-6) * (1 + r 0 0 - r 1 1 - r 2 2 + 1e-6) + (r 0 1 + r 1 0) * (r 0 1 + r 1 0) - (r 0 2 + r 2 0) * (r 0 2 + r 2 0) + (r 1 2 - r 2 1) * (r 1 2 - r 2 1)) (r 1 1) hS4
      (by rw [hd11]
          exact c5_num (1 + r 0 0 - r 1 1 - r 2 2) (r 1 1) (2 * (-(1 + r 0 0 - r 1 1 - r 2 2))) (-1) (by linarith) hP4
            (rot_entry_abs_le_one horth 1 1) (abs_two_mul_le_eight _ (by rw [abs_neg]; exact hwP)) (by norm_num))
  · show |quaternions_to_so3_matrix (quatCases r 0) 1 2 - r 1 2| ≤ 1e-5
    rw [hM 1 2]
    have hd12 : (2 * ((r 0 1 + r 1 0) * (r 0 2 + r 2 0) + (1 + r 0 0 - r 1 1 - r 2 2 + 1e-6) * (r 1 2 - r 2 1)))
        - r 1 2 * ((1 + r 0 0 - r 1 1 - r 2 2 + 1e-6) ^ 2 + (r 0 1 + r 1 0) ^ 2 + (r 0 2 + r 2 0) ^ 2 + (r 1 2 - r 2 1) ^ 2)
        = 1e-6 * (2 * (r 1 2 - r 2 1) - 2 * (1 + r 0 0 - r 1 1 - r 2 2) * r 1 2)
          + 1e-12 * (0 - r 1 2) := by
      linear_combination (2) * h12 + (2) * g12 + (-2) * adj12 + (-2) * adj21
        - r 1 2 * ((1) * h00 + (1) * h11 + (1) * h22 + (-2) * adj00 + (2) * adj11 + (2) * adj22)
    exact c5_final _ (2 * ((r 0 1 + r 1 0) * (r 0 2 + r 2 0) + (1 + r 0 0 - r 1 1 - r 2 2 + 1e-6) * (r 1 2 - r 2 1))) (r 1 2) hS4
      (by rw [hd12]
          exact c5_num (1 + r 0 0 - r 1 1 - r 2 2) (r 1 2) (2 * (r 1 2 - r 2 1)) 0 (by linarith) hP4
            (rot_entry_abs_le_one horth 1 2) (abs_two_mul_le_eight _ hw3) (by norm_num))
  · show |quaternions_to_so3_matrix (quatCases r 0) 2 0 - r 2 0| ≤ 1e-5
    rw [hM 2 0]
    have hd20 : (2 * ((1 + r 0 0 - r 1 1 - r 2 2 + 1e-6) * (r 0 2 + r 2 0) + (r 0 1 + r 1 0) * (r 1 2 - r 2 1)))
        - r 2 0 * ((1 + r 0 0 - r 1 1 - r 2 2 + 1e-6) ^ 2 + (r 0 1 + r 1 0) ^ 2 + (r 0 2 + r 2 0) ^ 2 + (r 1 2 - r 2 1) ^ 2)
        = 1e-6 * (2 * (r 0 2 + r 2 0) - 2 * (1 + r 0 0 - r 1 1 - r 2 2) * r 2 0)
          + 1e-12 * (0 - r 2 0) := by
      linear_combination (2) * h02 + (-2) * g02 + (-2) * adj02 + (2) * adj20
        - r 2 0 * ((1) * h00 + (1) * h11 + (1) * h22 + (-2) * adj00 + (2) * adj11 + (2) * adj22)
    exact c5_final _ (2 * ((1 + r 0 0 - r 1 1 - r 2 2 + 1e-6) * (r 0 2 + r 2 0) + (r 0 1 + r 1 0) * (r 1 2 - r 2 1))) (r 2 0) hS4
      (by rw [hd20]
          exact c5_num (1 + r 0 0 - r 1 1 - r 2 2) (r 2 0) (2 * (r 0 2 + r 2 0)) 0 (by linarith) hP4
            (rot_entry_abs_le_one horth 2 0) (abs_two_mul_le_eight _ hw2) (by norm_num))
  · show |quaternions_to_so3_matrix (quatCases r 0) 2 1 - r 2 1| ≤ 1e-5
    rw [hM 2 1]
    have hd21 : (2 * ((r 0 1 + r 1 0) * (r 0 2 + r 2 0) - (1 + r 0 0 - r 1 1 - r 2 2 + 1e-6) * (r 1 2 - r 2 1)))
        - r 2 1 * ((1 + r 0 0 - r 1 1 - r 2 2 + 1e-6) ^ 2 + (r 0 1 + r 1 0) ^ 2 + (r 0 2 + r 2 0) ^ 2 + (r 1 2 - r 2 1) ^ 2)
        = 1e-6 * (2 * (-(r 1 2 - r 2 1)) - 2 * (1 + r 0 0 - r 1 1 - r 2 2) * r 2 1)
          + 1e-12 * (0 - r 2 1) := by
      linear_combination (2) * h12 + (2) * g12 + (-2) * adj12 + (-2) * adj21
        - r 2 1 * ((1) * h00 + (1) * h11 + (1) * h22 + (-2) * adj00 + (2) * adj11 + (2) * adj22)
    exact c5_final _ (2 * ((r 0 1 + r 1 0) * (r 0 2 + r 2 0) - (1 + r 0 0 - r 1 1 - r 2 2 + 1e-6) * (r 1 2 - r 2 1))) (r 2 1) hS4
      (by rw [hd21]
          exact c5_num (1 + r 0 0 - r 1 1 - r 2 2) (r 2 1) (2 * (-(r 1 2 - r 2 1))) 0 (by linarith) hP4
            (rot_entry_abs_le_one horth 2 1) (abs_two_mul_le_eight _ (by rw [abs_neg]; exact hw3)) (by norm_num))
  · show |quaternions_to_so3_matrix (quatCases r 0) 2 2 - r 2 2| ≤ 1e-5
    rw [hM 2 2]
    have hd22 : (-(1 + r 0 0 - r 1 1 - r 2 2 + 1e-6) * (1 + r 0 0 - r 1 1 - r 2 2 + 1e-6) - (r 0 1 + r 1 0) * (r 0 1 + r 1 0) + (r 0 2 + r 2 0) * (r 0 2 + r 2 0) + (r 1 2 - r 2 1) * (r 1 2 - r 2 1))
        - r 2 2 * ((1 + r 0 0 - r 1 1 - r 2 2 + 1e-6) ^ 2 + (r 0 1 + r 1 0) ^ 2 + (r 0 2 + r 2 0) ^ 2 + (r 1 2 - r 2 1) ^ 2)
        = 1e-6 * (2 * (-(1 + r 0 0 - r 1 1 - r 2 2)) - 2 * (1 + r 0 0 - r 1 1 - r 2 2) * r 2 2)
          + 1e-12 * ((-1) - r 2 2) := by
      linear_combination (-1) * h00 + (-1) * h11 + (1) * h22 + (2) * g22 + (-2) * adj00 + (2) * adj11 + (-2) * adj22
        - r 2 2 * ((1) * h00 + (1) * h11 + (1) * h22 + (-2) * adj00 + (2) * adj11 + (2) * adj22)
    exact c5_final _ (-(1 + r 0 0 - r 1 1 - r 2 2 + 1e-6) * (1 + r 0 0 - r 1 1 - r 2 2 + 1e-6) - (r 0 1 + r 1 0) * (r 0 1 + r 1 0) + (r 0 2 + r 2 0) * (r 0 2 + r 2 0) + (r 1 2 - r 2 1) * (r 1 2 - r 2 1)) (r 2 2) hS4
      (by rw [hd22]
          exact c5_num (1 + r 0 0 - r 1 1 - r 2 2) (r 2 2) (2 * (-(1 + r 0 0 - r 1 1 - r 2 2))) (-1) (by linarith) hP4
            (rot_entry_abs_le_one horth 2 2) (abs_two_mul_le_eight _ (by rw [abs_neg]; exact hwP)) (by norm_num))

set_option maxHeartbeats 2000000 in
theorem c5_case1 {r : M3} (horth : rᵀ * r = 1) (hdet : r.det = 1)
    (hp : 1 ≤ quatDenomPre r 1) :
    ∀ a b : Fin 3, |quaternions_to_so3_matrix (quatCases r 1) a b - r a b| ≤ 1e-5 := by
  have h00 : r 0 0 * r 0 0 + r 1 0 * r 1 0 + r 2 0 * r 2 0 = 1 := by
    simpa using orth_col_entry horth 0 0
  have h01 : r 0 0 * r 0 1 + r 1 0 * r 1 1 + r 2 0 * r 2 1 = 0 := by
    simpa using orth_col_entry horth 0 1
  have h02 : r 0 0 * r 0 2 + r 1 0 * r 1 2 + r 2 0 * r 2 2 = 0 := by
    simpa using orth_col_entry horth 0 2
  have h11 : r 0 1 * r 0 1 + r 1 1 * r 1 1 + r 2 1 * r 2 1 = 1 := by
    simpa using orth_col_entry horth 1 1
  have h12 : r 0 1 * r 0 2 + r 1 1 * r 1 2 + r 2 1 * r 2 2 = 0 := by
    simpa using orth_col_entry horth 1 2
  have h22 : r 0 2 * r 0 2 + r 1 2 * r 1 2 + r 2 2 * r 2 2 = 1 := by
    simpa using orth_col_entry horth 2 2
  have g01 : r 0 0 * r 1 0 + r 0 1 * r 1 1 + r 0 2 * r 1 2 = 0 := by
    simpa using orth_row_entry horth 0 1
  have g02 : r 0 0 * r 2 0 + r 0 1 * r 2 1 + r 0 2 * r 2 2 = 0 := by
    simpa using orth_row_entry horth 0 2
  have g11 : r 1 0 * r 1 0 + r 1 1 * r 1 1 + r 1 2 * r 1 2 = 1 := by
    simpa using orth_row_entry horth 1 1
  have g12 : r 1 0 * r 2 0 + r 1 1 * r 2 1 + r 1 2 * r 2 2 = 0 := by
    simpa using orth_row_entry horth 1 2
  have g22 : r 2 0 * r 2 0 + r 2 1 * r 2 1 + r 2 2 * r 2 2 = 1 := by
    simpa using orth_row_entry horth 2 2
  have hadjM := rot_adjugate horth hdet
  rw [Matrix.adjugate_fin_three] at hadjM
  have adj00 : r 0 0 = r 1 1 * r 2 2 - r 1 2 * r 2 1 := by
    have h := congrFun (congrFun hadjM 0) 0
    simp only [Matrix.cons_val_zero, Matrix.cons_val_one, Matrix.head_cons,
      Matrix.vecHead, Matrix.vecTail, Matrix.transpose_apply, Matrix.of_apply,
      Function.comp, Matrix.cons_val_fin_one] at h
    exact h.symm
  have adj01 : r 1 0 = -(r 0 1 * r 2 2) + r 0 2 * r 2 1 := by
    have h := congrFun (congrFun hadjM 0) 1
    simp only [Matrix.cons_val_zero, Matrix.cons_val_one, Matrix.head_cons,
      Matrix.vecHead, Matrix.vecTail, Matrix.transpose_apply, Matrix.of_apply,
      Function.comp, Matrix.cons_val_fin_one] at h
    exact h.symm
  have adj02 : r 2 0 = r 0 1 * r 1 2 - r 0 2 * r 1 1 := by
    have h := congrFun (congrFun hadjM 0) 2
    simp only [Matrix.cons_val_zero, Matrix.cons_val_one, Matrix.head_cons,
      Matrix.vecHead, Matrix.vecTail, Matrix.transpose_apply, Matrix.of_apply,
      Function.comp, Matrix.cons_val_fin_one] at h
    exact h.symm
  have adj10 : r 0 1 = -(r 1 0 * r 2 2) + r 1 2 * r 2 0 := by
    have h := congrFun (congrFun hadjM 1) 0
    simp only [Matrix.cons_val_zero, Matrix.cons_val_one, Matrix.head_cons,
      Matrix.vecHead, Matrix.vecTail, Matrix.transpose_apply, Matrix.of_apply,
      Function.comp, Matrix.cons_val_fin_one] at h
    exact h.symm
  have adj11 : r 1 1 = r 0 0 * r 2 2 - r 0 2 * r 2 0 := by
    have h := congrFun (congrFun hadjM 1) 1
    simp only [Matrix.cons_val_zero, Matrix.cons_val_one, Matrix.head_cons,
      Matrix.vecHead, Matrix.vecTail, Matrix.transpose_apply, Matrix.of_apply,
      Function.comp, Matrix.cons_val_fin_one] at h
    exact h.symm
  have adj12 : r 2 1 = -(r 0 0 * r 1 2) + r 0 2 * r 1 0 := by
    have h := congrFun (congrFun hadjM 1) 2
    simp only [Matrix.cons_val_zero, Matrix.cons_val_one, Matrix.head_cons,
      Matrix.vecHead, Matrix.vecTail, Matrix.transpose_apply, Matrix.of_apply,
      Function.comp, Matrix.cons_val_fin_one] at h
    exact h.symm
  have adj20 : r 0 2 = r 1 0 * r 2 1 - r 1 1 * r 2 0 := by
    have h := congrFun (congrFun hadjM 2) 0
    simp only [Matrix.cons_val_zero, Matrix.cons_val_one, Matrix.head_cons,
      Matrix.vecHead, Matrix.vecTail, Matrix.transpose_apply, Matrix.of_apply,
      Function.comp, Matrix.cons_val_fin_one] at h
    exact h.symm
  have adj21 : r 1 2 = -(r 0 0 * r 2 1) + r 0 1 * r 2 0 := by
    have h := congrFun (congrFun hadjM 2) 1
    simp only [Matrix.cons_val_zero, Matrix.cons_val_one, Matrix.head_cons,
      Matrix.vecHead, Matrix.vecTail, Matrix.transpose_apply, Matrix.of_apply,
      Function.comp, Matrix.cons_val_fin_one] at h
    exact h.symm
  have adj22 : r 2 2 = r 0 0 * r 1 1 - r 0 1 * r 1 0 := by
    have h := congrFun (congrFun hadjM 2) 2
    simp only [Matrix.cons_val_zero, Matrix.cons_val_one, Matrix.head_cons,
      Matrix.vecHead, Matrix.vecTail, Matrix.transpose_apply, Matrix.of_apply,
      Function.comp, Matrix.cons_val_fin_one] at h
    exact h.symm
  have hp3 : (1:ℝ) ≤ 1 - r 0 0 + r 1 1 - r 2 2 := by
    simpa [quatDenomPre] using hp
  have hprod0 : (r 0 1 + r 1 0) ^ 2 = (1 - r 0 0 + r 1 1 - r 2 2) * (1 + r 0 0 - r 1 1 - r 2 2) := by
    linear_combination (1) * h00 + (1) * h11 + (-1) * g22 + (2) * adj22
  have hprod2 : (r 1 2 + r 2 1) ^ 2 = (1 - r 0 0 + r 1 1 - r 2 2) * (1 - r 0 0 - r 1 1 + r 2 2) := by
    linear_combination (-1) * h00 + (1) * g11 + (1) * g22 + (2) * adj00
  have hprod3 : (r 2 0 - r 0 2) ^ 2 = (1 - r 0 0 + r 1 1 - r 2 2) * (1 + r 0 0 + r 1 1 + r 2 2) := by
    linear_combination (1) * h00 + (1) * h22 + (-1) * g11 + (-2) * adj11
  have hq0 : (0:ℝ) ≤ 1 + r 0 0 - r 1 1 - r 2 2 :=
    nonneg_of_sq_eq_mul _ _ _ hprod0 hp3
  have hq2 : (0:ℝ) ≤ 1 - r 0 0 - r 1 1 + r 2 2 :=
    nonneg_of_sq_eq_mul _ _ _ hprod2 hp3
  have hq3 : (0:ℝ) ≤ 1 + r 0 0 + r 1 1 + r 2 2 :=
    nonneg_of_sq_eq_mul _ _ _ hprod3 hp3
  have hP4 : 1 - r 0 0 + r 1 1 - r 2 2 ≤ 4 := by linarith
  have hq04 : 1 + r 0 0 - r 1 1 - r 2 2 ≤ 4 := by linarith
  have hq24 : 1 - r 0 0 - r 1 1 + r 2 2 ≤ 4 := by linarith
  have hq34 : 1 + r 0 0 + r 1 1 + r 2 2 ≤ 4 := by linarith
  have hw0 : |r 0 1 + r 1 0| ≤ 4 :=
    abs_le_four_of_sq _ (sq_le_sixteen_of_mul _ _ _ hprod0
      (by linarith [hp3]) hP4 hq0 hq04)
  have hw2 : |r 1 2 + r 2 1| ≤ 4 :=
    abs_le_four_of_sq _ (sq_le_sixteen_of_mul _ _ _ hprod2
      (by linarith [hp3]) hP4 hq2 hq24)
  have hw3 : |r 2 0 - r 0 2| ≤ 4 :=
    abs_le_four_of_sq _ (sq_le_sixteen_of_mul _ _ _ hprod3
      (by linarith [hp3]) hP4 hq3 hq34)
  have hwP : |1 - r 0 0 + r 1 1 - r 2 2| ≤ 4 := by
    rw [abs_of_nonneg (by linarith)]
    exact hP4
  have hSu : (r 0 1 + r 1 0) ^ 2 + (1 - r 0 0 + r 1 1 - r 2 2 + 1e-6) ^ 2 + (r 1 2 + r 2 1) ^ 2 + (r 2 0 - r 0 2) ^ 2
      = 4 * (1 - r 0 0 + r 1 1 - r 2 2) + 2e-6 * (1 - r 0 0 + r 1 1 - r 2 2) + 1e-12 := by
    linear_combination (1) * h00 + (1) * h11 + (1) * h22 + (2) * adj00 + (-2) * adj11 + (2) * adj22
  have hS4 : (4:ℝ) ≤ (r 0 1 + r 1 0) ^ 2 + (1 - r 0 0 + r 1 1 - r 2 2 + 1e-6) ^ 2 + (r 1 2 + r 2 1) ^ 2 + (r 2 0 - r 0 2) ^ 2 := by
    linarith [hSu, hp3]
  have hdpos : 0 < quatDenom r 1 := by
    simp only [quatDenom]
    positivity
  have hdne : 4 * quatDenom r 1 ≠ 0 := ne_of_gt (by linarith)
  have hd2 : (2 * quatDenom r 1) ^ 2 = 1e-6 + (1 - r 0 0 + r 1 1 - r 2 2) := by
    have h1 : (2 * quatDenom r 1) ^ 2
        = Real.sqrt (1e-6 + |quatDenomPre r 1|) ^ 2 := by
      simp only [quatDenom]
      ring
    rw [h1, Real.sq_sqrt (by positivity),
      abs_of_nonneg (le_trans zero_le_one hp)]
    simp [quatDenomPre]
  have hq : quatCases r 1 = fun i =>
      (![r 0 1 + r 1 0, 1 - r 0 0 + r 1 1 - r 2 2 + 1e-6, r 1 2 + r 2 1, r 2 0 - r 0 2] : Fin 4 → ℝ) i / (4 * quatDenom r 1) := by
    funext i
    fin_cases i
    · rfl
    · show quatDenom r 1 = (1 - r 0 0 + r 1 1 - r 2 2 + 1e-6) / (4 * quatDenom r 1)
      rw [eq_div_iff hdne]
      linear_combination hd2
    · rfl
    · rfl
  have hM : ∀ a b : Fin 3, quaternions_to_so3_matrix (quatCases r 1) a b =
      ((r 0 1 + r 1 0) ^ 2 + (1 - r 0 0 + r 1 1 - r 2 2 + 1e-6) ^ 2 + (r 1 2 + r 2 1) ^ 2 + (r 2 0 - r 0 2) ^ 2)⁻¹ *
        quadQ (![r 0 1 + r 1 0, 1 - r 0 0 + r 1 1 - r 2 2 + 1e-6, r 1 2 + r 2 1, r 2 0 - r 0 2]) a b := by
    intro a b
    rw [hq, q2m_div_entry _ _ hdne a b]
    rfl
  intro a b
  fin_cases a <;> fin_cases b
  · show |quaternions_to_so3_matrix (quatCases r 1) 0 0 - r 0 0| ≤ 1e-5
    rw [hM 0 0]
    have hd00 : ((r 0 1 + r 1 0) * (r 0 1 + r 1 0) - (1 - r 0 0 + r 1 1 - r 2 2 + 1e-6) * (1 - r 0 0 + r 1 1 - r 2 2 + 1e-6) - (r 1 2 + r 2 1) * (r 1 2 + r 2 1) + (r 2 0 - r 0 2) * (r 2 0 - r 0 2))
        - r 0 0 * ((r 0 1 + r 1 0) ^ 2 + (1 - r 0 0 + r 1 1 - r 2 2 + 1e-6) ^ 2 + (r 1 2 + r 2 1) ^ 2 + (r 2 0 - r 0 2) ^ 2)
        = 1e-6 * (2 * (-(1 - r 0 0 + r 1 1 - r 2 2)) - 2 * (1 - r 0 0 + r 1 1 - r 2 2) * r 0 0)
          + 1e-12 * ((-1) - r 0 0) := by
      linear_combination (3) * h00 + (1) * h11 + (1) * h22 + (-2) * g11 + (-2) * g22 + (-2) * adj00 + (-2) * adj11 + (2) * adj22
        - r 0 0 * ((1) * h00 + (1) * h11 + (1) * h22 + (2) * adj00 + (-2) * adj11 + (2) * adj22)
    exact c5_final _ ((r 0 1 + r 1 0) * (r 0 1 + r 1 0) - (1 - r 0 0 + r 1 1 - r 2 2 + 1e-6) * (1 - r 0 0 + r 1 1 - r 2 2 + 1e-6) - (r 1 2 + r 2 1) * (r 1 2 + r 2 1) + (r 2 0 - r 0 2) * (r 2 0 - r 0 2)) (r 0 0) hS4
      (by rw [hd00]
          exact c5_num (1 - r 0 0 + r 1 1 - r 2 2) (r 0 0) (2 * (-(1 - r 0 0 + r 1 1 - r 2 2))) (-1) (by linarith) hP4
            (rot_entry_abs_le_one horth 0 0) (abs_two_mul_le_eight _ (by rw [abs_neg]; exact hwP)) (by norm_num))
  · show |quaternions_to_so3_matrix (quatCases r 1) 0 1 - r 0 1| ≤ 1e-5
    rw [hM 0 1]
    have hd01 : (2 * ((r 0 1 + r 1 0) * (1 - r 0 0 + r 1 1 - r 2 2 + 1e-6) + (r 1 2 + r 2 1) * (r 2 0 - r 0 2)))
        - r 0 1 * ((r 0 1 + r 1 0) ^ 2 + (1 - r 0 0 + r 1 1 - r 2 2 + 1e-6) ^ 2 + (r 1 2 + r 2 1) ^ 2 + (r 2 0 - r 0 2) ^ 2)
        = 1e-6 * (2 * (r 0 1 + r 1 0) - 2 * (1 - r 0 0 + r 1 1 - r 2 2) * r 0 1)
          + 1e-12 * (0 - r 0 1) := by
      linear_combination (2) * h01 + (-2) * g01 + (2) * adj01 + (-2) * adj10
        - r 0 1 * ((1) * h00 + (1) * h11 + (1) * h22 + (2) * adj00 + (-2) * adj11 + (2) * adj22)
    exact c5_final _ (2 * ((r 0 1 + r 1 0) * (1 - r 0 0 + r 1 1 - r 2 2 + 1e-6) + (r 1 2 + r 2 1) * (r 2 0 - r 0 2))) (r 0 1) hS4
      (by rw [hd01]
          exact c5_num (1 - r 0 0 + r 1 1 - r 2 2) (r 0 1) (2 * (r 0 1 + r 1 0)) 0 (by linarith) hP4
            (rot_entry_abs_le_one horth 0 1) (abs_two_mul_le_eight _ hw0) (by norm_num))
  · show |quaternions_to_so3_matrix (quatCases r 1) 0 2 - r 0 2| ≤ 1e-5
    rw [hM 0 2]
    have hd02 : (2 * ((r 0 1 + r 1 0) * (r 1 2 + r 2 1) - (1 - r 0 0 + r 1 1 - r 2 2 + 1e-6) * (r 2 0 - r 0 2)))
        - r 0 2 * ((r 0 1 + r 1 0) ^ 2 + (1 - r 0 0 + r 1 1 - r 2 2 + 1e-6) ^ 2 + (r 1 2 + r 2 1) ^ 2 + (r 2 0 - r 0 2) ^ 2)
        = 1e-6 * (2 * (-(r 2 0 - r 0 2)) - 2 * (1 - r 0 0 + r 1 1 - r 2 2) * r 0 2)
          + 1e-12 * (0 - r 0 2) := by
      linear_combination (2) * h02 + (2) * g02 + (-2) * adj02 + (-2) * adj20
        - r 0 2 * ((1) * h00 + (1) * h11 + (1) * h22 + (2) * adj00 + (-2) * adj11 + (2) * adj22)
    exact c5_final _ (2 * ((r 0 1 + r 1 0) * (r 1 2 + r 2 1) - (1 - r 0 0 + r 1 1 - r 2 2 + 1e-6) * (r 2 0 - r 0 2))) (r 0 2) hS4
      (by rw [hd02]
          exact c5_num (1 - r 0 0 + r 1 1 - r 2 2) (r 0 2) (2 * (-(r 2 0 - r 0 2))) 0 (by linarith) hP4
            (rot_entry_abs_le_one horth 0 2) (abs_two_mul_le_eight _ (by rw [abs_neg]; exact hw3)) (by norm_num))
  · show |quaternions_to_so3_matrix (quatCases r 1) 1 0 - r 1 0| ≤ 1e-5
    rw [hM 1 0]
    have hd10 : (2 * ((r 0 1 + r 1 0) * (1 - r 0 0 + r 1 1 - r 2 2 + 1e-6) - (r 1 2 + r 2 1) * (r 2 0 - r 0 2)))
        - r 1 0 * ((r 0 1 + r 1 0) ^ 2 + (1 - r 0 0 + r 1 1 - r 2 2 + 1e-6) ^ 2 + (r 1 2 + r 2 1) ^ 2 + (r 2 0 - r 0 2) ^ 2)
        = 1e-6 * (2 * (r 0 1 + r 1 0) - 2 * (1 - r 0 0 + r 1 1 - r 2 2) * r 1 0)
          + 1e-12 * (0 - r 1 0) := by
      linear_combination (-2) * h01 + (2) * g01 + (-2) * adj01 + (2) * adj10
        - r 1 0 * ((1) * h00 + (1) * h11 + (1) * h22 + (2) * adj00 + (-2) * adj11 + (2) * adj22)
    exact c5_final _ (2 * ((r 0 1 + r 1 0) * (1 - r 0 0 + r 1 1 - r 2 2 + 1e-6) - (r 1 2 + r 2 1) * (r 2 0 - r 0 2))) (r 1 0) hS4
      (by rw [hd10]
          exact c5_num (1 - r 0 0 + r 1 1 - r 2 2) (r 1 0) (2 * (r 0 1 + r 1 0)) 0 (by linarith) hP4
            (rot_entry_abs_le_one horth 1 0) (abs_two_mul_le_eight _ hw0) (by norm_num))
  · show |quaternions_to_so3_matrix (quatCases r 1) 1 1 - r 1 1| ≤ 1e-5
    rw [hM 1 1]
    have hd11 : (-(r 0 1 + r 1 0) * (r 0 1 + r 1 0) + (1 - r 0 0 + r 1 1 - r 2 2 + 1e-6) * (1 - r 0 0 + r 1 1 - r 2 2 + 1e-6) - (r 1 2 + r 2 1) * (r 1 2 + r 2 1) + (r 2 0 - r 0 2) * (r 2 0 - r 0 2))
        - r 1 1 * ((r 0 1 + r 1 0) ^ 2 + (1 - r 0 0 + r 1 1 - r 2 2 + 1e-6) ^ 2 + (r 1 2 + r 2 1) ^ 2 + (r 2 0 - r 0 2) ^ 2)
        = 1e-6 * (2 * (1 - r 0 0 + r 1 1 - r 2 2) - 2 * (1 - r 0 0 + r 1 1 - r 2 2) * r 1 1)
          + 1e-12 * (1 - r 1 1) := by
      linear_combination (1) * h00 + (-1) * h11 + (1) * h22 + (-2) * g11 + (-2) * adj00 + (-2) * adj11 + (-2) * adj22
        - r 1 1 * ((1) * h00 + (1) * h11 + (1) * h22 + (2) * adj00 + (-2) * adj11 + (2) * adj22)
    exact c5_final _ (-(r 0 1 + r 1 0) * (r 0 1 + r 1 0) + (1 - r 0 0 + r 1 1 - r 2 2 + 1e-6) * (1 - r 0 0 + r 1 1 - r 2 2 + 1e-6) - (r 1 2 + r 2 1) * (r 1 2 + r 2 1) + (r 2 0 - r 0 2) * (r 2 0 - r 0 2)) (r 1 1) hS4
      (by rw [hd11]
          exact c5_num (1 - r 0 0 + r 1 1 - r 2 2) (r 1 1) (2 * (1 - r 0 0 + r 1 1 - r 2 2)) 1 (by linarith) hP4
            (rot_entry_abs_le_one horth 1 1) (abs_two_mul_le_eight _ hwP) (by norm_num))
  · show |quaternions_to_so3_matrix (quatCases r 1) 1 2 - r 1 2| ≤ 1e-5
    rw [hM 1 2]
    have hd12 : (2 * ((1 - r 0 0 + r 1 1 - r 2 2 + 1e-6) * (r 1 2 + r 2 1) + (r 0 1 + r 1 0) * (r 2 0 - r 0 2)))
        - r 1 2 * ((r 0 1 + r 1 0) ^ 2 + (1 - r 0 0 + r 1 1 - r 2 2 + 1e-6) ^ 2 + (r 1 2 + r 2 1) ^ 2 + (r 2 0 - r 0 2) ^ 2)
        = 1e-6 * (2 * (r 1 2 + r 2 1) - 2 * (1 - r 0 0 + r 1 1 - r 2 2) * r 1 2)
          + 1e-12 * (0 - r 1 2) := by
      linear_combination (-2) * h12 + (2) * g12 + (2) * adj12 + (-2) * adj21
        - r 1 2 * ((1) * h00 + (1) * h11 + (1) * h22 + (2) * adj00 + (-2) * adj11 + (2) * adj22)
    exact c5_final _ (2 * ((1 - r 0 0 + r 1 1 - r 2 2 + 1e-6) * (r 1 2 + r 2 1) + (r 0 1 + r 1 0) * (r 2 0 - r 0 2))) (r 1 2) hS4
      (by rw [hd12]
          exact c5_num (1 - r 0 0 + r 1 1 - r 2 2) (r 1 2) (2 * (r 1 2 + r 2 1)) 0 (by linarith) hP4
            (rot_entry_abs_le_one horth 1 2) (abs_two_mul_le_eight _ hw2) (by norm_num))
  · show |quaternions_to_so3_matrix (quatCases r 1) 2 0 - r 2 0| ≤ 1e-5
    rw [hM 2 0]
    have hd20 : (2 * ((r 0 1 + r 1 0) * (r 1 2 + r 2 1) + (1 - r 0 0 + r 1 1 - r 2 2 + 1e-6) * (r 2 0 - r 0 2)))
        - r 2 0 * ((r 0 1 + r 1 0) ^ 2 + (1 - r 0 0 + r 1 1 - r 2 2 + 1e-6) ^ 2 + (r 1 2 + r 2 1) ^ 2 + (r 2 0 - r 0 2) ^ 2)
        = 1e-6 * (2 * (r 2 0 - r 0 2) - 2 * (1 - r 0 0 + r 1 1 - r 2 2) * r 2 0)
          + 1e-12 * (0 - r 2 0) := by
      linear_combination (2) * h02 + (2) * g02 + (-2) * adj02 + (-2) * adj20
        - r 2 0 * ((1) * h00 + (1) * h11 + (1) * h22 + (2) * adj00 + (-2) * adj11 + (2) * adj22)
    exact c5_final _ (2 * ((r 0 1 + r 1 0) * (r 1 2 + r 2 1) + (1 - r 0 0 + r 1 1 - r 2 2 + 1e-6) * (r 2 0 - r 0 2))) (r 2 0) hS4
      (by rw [hd20]
          exact c5_num (1 - r 0 0 + r 1 1 - r 2 2) (r 2 0) (2 * (r 2 0 - r 0 2)) 0 (by linarith) hP4
            (rot_entry_abs_le_one horth 2 0) (abs_two_mul_le_eight _ hw3) (by norm_num))
  · show |quaternions_to_so3_matrix (quatCases r 1) 2 1 - r 2 1| ≤ 1e-5
    rw [hM 2 1]
    have hd21 : (2 * ((1 - r 0 0 + r 1 1 - r 2 2 + 1e-6) * (r 1 2 + r 2 1) - (r 0 1 + r 1 0) * (r 2 0 - r 0 2)))
        - r 2 1 * ((r 0 1 + r 1 0) ^ 2 + (1 - r 0 0 + r 1 1 - r 2 2 + 1e-6) ^ 2 + (r 1 2 + r 2 1) ^ 2 + (r 2 0 - r 0 2) ^ 2)
        = 1e-6 * (2 * (r 1 2 + r 2 1) - 2 * (1 - r 0 0 + r 1 1 - r 2 2) * r 2 1)
          + 1e-12 * (0 - r 2 1) := by
      linear_combination (2) * h12 + (-2) * g12 + (-2) * adj12 + (2) * adj21
        - r 2 1 * ((1) * h00 + (1) * h11 + (1) * h22 + (2) * adj00 + (-2) * adj11 + (2) * adj22)
    exact c5_final _ (2 * ((1 - r 0 0 + r 1 1 - r 2 2 + 1e-6) * (r 1 2 + r 2 1) - (r 0 1 + r 1 0) * (r 2 0 - r 0 2))) (r 2 1) hS4
      (by rw [hd21]
          exact c5_num (1 - r 0 0 + r 1 1 - r 2 2) (r 2 1) (2 * (r 1 2 + r 2 1)) 0 (by linarith) hP4
            (rot_entry_abs_le_one horth 2 1) (abs_two_mul_le_eight _ hw2) (by norm_num))
  · show |quaternions_to_so3_matrix (quatCases r 1) 2 2 - r 2 2| ≤ 1e-5
    rw [hM 2 2]
    have hd22 : (-(r 0 1 + r 1 0) * (r 0 1 + r 1 0) - (1 - r 0 0 + r 1 1 - r 2 2 + 1e-6) * (1 - r 0 0 + r 1 1 - r 2 2 + 1e-6) + (r 1 2 + r 2 1) * (r 1 2 + r 2 1) + (r 2 0 - r 0 2) * (r 2 0 - r 0 2))
        - r 2 2 * ((r 0 1 + r 1 0) ^ 2 + (1 - r 0 0 + r 1 1 - r 2 2 + 1e-6) ^ 2 + (r 1 2 + r 2 1) ^ 2 + (r 2 0 - r 0 2) ^ 2)
        = 1e-6 * (2 * (-(1 - r 0 0 + r 1 1 - r 2 2)) - 2 * (1 - r 0 0 + r 1 1 - r 2 2) * r 2 2)
          + 1e-12 * ((-1) - r 2 2) := by
      linear_combination (-1) * h00 + (-1) * h11 + (1) * h22 + (2) * g22 + (2) * adj00 + (-2) * adj11 + (-2) * adj22
        - r 2 2 * ((1) * h00 + (1) * h11 + (1) * h22 + (2) * adj00 + (-2) * adj11 + (2) * adj22)
    exact c5_final _ (-(r 0 1 + r 1 0) * (r 0 1 + r 1 0) - (1 - r 0 0 + r 1 1 - r 2 2 + 1e-6) * (1 - r 0 0 + r 1 1 - r 2 2 + 1e-6) + (r 1 2 + r 2 1) * (r 1 2 + r 2 1) + (r 2 0 - r 0 2) * (r 2 0 - r 0 2)) (r 2 2) hS4
      (by rw [hd22]
          exact c5_num (1 - r 0 0 + r 1 1 - r 2 2) (r 2 2) (2 * (-(1 - r 0 0 + r 1 1 - r 2 2))) (-1) (by linarith) hP4
            (rot_entry_abs_le_one horth 2 2) (abs_two_mul_le_eight _ (by rw [abs_neg]; exact hwP)) (by norm_num))

set_option maxHeartbeats 2000000 in
theorem c5_case2 {r : M3} (horth : rᵀ * r = 1) (hdet : r.det = 1)
    (hp : 1 ≤ quatDenomPre r 2) :
    ∀ a b : Fin 3, |quaternions_to_so3_matrix (quatCases r 2) a b - r a b| ≤ 1e-5 := by
  have h00 : r 0 0 * r 0 0 + r 1 0 * r 1 0 + r 2 0 * r 2 0 = 1 := by
    simpa using orth_col_entry horth 0 0
  have h01 : r 0 0 * r 0 1 + r 1 0 * r 1 1 + r 2 0 * r 2 1 = 0 := by
    simpa using orth_col_entry horth 0 1
  have h02 : r 0 0 * r 0 2 + r 1 0 * r 1 2 + r 2 0 * r 2 2 = 0 := by
    simpa using orth_col_entry horth 0 2
  have h11 : r 0 1 * r 0 1 + r 1 1 * r 1 1 + r 2 1 * r 2 1 = 1 := by
    simpa using orth_col_entry horth 1 1
  have h12 : r 0 1 * r 0 2 + r 1 1 * r 1 2 + r 2 1 * r 2 2 = 0 := by
    simpa using orth_col_entry horth 1 2
  have h22 : r 0 2 * r 0 2 + r 1 2 * r 1 2 + r 2 2 * r 2 2 = 1 := by
    simpa using orth_col_entry horth 2 2
  have g01 : r 0 0 * r 1 0 + r 0 1 * r 1 1 + r 0 2 * r 1 2 = 0 := by
    simpa using orth_row_entry horth 0 1
  have g02 : r 0 0 * r 2 0 + r 0 1 * r 2 1 + r 0 2 * r 2 2 = 0 := by
    simpa using orth_row_entry horth 0 2
  have g11 : r 1 0 * r 1 0 + r 1 1 * r 1 1 + r 1 2 * r 1 2 = 1 := by
    simpa using orth_row_entry horth 1 1
  have g12 : r 1 0 * r 2 0 + r 1 1 * r 2 1 + r 1 2 * r 2 2 = 0 := by
    simpa using orth_row_entry horth 1 2
  have g22 : r 2 0 * r 2 0 + r 2 1 * r 2 1 + r 2 2 * r 2 2 = 1 := by
    simpa using orth_row_entry horth 2 2
  have hadjM := rot_adjugate horth hdet
  rw [Matrix.adjugate_fin_three] at hadjM
  have adj00 : r 0 0 = r 1 1 * r 2 2 - r 1 2 * r 2 1 := by
    have h := congrFun (congrFun hadjM 0) 0
    simp only [Matrix.cons_val_zero, Matrix.cons_val_one, Matrix.head_cons,
      Matrix.vecHead, Matrix.vecTail, Matrix.transpose_apply, Matrix.of_apply,
      Function.comp, Matrix.cons_val_fin_one] at h
    exact h.symm
  have adj01 : r 1 0 = -(r 0 1 * r 2 2) + r 0 2 * r 2 1 := by
    have h := congrFun (congrFun hadjM 0) 1
    simp only [Matrix.cons_val_zero, Matrix.cons_val_one, Matrix.head_cons,
      Matrix.vecHead, Matrix.vecTail, Matrix.transpose_apply, Matrix.of_apply,
      Function.comp, Matrix.cons_val_fin_one] at h
    exact h.symm
  have adj02 : r 2 0 = r 0 1 * r 1 2 - r 0 2 * r 1 1 := by
    have h := congrFun (congrFun hadjM 0) 2
    simp only [Matrix.cons_val_zero, Matrix.cons_val_one, Matrix.head_cons,
      Matrix.vecHead, Matrix.vecTail, Matrix.transpose_apply, Matrix.of_apply,
      Function.comp, Matrix.cons_val_fin_one] at h
    exact h.symm
  have adj10 : r 0 1 = -(r 1 0 * r 2 2) + r 1 2 * r 2 0 := by
    have h := congrFun (congrFun hadjM 1) 0
    simp only [Matrix.cons_val_zero, Matrix.cons_val_one, Matrix.head_cons,
      Matrix.vecHead, Matrix.vecTail, Matrix.transpose_apply, Matrix.of_apply,
      Function.comp, Matrix.cons_val_fin_one] at h
    exact h.symm
  have adj11 : r 1 1 = r 0 0 * r 2 2 - r 0 2 * r 2 0 := by
    have h := congrFun (congrFun hadjM 1) 1
    simp only [Matrix.cons_val_zero, Matrix.cons_val_one, Matrix.head_cons,
      Matrix.vecHead, Matrix.vecTail, Matrix.transpose_apply, Matrix.of_apply,
      Function.comp, Matrix.cons_val_fin_one] at h
    exact h.symm
  have adj12 : r 2 1 = -(r 0 0 * r 1 2) + r 0 2 * r 1 0 := by
    have h := congrFun (congrFun hadjM 1) 2
    simp only [Matrix.cons_val_zero, Matrix.cons_val_one, Matrix.head_cons,
      Matrix.vecHead, Matrix.vecTail, Matrix.transpose_apply, Matrix.of_apply,
      Function.comp, Matrix.cons_val_fin_one] at h
    exact h.symm
  have adj20 : r 0 2 = r 1 0 * r 2 1 - r 1 1 * r 2 0 := by
    have h := congrFun (congrFun hadjM 2) 0
    simp only [Matrix.cons_val_zero, Matrix.cons_val_one, Matrix.head_cons,
      Matrix.vecHead, Matrix.vecTail, Matrix.transpose_apply, Matrix.of_apply,
      Function.comp, Matrix.cons_val_fin_one] at h
    exact h.symm
  have adj21 : r 1 2 = -(r 0 0 * r 2 1) + r 0 1 * r 2 0 := by
    have h := congrFun (congrFun hadjM 2) 1
    simp only [Matrix.cons_val_zero, Matrix.cons_val_one, Matrix.head_cons,
      Matrix.vecHead, Matrix.vecTail, Matrix.transpose_apply, Matrix.of_apply,
      Function.comp, Matrix.cons_val_fin_one] at h
    exact h.symm
  have adj22 : r 2 2 = r 0 0 * r 1 1 - r 0 1 * r 1 0 := by
    have h := congrFun (congrFun hadjM 2) 2
    simp only [Matrix.cons_val_zero, Matrix.cons_val_one, Matrix.head_cons,
      Matrix.vecHead, Matrix.vecTail, Matrix.transpose_apply, Matrix.of_apply,
      Function.comp, Matrix.cons_val_fin_one] at h
    exact h.symm
  have hp3 : (1:ℝ) ≤ 1 - r 0 0 - r 1 1 + r 2 2 := by
    simpa [quatDenomPre] using hp
  have hprod0 : (r 0 2 + r 2 0) ^ 2 = (1 - r 0 0 - r 1 1 + r 2 2) * (1 + r 0 0 - r 1 1 - r 2 2) := by
    linear_combination (1) * h00 + (1) * h22 + (-1) * g11 + (2) * adj11
  have hprod1 : (r 1 2 + r 2 1) ^ 2 = (1 - r 0 0 - r 1 1 + r 2 2) * (1 - r 0 0 + r 1 1 - r 2 2) := by
    linear_combination (-1) * h00 + (1) * g11 + (1) * g22 + (2) * adj00
  have hprod3 : (r 0 1 - r 1 0) ^ 2 = (1 - r 0 0 - r 1 1 + r 2 2) * (1 + r 0 0 + r 1 1 + r 2 2) := by
    linear_combination (1) * h00 + (1) * h11 + (-1) * g22 + (-2) * adj22
  have hq0 : (0:ℝ) ≤ 1 + r 0 0 - r 1 1 - r 2 2 :=
    nonneg_of_sq_eq_mul _ _ _ hprod0 hp3
  have hq1 : (0:ℝ) ≤ 1 - r 0 0 + r 1 1 - r 2 2 :=
    nonneg_of_sq_eq_mul _ _ _ hprod1 hp3
  have hq3 : (0:ℝ) ≤ 1 + r 0 0 + r 1 1 + r 2 2 :=
    nonneg_of_sq_eq_mul _ _ _ hprod3 hp3
  have hP4 : 1 - r 0 0 - r 1 1 + r 2 2 ≤ 4 := by linarith
  have hq04 : 1 + r 0 0 - r 1 1 - r 2 2 ≤ 4 := by linarith
  have hq14 : 1 - r 0 0 + r 1 1 - r 2 2 ≤ 4 := by linarith
  have hq34 : 1 + r 0 0 + r 1 1 + r 2 2 ≤ 4 := by linarith
  have hw0 : |r 0 2 + r 2 0| ≤ 4 :=
    abs_le_four_of_sq _ (sq_le_sixteen_of_mul _ _ _ hprod0
      (by linarith [hp3]) hP4 hq0 hq04)
  have hw1 : |r 1 2 + r 2 1| ≤ 4 :=
    abs_le_four_of_sq _ (sq_le_sixteen_of_mul _ _ _ hprod1
      (by linarith [hp3]) hP4 hq1 hq14)
  have hw3 : |r 0 1 - r 1 0| ≤ 4 :=
    abs_le_four_of_sq _ (sq_le_sixteen_of_mul _ _ _ hprod3
      (by linarith [hp3]) hP4 hq3 hq34)
  have hwP : |1 - r 0 0 - r 1 1 + r 2 2| ≤ 4 := by
    rw [abs_of_nonneg (by linarith)]
    exact hP4
  have hSu : (r 0 2 + r 2 0) ^ 2 + (r 1 2 + r 2 1) ^ 2 + (1 - r 0 0 - r 1 1 + r 2 2 + 1e-6) ^ 2 + (r 0 1 - r 1 0) ^ 2
      = 4 * (1 - r 0 0 - r 1 1 + r 2 2) + 2e-6 * (1 - r 0 0 - r 1 1 + r 2 2) + 1e-12 := by
    linear_combination (1) * h00 + (1) * h11 + (1) * h22 + (2) * adj00 + (2) * adj11 + (-2) * adj22
  have hS4 : (4:ℝ) ≤ (r 0 2 + r 2 0) ^ 2 + (r 1 2 + r 2 1) ^ 2 + (1 - r 0 0 - r 1 1 + r 2 2 + 1e-6) ^ 2 + (r 0 1 - r 1 0) ^ 2 := by
    linarith [hSu, hp3]
  have hdpos : 0 < quatDenom r 2 := by
    simp only [quatDenom]
    positivity
  have hdne : 4 * quatDenom r 2 ≠ 0 := ne_of_gt (by linarith)
  have hd2 : (2 * quatDenom r 2) ^ 2 = 1e-6 + (1 - r 0 0 - r 1 1 + r 2 2) := by
    have h1 : (2 * quatDenom r 2) ^ 2
        = Real.sqrt (1e-6 + |quatDenomPre r 2|) ^ 2 := by
      simp only [quatDenom]
      ring
    rw [h1, Real.sq_sqrt (by positivity),
      abs_of_nonneg (le_trans zero_le_one hp)]
    simp [quatDenomPre]
  have hq : quatCases r 2 = fun i =>
      (![r 0 2 + r 2 0, r 1 2 + r 2 1, 1 - r 0 0 - r 1 1 + r 2 2 + 1e-6, r 0 1 - r 1 0] : Fin 4 → ℝ) i / (4 * quatDenom r 2) := by
    funext i
    fin_cases i
    · rfl
    · rfl
    · show quatDenom r 2 = (1 - r 0 0 - r 1 1 + r 2 2 + 1e-6) / (4 * quatDenom r 2)
      rw [eq_div_iff hdne]
      linear_combination hd2
    · rfl
  have hM : ∀ a b : Fin 3, quaternions_to_so3_matrix (quatCases r 2) a b =
      ((r 0 2 + r 2 0) ^ 2 + (r 1 2 + r 2 1) ^ 2 + (1 - r 0 0 - r 1 1 + r 2 2 + 1e-6) ^ 2 + (r 0 1 - r 1 0) ^ 2)⁻¹ *
        quadQ (![r 0 2 + r 2 0, r 1 2 + r 2 1, 1 - r 0 0 - r 1 1 + r 2 2 + 1e-6, r 0 1 - r 1 0]) a b := by
    intro a b
    rw [hq, q2m_div_entry _ _ hdne a b]
    rfl
  intro a b
  fin_cases a <;> fin_cases b
  · show |quaternions_to_so3_matrix (quatCases r 2) 0 0 - r 0 0| ≤ 1e-5
    rw [hM 0 0]
    have hd00 : ((r 0 2 + r 2 0) * (r 0 2 + r 2 0) - (r 1 2 + r 2 1) * (r 1 2 + r 2 1) - (1 - r 0 0 - r 1 1 + r 2 2 + 1e-6) * (1 - r 0 0 - r 1 1 + r 2 2 + 1e-6) + (r 0 1 - r 1 0) * (r 0 1 - r 1 0))
        - r 0 0 * ((r 0 2 + r 2 0) ^ 2 + (r 1 2 + r 2 1) ^ 2 + (1 - r 0 0 - r 1 1 + r 2 2 + 1e-6) ^ 2 + (r 0 1 - r 1 0) ^ 2)
        = 1e-6 * (2 * (-(1 - r 0 0 - r 1 1 + r 2 2)) - 2 * (1 - r 0 0 - r 1 1 + r 2 2) * r 0 0)
          + 1e-12 * ((-1) - r 0 0) := by
      linear_combination (3) * h00 + (1) * h11 + (1) * h22 + (-2) * g11 + (-2) * g22 + (-2) * adj00 + (2) * adj11 + (-2) * adj22
        - r 0 0 * ((1) * h00 + (1) * h11 + (1) * h22 + (2) * adj00 + (2) * adj11 + (-2) * adj22)
    exact c5_final _ ((r 0 2 + r 2 0) * (r 0 2 + r 2 0) - (r 1 2 + r 2 1) * (r 1 2 + r 2 1) - (1 - r 0 0 - r 1 1 + r 2 2 + 1e-6) * (1 - r 0 0 - r 1 1 + r 2 2 + 1e-6) + (r 0 1 - r 1 0) * (r 0 1 - r 1 0)) (r 0 0) hS4
      (by rw [hd00]
          exact c5_num (1 - r 0 0 - r 1 1 + r 2 2) (r 0 0) (2 * (-(1 - r 0 0 - r 1 1 + r 2 2))) (-1) (by linarith) hP4
            (rot_entry_abs_le_one horth 0 0) (abs_two_mul_le_eight _ (by rw [abs_neg]; exact hwP)) (by norm_num))
  · show |quaternions_to_so3_matrix (quatCases r 2) 0 1 - r 0 1| ≤ 1e-5
    rw [hM 0 1]
    have hd01 : (2 * ((r 0 2 + r 2 0) * (r 1 2 + r 2 1) + (1 - r 0 0 - r 1 1 + r 2 2 + 1e-6) * (r 0 1 - r 1 0)))
        - r 0 1 * ((r 0 2 + r 2 0) ^ 2 + (r 1 2 + r 2 1) ^ 2 + (1 - r 0 0 - r 1 1 + r 2 2 + 1e-6) ^ 2 + (r 0 1 - r 1 0) ^ 2)
        = 1e-6 * (2 * (r 0 1 - r 1 0) - 2 * (1 - r 0 0 - r 1 1 + r 2 2) * r 0 1)
          + 1e-12 * (0 - r 0 1) := by
      linear_combination (2) * h01 + (2) * g01 + (-2) * adj01 + (-2) * adj10
        - r 0 1 * ((1) * h00 + (1) * h11 + (1) * h22 + (2) * adj00 + (2) * adj11 + (-2) * adj22)
    exact c5_final _ (2 * ((r 0 2 + r 2 0) * (r 1 2 + r 2 1) + (1 - r 0 0 - r 1 1 + r 2 2 + 1e-6) * (r 0 1 - r 1 0))) (r 0 1) hS4
      (by rw [hd01]
          exact c5_num (1 - r 0 0 - r 1 1 + r 2 2) (r 0 1) (2 * (r 0 1 - r 1 0)) 0 (by linarith) hP4
            (rot_entry_abs_le_one horth 0 1) (abs_two_mul_le_eight _ hw3) (by norm_num))
  · show |quaternions_to_so3_matrix (quatCases r 2) 0 2 - r 0 2| ≤ 1e-5
    rw [hM 0 2]
    have hd02 : (2 * ((r 0 2 + r 2 0) * (1 - r 0 0 - r 1 1 + r 2 2 + 1e-6) - (r 1 2 + r 2 1) * (r 0 1 - r 1 0)))
        - r 0 2 * ((r 0 2 + r 2 0) ^ 2 + (r 1 2 + r 2 1) ^ 2 + (1 - r 0 0 - r 1 1 + r 2 2 + 1e-6) ^ 2 + (r 0 1 - r 1 0) ^ 2)
        = 1e-6 * (2 * (r 0 2 + r 2 0) - 2 * (1 - r 0 0 - r 1 1 + r 2 2) * r 0 2)
          + 1e-12 * (0 - r 0 2) := by
      linear_combination (2) * h02 + (-2) * g02 + (2) * adj02 + (-2) * adj20
        - r 0 2 * ((1) * h00 + (1) * h11 + (1) * h22 + (2) * adj00 + (2) * adj11 + (-2) * adj22)
    exact c5_final _ (2 * ((r 0 2 + r 2 0) * (1 - r 0 0 - r 1 1 + r 2 2 + 1e-6) - (r 1 2 + r 2 1) * (r 0 1 - r 1 0))) (r 0 2) hS4
      (by rw [hd02]
          exact c5_num (1 - r 0 0 - r 1 1 + r 2 2) (r 0 2) (2 * (r 0 2 + r 2 0)) 0 (by linarith) hP4
            (rot_entry_abs_le_one horth 0 2) (abs_two_mul_le_eight _ hw0) (by norm_num))
  · show |quaternions_to_so3_matrix (quatCases r 2) 1 0 - r 1 0| ≤ 1e-5
    rw [hM 1 0]
    have hd10 : (2 * ((r 0 2 + r 2 0) * (r 1 2 + r 2 1) - (1 - r 0 0 - r 1 1 + r 2 2 + 1e-6) * (r 0 1 - r 1 0)))
        - r 1 0 * ((r 0 2 + r 2 0) ^ 2 + (r 1 2 + r 2 1) ^ 2 + (1 - r 0 0 - r 1 1 + r 2 2 + 1e-6) ^ 2 + (r 0 1 - r 1 0) ^ 2)
        = 1e-6 * (2 * (-(r 0 1 - r 1 0)) - 2 * (1 - r 0 0 - r 1 1 + r 2 2) * r 1 0)
          + 1e-12 * (0 - r 1 0) := by
      linear_combination (2) * h01 + (2) * g01 + (-2) * adj01 + (-2) * adj10
        - r 1 0 * ((1) * h00 + (1) * h11 + (1) * h22 + (2) * adj00 + (2) * adj11 + (-2) * adj22)
    exact c5_final _ (2 * ((r 0 2 + r 2 0) * (r 1 2 + r 2 1) - (1 - r 0 0 - r 1 1 + r 2 2 + 1e-6) * (r 0 1 - r 1 0))) (r 1 0) hS4
      (by rw [hd10]
          exact c5_num (1 - r 0 0 - r 1 1 + r 2 2) (r 1 0) (2 * (-(r 0 1 - r 1 0))) 0 (by linarith) hP4
            (rot_entry_abs_le_one horth 1 0) (abs_two_mul_le_eight _ (by rw [abs_neg]; exact hw3)) (by norm_num))
  · show |quaternions_to_so3_matrix (quatCases r 2) 1 1 - r 1 1| ≤ 1e-5
    rw [hM 1 1]
    have hd11 : (-(r 0 2 + r 2 0) * (r 0 2 + r 2 0) + (r 1 2 + r 2 1) * (r 1 2 + r 2 1) - (1 - r 0 0 - r 1 1 + r 2 2 + 1e-6) * (1 - r 0 0 - r 1 1 + r 2 2 + 1e-6) + (r 0 1 - r 1 0) * (r 0 1 - r 1 0))
        - r 1 1 * ((r 0 2 + r 2 0) ^ 2 + (r 1 2 + r 2 1) ^ 2 + (1 - r 0 0 - r 1 1 + r 2 2 + 1e-6) ^ 2 + (r 0 1 - r 1 0) ^ 2)
        = 1e-6 * (2 * (-(1 - r 0 0 - r 1 1 + r 2 2)) - 2 * (1 - r 0 0 - r 1 1 + r 2 2) * r 1 1)
          + 1e-12 * ((-1) - r 1 1) := by
      linear_combination (-1) * h00 + (1) * h11 + (-1) * h22 + (2) * g11 + (2) * adj00 + (-2) * adj11 + (-2) * adj22
        - r 1 1 * ((1) * h00 + (1) * h11 + (1) * h22 + (2) * adj00 + (2) * adj11 + (-2) * adj22)
    exact c5_final _ (-(r 0 2 + r 2 0) * (r 0 2 + r 2 0) + (r 1 2 + r 2 1) * (r 1 2 + r 2 1) - (1 - r 0 0 - r 1 1 + r 2 2 + 1e-6) * (1 - r 0 0 - r 1 1 + r 2 2 + 1e-6) + (r 0 1 - r 1 0) * (r 0 1 - r 1 0)) (r 1 1) hS4
      (by rw [hd11]
          exact c5_num (1 - r 0 0 - r 1 1 + r 2 2) (r 1 1) (2 * (-(1 - r 0 0 - r 1 1 + r 2 2))) (-1) (by linarith) hP4
            (rot_entry_abs_le_one horth 1 1) (abs_two_mul_le_eight _ (by rw [abs_neg]; exact hwP)) (by norm_num))
  · show |quaternions_to_so3_matrix (quatCases r 2) 1 2 - r 1 2| ≤ 1e-5
    rw [hM 1 2]
    have hd12 : (2 * ((r 1 2 + r 2 1) * (1 - r 0 0 - r 1 1 + r 2 2 + 1e-6) + (r 0 2 + r 2 0) * (r 0 1 - r 1 0)))
        - r 1 2 * ((r 0 2 + r 2 0) ^ 2 + (r 1 2 + r 2 1) ^ 2 + (1 - r 0 0 - r 1 1 + r 2 2 + 1e-6) ^ 2 + (r 0 1 - r 1 0) ^ 2)
        = 1e-6 * (2 * (r 1 2 + r 2 1) - 2 * (1 - r 0 0 - r 1 1 + r 2 2) * r 1 2)
          + 1e-12 * (0 - r 1 2) := by
      linear_combination (2) * h12 + (-2) * g12 + (2) * adj12 + (-2) * adj21
        - r 1 2 * ((1) * h00 + (1) * h11 + (1) * h22 + (2) * adj00 + (2) * adj11 + (-2) * adj22)
    exact c5_final _ (2 * ((r 1 2 + r 2 1) * (1 - r 0 0 - r 1 1 + r 2 2 + 1e-6) + (r 0 2 + r 2 0) * (r 0 1 - r 1 0))) (r 1 2) hS4
      (by rw [hd12]
          exact c5_num (1 - r 0 0 - r 1 1 + r 2 2) (r 1 2) (2 * (r 1 2 + r 2 1)) 0 (by linarith) hP4
            (rot_entry_abs_le_one horth 1 2) (abs_two_mul_le_eight _ hw1) (by norm_num))
  · show |quaternions_to_so3_matrix (quatCases r 2) 2 0 - r 2 0| ≤ 1e-5
    rw [hM 2 0]
    have hd20 : (2 * ((r 0 2 + r 2 0) * (1 - r 0 0 - r 1 1 + r 2 2 + 1e-6) + (r 1 2 + r 2 1) * (r 0 1 - r 1 0)))
        - r 2 0 * ((r 0 2 + r 2 0) ^ 2 + (r 1 2 + r 2 1) ^ 2 + (1 - r 0 0 - r 1 1 + r 2 2 + 1e-6) ^ 2 + (r 0 1 - r 1 0) ^ 2)
        = 1e-6 * (2 * (r 0 2 + r 2 0) - 2 * (1 - r 0 0 - r 1 1 + r 2 2) * r 2 0)
          + 1e-12 * (0 - r 2 0) := by
      linear_combination (-2) * h02 + (2) * g02 + (-2) * adj02 + (2) * adj20
        - r 2 0 * ((1) * h00 + (1) * h11 + (1) * h22 + (2) * adj00 + (2) * adj11 + (-2) * adj22)
    exact c5_final _ (2 * ((r 0 2 + r 2 0) * (1 - r 0 0 - r 1 1 + r 2 2 + 1e-6) + (r 1 2 + r 2 1) * (r 0 1 - r 1 0))) (r 2 0) hS4
      (by rw [hd20]
          exact c5_num (1 - r 0 0 - r 1 1 + r 2 2) (r 2 0) (2 * (r 0 2 + r 2 0)) 0 (by linarith) hP4
            (rot_entry_abs_le_one horth 2 0) (abs_two_mul_le_eight _ hw0) (by norm_num))
  · show |quaternions_to_so3_matrix (quatCases r 2) 2 1 - r 2 1| ≤ 1e-5
    rw [hM 2 1]
    have hd21 : (2 * ((r 1 2 + r 2 1) * (1 - r 0 0 - r 1 1 + r 2 2 + 1e-6) - (r 0 2 + r 2 0) * (r 0 1 - r 1 0)))
        - r 2 1 * ((r 0 2 + r 2 0) ^ 2 + (r 1 2 + r 2 1) ^ 2 + (1 - r 0 0 - r 1 1 + r 2 2 + 1e-6) ^ 2 + (r 0 1 - r 1 0) ^ 2)
        = 1e-6 * (2 * (r 1 2 + r 2 1) - 2 * (1 - r 0 0 - r 1 1 + r 2 2) * r 2 1)
          + 1e-12 * (0 - r 2 1) := by
      linear_combination (-2) * h12 + (2) * g12 + (-2) * adj12 + (2) * adj21
        - r 2 1 * ((1) * h00 + (1) * h11 + (1) * h22 + (2) * adj00 + (2) * adj11 + (-2) * adj22)
    exact c5_final _ (2 * ((r 1 2 + r 2 1) * (1 - r 0 0 - r 1 1 + r 2 2 + 1e-6) - (r 0 2 + r 2 0) * (r 0 1 - r 1 0))) (r 2 1) hS4
      (by rw [hd21]
          exact c5_num (1 - r 0 0 - r 1 1 + r 2 2) (r 2 1) (2 * (r 1 2 + r 2 1)) 0 (by linarith) hP4
            (rot_entry_abs_le_one horth 2 1) (abs_two_mul_le_eight _ hw1) (by norm_num))
  · show |quaternions_to_so3_matrix (quatCases r 2) 2 2 - r 2 2| ≤ 1e-5
    rw [hM 2 2]
    have hd22 : (-(r 0 2 + r 2 0) * (r 0 2 + r 2 0) - (r 1 2 + r 2 1) * (r 1 2 + r 2 1) + (1 - r 0 0 - r 1 1 + r 2 2 + 1e-6) * (1 - r 0 0 - r 1 1 + r 2 2 + 1e-6) + (r 0 1 - r 1 0) * (r 0 1 - r 1 0))
        - r 2 2 * ((r 0 2 + r 2 0) ^ 2 + (r 1 2 + r 2 1) ^ 2 + (1 - r 0 0 - r 1 1 + r 2 2 + 1e-6) ^ 2 + (r 0 1 - r 1 0) ^ 2)
        = 1e-6 * (2 * (1 - r 0 0 - r 1 1 + r 2 2) - 2 * (1 - r 0 0 - r 1 1 + r 2 2) * r 2 2)
          + 1e-12 * (1 - r 2 2) := by
      linear_combination (1) * h00 + (1) * h11 + (-1) * h22 + (-2) * g22 + (-2) * adj00 + (-2) * adj11 + (-2) * adj22
        - r 2 2 * ((1) * h00 + (1) * h11 + (1) * h22 + (2) * adj00 + (2) * adj11 + (-2) * adj22)
    exact c5_final _ (-(r 0 2 + r 2 0) * (r 0 2 + r 2 0) - (r 1 2 + r 2 1) * (r 1 2 + r 2 1) + (1 - r 0 0 - r 1 1 + r 2 2 + 1e-6) * (1 - r 0 0 - r 1 1 + r 2 2 + 1e-6) + (r 0 1 - r 1 0) * (r 0 1 - r 1 0)) (r 2 2) hS4
      (by rw [hd22]
          exact c5_num (1 - r 0 0 - r 1 1 + r 2 2) (r 2 2) (2 * (1 - r 0 0 - r 1 1 + r 2 2)) 1 (by linarith) hP4
            (rot_entry_abs_le_one horth 2 2) (abs_two_mul_le_eight _ hwP) (by norm_num))

set_option maxHeartbeats 2000000 in
theorem c5_case3 {r : M3} (horth : rᵀ * r = 1) (hdet : r.det = 1)
    (hp : 1 ≤ quatDenomPre r 3) :
    ∀ a b : Fin 3, |quaternions_to_so3_matrix (quatCases r 3) a b - r a b| ≤ 1e-5 := by
  have h00 : r 0 0 * r 0 0 + r 1 0 * r 1 0 + r 2 0 * r 2 0 = 1 := by
    simpa using orth_col_entry horth 0 0
  have h01 : r 0 0 * r 0 1 + r 1 0 * r 1 1 + r 2 0 * r 2 1 = 0 := by
    simpa using orth_col_entry horth 0 1
  have h02 : r 0 0 * r 0 2 + r 1 0 * r 1 2 + r 2 0 * r 2 2 = 0 := by
    simpa using orth_col_entry horth 0 2
  have h11 : r 0 1 * r 0 1 + r 1 1 * r 1 1 + r 2 1 * r 2 1 = 1 := by
    simpa using orth_col_entry horth 1 1
  have h12 : r 0 1 * r 0 2 + r 1 1 * r 1 2 + r 2 1 * r 2 2 = 0 := by
    simpa using orth_col_entry horth 1 2
  have h22 : r 0 2 * r 0 2 + r 1 2 * r 1 2 + r 2 2 * r 2 2 = 1 := by
    simpa using orth_col_entry horth 2 2
  have g01 : r 0 0 * r 1 0 + r 0 1 * r 1 1 + r 0 2 * r 1 2 = 0 := by
    simpa using orth_row_entry horth 0 1
  have g02 : r 0 0 * r 2 0 + r 0 1 * r 2 1 + r 0 2 * r 2 2 = 0 := by
    simpa using orth_row_entry horth 0 2
  have g11 : r 1 0 * r 1 0 + r 1 1 * r 1 1 + r 1 2 * r 1 2 = 1 := by
    simpa using orth_row_entry horth 1 1
  have g12 : r 1 0 * r 2 0 + r 1 1 * r 2 1 + r 1 2 * r 2 2 = 0 := by
    simpa using orth_row_entry horth 1 2
  have g22 : r 2 0 * r 2 0 + r 2 1 * r 2 1 + r 2 2 * r 2 2 = 1 := by
    simpa using orth_row_entry horth 2 2
  have hadjM := rot_adjugate horth hdet
  rw [Matrix.adjugate_fin_three] at hadjM
  have adj00 : r 0 0 = r 1 1 * r 2 2 - r 1 2 * r 2 1 := by
    have h := congrFun (congrFun hadjM 0) 0
    simp only [Matrix.cons_val_zero, Matrix.cons_val_one, Matrix.head_cons,
      Matrix.vecHead, Matrix.vecTail, Matrix.transpose_apply, Matrix.of_apply,
      Function.comp, Matrix.cons_val_fin_one] at h
    exact h.symm
  have adj01 : r 1 0 = -(r 0 1 * r 2 2) + r 0 2 * r 2 1 := by
    have h := congrFun (congrFun hadjM 0) 1
    simp only [Matrix.cons_val_zero, Matrix.cons_val_one, Matrix.head_cons,
      Matrix.vecHead, Matrix.vecTail, Matrix.transpose_apply, Matrix.of_apply,
      Function.comp, Matrix.cons_val_fin_one] at h
    exact h.symm
  have adj02 : r 2 0 = r 0 1 * r 1 2 - r 0 2 * r 1 1 := by
    have h := congrFun (congrFun hadjM 0) 2
    simp only [Matrix.cons_val_zero, Matrix.cons_val_one, Matrix.head_cons,
      Matrix.vecHead, Matrix.vecTail, Matrix.transpose_apply, Matrix.of_apply,
      Function.comp, Matrix.cons_val_fin_one] at h
    exact h.symm
  have adj10 : r 0 1 = -(r 1 0 * r 2 2) + r 1 2 * r 2 0 := by
    have h := congrFun (congrFun hadjM 1) 0
    simp only [Matrix.cons_val_zero, Matrix.cons_val_one, Matrix.head_cons,
      Matrix.vecHead, Matrix.vecTail, Matrix.transpose_apply, Matrix.of_apply,
      Function.comp, Matrix.cons_val_fin_one] at h
    exact h.symm
  have adj11 : r 1 1 = r 0 0 * r 2 2 - r 0 2 * r 2 0 := by
    have h := congrFun (congrFun hadjM 1) 1
    simp only [Matrix.cons_val_zero, Matrix.cons_val_one, Matrix.head_cons,
      Matrix.vecHead, Matrix.vecTail, Matrix.transpose_apply, Matrix.of_apply,
      Function.comp, Matrix.cons_val_fin_one] at h
    exact h.symm
  have adj12 : r 2 1 = -(r 0 0 * r 1 2) + r 0 2 * r 1 0 := by
    have h := congrFun (congrFun hadjM 1) 2
    simp only [Matrix.cons_val_zero, Matrix.cons_val_one, Matrix.head_cons,
      Matrix.vecHead, Matrix.vecTail, Matrix.transpose_apply, Matrix.of_apply,
      Function.comp, Matrix.cons_val_fin_one] at h
    exact h.symm
  have adj20 : r 0 2 = r 1 0 * r 2 1 - r 1 1 * r 2 0 := by
    have h := congrFun (congrFun hadjM 2) 0
    simp only [Matrix.cons_val_zero, Matrix.cons_val_one, Matrix.head_cons,
      Matrix.vecHead, Matrix.vecTail, Matrix.transpose_apply, Matrix.of_apply,
      Function.comp, Matrix.cons_val_fin_one] at h
    exact h.symm
  have adj21 : r 1 2 = -(r 0 0 * r 2 1) + r 0 1 * r 2 0 := by
    have h := congrFun (congrFun hadjM 2) 1
    simp only [Matrix.cons_val_zero, Matrix.cons_val_one, Matrix.head_cons,
      Matrix.vecHead, Matrix.vecTail, Matrix.transpose_apply, Matrix.of_apply,
      Function.comp, Matrix.cons_val_fin_one] at h
    exact h.symm
  have adj22 : r 2 2 = r 0 0 * r 1 1 - r 0 1 * r 1 0 := by
    have h := congrFun (congrFun hadjM 2) 2
    simp only [Matrix.cons_val_zero, Matrix.cons_val_one, Matrix.head_cons,
      Matrix.vecHead, Matrix.vecTail, Matrix.transpose_apply, Matrix.of_apply,
      Function.comp, Matrix.cons_val_fin_one] at h
    exact h.symm
  have hp3 : (1:ℝ) ≤ 1 + r 0 0 + r 1 1 + r 2 2 := by
    simpa [quatDenomPre] using hp
  have hprod0 : (r 1 2 - r 2 1) ^ 2 = (1 + r 0 0 + r 1 1 + r 2 2) * (1 + r 0 0 - r 1 1 - r 2 2) := by
    linear_combination (-1) * h00 + (1) * g11 + (1) * g22 + (-2) * adj00
  have hprod1 : (r 2 0 - r 0 2) ^ 2 = (1 + r 0 0 + r 1 1 + r 2 2) * (1 - r 0 0 + r 1 1 - r 2 2) := by
    linear_combination (1) * h00 + (1) * h22 + (-1) * g11 + (-2) * adj11
  have hprod2 : (r 0 1 - r 1 0) ^ 2 = (1 + r 0 0 + r 1 1 + r 2 2) * (1 - r 0 0 - r 1 1 + r 2 2) := by
    linear_combination (1) * h00 + (1) * h11 + (-1) * g22 + (-2) * adj22
  have hq0 : (0:ℝ) ≤ 1 + r 0 0 - r 1 1 - r 2 2 :=
    nonneg_of_sq_eq_mul _ _ _ hprod0 hp3
  have hq1 : (0:ℝ) ≤ 1 - r 0 0 + r 1 1 - r 2 2 :=
    nonneg_of_sq_eq_mul _ _ _ hprod1 hp3
  have hq2 : (0:ℝ) ≤ 1 - r 0 0 - r 1 1 + r 2 2 :=
    nonneg_of_sq_eq_mul _ _ _ hprod2 hp3
  have hP4 : 1 + r 0 0 + r 1 1 + r 2 2 ≤ 4 := by linarith
  have hq04 : 1 + r 0 0 - r 1 1 - r 2 2 ≤ 4 := by linarith
  have hq14 : 1 - r 0 0 + r 1 1 - r 2 2 ≤ 4 := by linarith
  have hq24 : 1 - r 0 0 - r 1 1 + r 2 2 ≤ 4 := by linarith
  have hw0 : |r 1 2 - r 2 1| ≤ 4 :=
    abs_le_four_of_sq _ (sq_le_sixteen_of_mul _ _ _ hprod0
      (by linarith [hp3]) hP4 hq0 hq04)
  have hw1 : |r 2 0 - r 0 2| ≤ 4 :=
    abs_le_four_of_sq _ (sq_le_sixteen_of_mul _ _ _ hprod1
      (by linarith [hp3]) hP4 hq1 hq14)
  have hw2 : |r 0 1 - r 1 0| ≤ 4 :=
    abs_le_four_of_sq _ (sq_le_sixteen_of_mul _ _ _ hprod2
      (by linarith [hp3]) hP4 hq2 hq24)
  have hwP : |1 + r 0 0 + r 1 1 + r 2 2| ≤ 4 := by
    rw [abs_of_nonneg (by linarith)]
    exact hP4
  have hSu : (r 1 2 - r 2 1) ^ 2 + (r 2 0 - r 0 2) ^ 2 + (r 0 1 - r 1 0) ^ 2 + (1 + r 0 0 + r 1 1 + r 2 2 + 1e-6) ^ 2
      = 4 * (1 + r 0 0 + r 1 1 + r 2 2) + 2e-6 * (1 + r 0 0 + r 1 1 + r 2 2) + 1e-12 := by
    linear_combination (1) * h00 + (1) * h11 + (1) * h22 + (-2) * adj00 + (-2) * adj11 + (-2) * adj22
  have hS4 : (4:ℝ) ≤ (r 1 2 - r 2 1) ^ 2 + (r 2 0 - r 0 2) ^ 2 + (r 0 1 - r 1 0) ^ 2 + (1 + r 0 0 + r 1 1 + r 2 2 + 1e-6) ^ 2 := by
    linarith [hSu, hp3]
  have hdpos : 0 < quatDenom r 3 := by
    simp only [quatDenom]
    positivity
  have hdne : 4 * quatDenom r 3 ≠ 0 := ne_of_gt (by linarith)
  have hd2 : (2 * quatDenom r 3) ^ 2 = 1e-6 + (1 + r 0 0 + r 1 1 + r 2 2) := by
    have h1 : (2 * quatDenom r 3) ^ 2
        = Real.sqrt (1e-6 + |quatDenomPre r 3|) ^ 2 := by
      simp only [quatDenom]
      ring
    rw [h1, Real.sq_sqrt (by positivity),
      abs_of_nonneg (le_trans zero_le_one hp)]
    simp [quatDenomPre]
  have hq : quatCases r 3 = fun i =>
      (![r 1 2 - r 2 1, r 2 0 - r 0 2, r 0 1 - r 1 0, 1 + r 0 0 + r 1 1 + r 2 2 + 1e-6] : Fin 4 → ℝ) i / (4 * quatDenom r 3) := by
    funext i
    fin_cases i
    · rfl
    · rfl
    · rfl
    · show quatDenom r 3 = (1 + r 0 0 + r 1 1 + r 2 2 + 1e-6) / (4 * quatDenom r 3)
      rw [eq_div_iff hdne]
      linear_combination hd2
  have hM : ∀ a b : Fin 3, quaternions_to_so3_matrix (quatCases r 3) a b =
      ((r 1 2 - r 2 1) ^ 2 + (r 2 0 - r 0 2) ^ 2 + (r 0 1 - r 1 0) ^ 2 + (1 + r 0 0 + r 1 1 + r 2 2 + 1e-6) ^ 2)⁻¹ *
        quadQ (![r 1 2 - r 2 1, r 2 0 - r 0 2, r 0 1 - r 1 0, 1 + r 0 0 + r 1 1 + r 2 2 + 1e-6]) a b := by
    intro a b
    rw [hq, q2m_div_entry _ _ hdne a b]
    rfl
  intro a b
  fin_cases a <;> fin_cases b
  · show |quaternions_to_so3_matrix (quatCases r 3) 0 0 - r 0 0| ≤ 1e-5
    rw [hM 0 0]
    have hd00 : ((r 1 2 - r 2 1) * (r 1 2 - r 2 1) - (r 2 0 - r 0 2) * (r 2 0 - r 0 2) - (r 0 1 - r 1 0) * (r 0 1 - r 1 0) + (1 + r 0 0 + r 1 1 + r 2 2 + 1e-6) * (1 + r 0 0 + r 1 1 + r 2 2 + 1e-6))
        - r 0 0 * ((r 1 2 - r 2 1) ^ 2 + (r 2 0 - r 0 2) ^ 2 + (r 0 1 - r 1 0) ^ 2 + (1 + r 0 0 + r 1 1 + r 2 2 + 1e-6) ^ 2)
        = 1e-6 * (2 * (1 + r 0 0 + r 1 1 + r 2 2) - 2 * (1 + r 0 0 + r 1 1 + r 2 2) * r 0 0)
          + 1e-12 * (1 - r 0 0) := by
      linear_combination (-3) * h00 + (-1) * h11 + (-1) * h22 + (2) * g11 + (2) * g22 + (-2) * adj00 + (2) * adj11 + (2) * adj22
        - r 0 0 * ((1) * h00 + (1) * h11 + (1) * h22 + (-2) * adj00 + (-2) * adj11 + (-2) * adj22)
    exact c5_final _ ((r 1 2 - r 2 1) * (r 1 2 - r 2 1) - (r 2 0 - r 0 2) * (r 2 0 - r 0 2) - (r 0 1 - r 1 0) * (r 0 1 - r 1 0) + (1 + r 0 0 + r 1 1 + r 2 2 + 1e-6) * (1 + r 0 0 + r 1 1 + r 2 2 + 1e-6)) (r 0 0) hS4
      (by rw [hd00]
          exact c5_num (1 + r 0 0 + r 1 1 + r 2 2) (r 0 0) (2 * (1 + r 0 0 + r 1 1 + r 2 2)) 1 (by linarith) hP4
            (rot_entry_abs_le_one horth 0 0) (abs_two_mul_le_eight _ hwP) (by norm_num))
  · show |quaternions_to_so3_matrix (quatCases r 3) 0 1 - r 0 1| ≤ 1e-5
    rw [hM 0 1]
    have hd01 : (2 * ((r 1 2 - r 2 1) * (r 2 0 - r 0 2) + (r 0 1 - r 1 0) * (1 + r 0 0 + r 1 1 + r 2 2 + 1e-6)))
        - r 0 1 * ((r 1 2 - r 2 1) ^ 2 + (r 2 0 - r 0 2) ^ 2 + (r 0 1 - r 1 0) ^ 2 + (1 + r 0 0 + r 1 1 + r 2 2 + 1e-6) ^ 2)
        = 1e-6 * (2 * (r 0 1 - r 1 0) - 2 * (1 + r 0 0 + r 1 1 + r 2 2) * r 0 1)
          + 1e-12 * (0 - r 0 1) := by
      linear_combination (-2) * h01 + (-2) * g01 + (-2) * adj01 + (-2) * adj10
        - r 0 1 * ((1) * h00 + (1) * h11 + (1) * h22 + (-2) * adj00 + (-2) * adj11 + (-2) * adj22)
    exact c5_final _ (2 * ((r 1 2 - r 2 1) * (r 2 0 - r 0 2) + (r 0 1 - r 1 0) * (1 + r 0 0 + r 1 1 + r 2 2 + 1e-6))) (r 0 1) hS4
      (by rw [hd01]
          exact c5_num (1 + r 0 0 + r 1 1 + r 2 2) (r 0 1) (2 * (r 0 1 - r 1 0)) 0 (by linarith) hP4
            (rot_entry_abs_le_one horth 0 1) (abs_two_mul_le_eight _ hw2) (by norm_num))
  · show |quaternions_to_so3_matrix (quatCases r 3) 0 2 - r 0 2| ≤ 1e-5
    rw [hM 0 2]
    have hd02 : (2 * ((r 1 2 - r 2 1) * (r 0 1 - r 1 0) - (r 2 0 - r 0 2) * (1 + r 0 0 + r 1 1 + r 2 2 + 1e-6)))
        - r 0 2 * ((r 1 2 - r 2 1) ^ 2 + (r 2 0 - r 0 2) ^ 2 + (r 0 1 - r 1 0) ^ 2 + (1 + r 0 0 + r 1 1 + r 2 2 + 1e-6) ^ 2)
        = 1e-6 * (2 * (-(r 2 0 - r 0 2)) - 2 * (1 + r 0 0 + r 1 1 + r 2 2) * r 0 2)
          + 1e-12 * (0 - r 0 2) := by
      linear_combination (-2) * h02 + (-2) * g02 + (-2) * adj02 + (-2) * adj20
        - r 0 2 * ((1) * h00 + (1) * h11 + (1) * h22 + (-2) * adj00 + (-2) * adj11 + (-2) * adj22)
    exact c5_final _ (2 * ((r 1 2 - r 2 1) * (r 0 1 - r 1 0) - (r 2 0 - r 0 2) * (1 + r 0 0 + r 1 1 + r 2 2 + 1e-6))) (r 0 2) hS4
      (by rw [hd02]
          exact c5_num (1 + r 0 0 + r 1 1 + r 2 2) (r 0 2) (2 * (-(r 2 0 - r 0 2))) 0 (by linarith) hP4
            (rot_entry_abs_le_one horth 0 2) (abs_two_mul_le_eight _ (by rw [abs_neg]; exact hw1)) (by norm_num))
  · show |quaternions_to_so3_matrix (quatCases r 3) 1 0 - r 1 0| ≤ 1e-5
    rw [hM 1 0]
    have hd10 : (2 * ((r 1 2 - r 2 1) * (r 2 0 - r 0 2) - (r 0 1 - r 1 0) * (1 + r 0 0 + r 1 1 + r 2 2 + 1e-6)))
        - r 1 0 * ((r 1 2 - r 2 1) ^ 2 + (r 2 0 - r 0 2) ^ 2 + (r 0 1 - r 1 0) ^ 2 + (1 + r 0 0 + r 1 1 + r 2 2 + 1e-6) ^ 2)
        = 1e-6 * (2 * (-(r 0 1 - r 1 0)) - 2 * (1 + r 0 0 + r 1 1 + r 2 2) * r 1 0)
          + 1e-12 * (0 - r 1 0) := by
      linear_combination (-2) * h01 + (-2) * g01 + (-2) * adj01 + (-2) * adj10
        - r 1 0 * ((1) * h00 + (1) * h11 + (1) * h22 + (-2) * adj00 + (-2) * adj11 + (-2) * adj22)
    exact c5_final _ (2 * ((r 1 2 - r 2 1) * (r 2 0 - r 0 2) - (r 0 1 - r 1 0) * (1 + r 0 0 + r 1 1 + r 2 2 + 1e-6))) (r 1 0) hS4
      (by rw [hd10]
          exact c5_num (1 + r 0 0 + r 1 1 + r 2 2) (r 1 0) (2 * (-(r 0 1 - r 1 0))) 0 (by linarith) hP4
            (rot_entry_abs_le_one horth 1 0) (abs_two_mul_le_eight _ (by rw [abs_neg]; exact hw2)) (by norm_num))
  · show |quaternions_to_so3_matrix (quatCases r 3) 1 1 - r 1 1| ≤ 1e-5
    rw [hM 1 1]
    have hd11 : (-(r 1 2 - r 2 1) * (r 1 2 - r 2 1) + (r 2 0 - r 0 2) * (r 2 0 - r 0 2) - (r 0 1 - r 1 0) * (r 0 1 - r 1 0) + (1 + r 0 0 + r 1 1 + r 2 2 + 1e-6) * (1 + r 0 0 + r 1 1 + r 2 2 + 1e-6))
        - r 1 1 * ((r 1 2 - r 2 1) ^ 2 + (r 2 0 - r 0 2) ^ 2 + (r 0 1 - r 1 0) ^ 2 + (1 + r 0 0 + r 1 1 + r 2 2 + 1e-6) ^ 2)
        = 1e-6 * (2 * (1 + r 0 0 + r 1 1 + r 2 2) - 2 * (1 + r 0 0 + r 1 1 + r 2 2) * r 1 1)
          + 1e-12 * (1 - r 1 1) := by
      linear_combination (1) * h00 + (-1) * h11 + (1) * h22 + (-2) * g11 + (2) * adj00 + (-2) * adj11 + (2) * adj22
        - r 1 1 * ((1) * h00 + (1) * h11 + (1) * h22 + (-2) * adj00 + (-2) * adj11 + (-2) * adj22)
    exact c5_final _ (-(r 1 2 - r 2 1) * (r 1 2 - r 2 1) + (r 2 0 - r 0 2) * (r 2 0 - r 0 2) - (r 0 1 - r 1 0) * (r 0 1 - r 1 0) + (1 + r 0 0 + r 1 1 + r 2 2 + 1e-6) * (1 + r 0 0 + r 1 1 + r 2 2 + 1e-6)) (r 1 1) hS4
      (by rw [hd11]
          exact c5_num (1 + r 0 0 + r 1 1 + r 2 2) (r 1 1) (2 * (1 + r 0 0 + r 1 1 + r 2 2)) 1 (by linarith) hP4
            (rot_entry_abs_le_one horth 1 1) (abs_two_mul_le_eight _ hwP) (by norm_num))
  · show |quaternions_to_so3_matrix (quatCases r 3) 1 2 - r 1 2| ≤ 1e-5
    rw [hM 1 2]
    have hd12 : (2 * ((r 2 0 - r 0 2) * (r 0 1 - r 1 0) + (r 1 2 - r 2 1) * (1 + r 0 0 + r 1 1 + r 2 2 + 1e-6)))
        - r 1 2 * ((r 1 2 - r 2 1) ^ 2 + (r 2 0 - r 0 2) ^ 2 + (r 0 1 - r 1 0) ^ 2 + (1 + r 0 0 + r 1 1 + r 2 2 + 1e-6) ^ 2)
        = 1e-6 * (2 * (r 1 2 - r 2 1) - 2 * (1 + r 0 0 + r 1 1 + r 2 2) * r 1 2)
          + 1e-12 * (0 - r 1 2) := by
      linear_combination (-2) * h12 + (-2) * g12 + (-2) * adj12 + (-2) * adj21
        - r 1 2 * ((1) * h00 + (1) * h11 + (1) * h22 + (-2) * adj00 + (-2) * adj11 + (-2) * adj22)
    exact c5_final _ (2 * ((r 2 0 - r 0 2) * (r 0 1 - r 1 0) + (r 1 2 - r 2 1) * (1 + r 0 0 + r 1 1 + r 2 2 + 1e-6))) (r 1 2) hS4
      (by rw [hd12]
          exact c5_num (1 + r 0 0 + r 1 1 + r 2 2) (r 1 2) (2 * (r 1 2 - r 2 1)) 0 (by linarith) hP4
            (rot_entry_abs_le_one horth 1 2) (abs_two_mul_le_eight _ hw0) (by norm_num))
  · show |quaternions_to_so3_matrix (quatCases r 3) 2 0 - r 2 0| ≤ 1e-5
    rw [hM 2 0]
    have hd20 : (2 * ((r 1 2 - r 2 1) * (r 0 1 - r 1 0) + (r 2 0 - r 0 2) * (1 + r 0 0 + r 1 1 + r 2 2 + 1e-6)))
        - r 2 0 * ((r 1 2 - r 2 1) ^ 2 + (r 2 0 - r 0 2) ^ 2 + (r 0 1 - r 1 0) ^ 2 + (1 + r 0 0 + r 1 1 + r 2 2 + 1e-6) ^ 2)
        = 1e-6 * (2 * (r 2 0 - r 0 2) - 2 * (1 + r 0 0 + r 1 1 + r 2 2) * r 2 0)
          + 1e-12 * (0 - r 2 0) := by
      linear_combination (-2) * h02 + (-2) * g02 + (-2) * adj02 + (-2) * adj20
        - r 2 0 * ((1) * h00 + (1) * h11 + (1) * h22 + (-2) * adj00 + (-2) * adj11 + (-2) * adj22)
    exact c5_final _ (2 * ((r 1 2 - r 2 1) * (r 0 1 - r 1 0) + (r 2 0 - r 0 2) * (1 + r 0 0 + r 1 1 + r 2 2 + 1e-6))) (r 2 0) hS4
      (by rw [hd20]
          exact c5_num (1 + r 0 0 + r 1 1 + r 2 2) (r 2 0) (2 * (r 2 0 - r 0 2)) 0 (by linarith) hP4
            (rot_entry_abs_le_one horth 2 0) (abs_two_mul_le_eight _ hw1) (by norm_num))
  · show |quaternions_to_so3_matrix (quatCases r 3) 2 1 - r 2 1| ≤ 1e-5
    rw [hM 2 1]
    have hd21 : (2 * ((r 2 0 - r 0 2) * (r 0 1 - r 1 0) - (r 1 2 - r 2 1) * (1 + r 0 0 + r 1 1 + r 2 2 + 1e-6)))
        - r 2 1 * ((r 1 2 - r 2 1) ^ 2 + (r 2 0 - r 0 2) ^ 2 + (r 0 1 - r 1 0) ^ 2 + (1 + r 0 0 + r 1 1 + r 2 2 + 1e-6) ^ 2)
        = 1e-6 * (2 * (-(r 1 2 - r 2 1)) - 2 * (1 + r 0 0 + r 1 1 + r 2 2) * r 2 1)
          + 1e-12 * (0 - r 2 1) := by
      linear_combination (-2) * h12 + (-2) * g12 + (-2) * adj12 + (-2) * adj21
        - r 2 1 * ((1) * h00 + (1) * h11 + (1) * h22 + (-2) * adj00 + (-2) * adj11 + (-2) * adj22)
    exact c5_final _ (2 * ((r 2 0 - r 0 2) * (r 0 1 - r 1 0) - (r 1 2 - r 2 1) * (1 + r 0 0 + r 1 1 + r 2 2 + 1e-6))) (r 2 1) hS4
      (by rw [hd21]
          exact c5_num (1 + r 0 0 + r 1 1 + r 2 2) (r 2 1) (2 * (-(r 1 2 - r 2 1))) 0 (by linarith) hP4
            (rot_entry_abs_le_one horth 2 1) (abs_two_mul_le_eight _ (by rw [abs_neg]; exact hw0)) (by norm_num))
  · show |quaternions_to_so3_matrix (quatCases r 3) 2 2 - r 2 2| ≤ 1e-5
    rw [hM 2 2]
    have hd22 : (-(r 1 2 - r 2 1) * (r 1 2 - r 2 1) - (r 2 0 - r 0 2) * (r 2 0 - r 0 2) + (r 0 1 - r 1 0) * (r 0 1 - r 1 0) + (1 + r 0 0 + r 1 1 + r 2 2 + 1e-6) * (1 + r 0 0 + r 1 1 + r 2 2 + 1e-6))
        - r 2 2 * ((r 1 2 - r 2 1) ^ 2 + (r 2 0 - r 0 2) ^ 2 + (r 0 1 - r 1 0) ^ 2 + (1 + r 0 0 + r 1 1 + r 2 2 + 1e-6) ^ 2)
        = 1e-6 * (2 * (1 + r 0 0 + r 1 1 + r 2 2) - 2 * (1 + r 0 0 + r 1 1 + r 2 2) * r 2 2)
          + 1e-12 * (1 - r 2 2) := by
      linear_combination (1) * h00 + (1) * h11 + (-1) * h22 + (-2) * g22 + (2) * adj00 + (2) * adj11 + (-2) * adj22
        - r 2 2 * ((1) * h00 + (1) * h11 + (1) * h22 + (-2) * adj00 + (-2) * adj11 + (-2) * adj22)
    exact c5_final _ (-(r 1 2 - r 2 1) * (r 1 2 - r 2 1) - (r 2 0 - r 0 2) * (r 2 0 - r 0 2) + (r 0 1 - r 1 0) * (r 0 1 - r 1 0) + (1 + r 0 0 + r 1 1 + r 2 2 + 1e-6) * (1 + r 0 0 + r 1 1 + r 2 2 + 1e-6)) (r 2 2) hS4
      (by rw [hd22]
          exact c5_num (1 + r 0 0 + r 1 1 + r 2 2) (r 2 2) (2 * (1 + r 0 0 + r 1 1 + r 2 2)) 1 (by linarith) hP4
            (rot_entry_abs_le_one horth 2 2) (abs_two_mul_le_eight _ hwP) (by norm_num))

theorem c5_selected {r : M3} (horth : rᵀ * r = 1) (hdet : r.det = 1) (sel : Fin 4)
    (hsel : ∀ i, quatDenom r i ≤ quatDenom r sel) (a b : Fin 3) :
    |quaternions_to_so3_matrix (quatCases r sel) a b - r a b| ≤ 1e-5 := by
  have hnn := quatPre_nonneg horth hdet
  have hmono : ∀ i : Fin 4, |quatDenomPre r i| ≤ |quatDenomPre r sel| := by
    intro i
    have h1 := hsel i
    simp only [quatDenom] at h1
    have h2 : Real.sqrt (1e-6 + |quatDenomPre r i|)
        ≤ Real.sqrt (1e-6 + |quatDenomPre r sel|) := by linarith
    have h4 := mul_self_le_mul_self
      (Real.sqrt_nonneg (1e-6 + |quatDenomPre r i|)) h2
    rw [Real.mul_self_sqrt (by positivity), Real.mul_self_sqrt (by positivity)] at h4
    linarith
  have hsum : quatDenomPre r 0 + quatDenomPre r 1 + quatDenomPre r 2
      + quatDenomPre r 3 = 4 := by
    simp [quatDenomPre]
    ring
  have habs : (1:ℝ) ≤ |quatDenomPre r sel| := by
    have l0 := le_abs_self (quatDenomPre r 0)
    have l1 := le_abs_self (quatDenomPre r 1)
    have l2 := le_abs_self (quatDenomPre r 2)
    have l3 := le_abs_self (quatDenomPre r 3)
    have k0 := hmono 0
    have k1 := hmono 1
    have k2 := hmono 2
    have k3 := hmono 3
    linarith
  have hp : (1:ℝ) ≤ quatDenomPre r sel := by
    rw [abs_of_nonneg (hnn sel)] at habs
    exact habs
  fin_cases sel
  · exact c5_case0 horth hdet hp a b
  · exact c5_case1 horth hdet hp a b
  · exact c5_case2 horth hdet hp a b
  · exact c5_case3 horth hdet hp a b

/-! ### Claim theorems -/

/-- C1 (amended): for every algebra vector v with 1e-20 ≤ ‖v‖ < π, applying
so3_log to so3_exp(v) recovers the algebra element of v exactly:
so3_vee(so3_log(so3_exp(v))) = v.  (The lower bound 1e-20 ≤ ‖v‖ is forced:
at v = 0 the code produces a NaN matrix, see the counterexample.) -/
theorem claim_C1_roundtrip (v : V3) (hlo : (1e-20 : ℝ) ≤ norm3 v)
    (hhi : norm3 v < π) : so3_vee (so3_log (so3_exp v)) = v := by
  rw [so3_log_exp (not_lt.mpr hlo) hhi, vee_hat]

theorem claim_C1_roundtrip_witness :
    (1e-20 : ℝ) ≤ norm3 ![1, 0, 0] ∧ norm3 ![1, 0, 0] < π ∧
      so3_vee (so3_log (so3_exp ![1, 0, 0])) = ![1, 0, 0] := by
  have hn : norm3 ![1, 0, 0] = 1 := by
    simp [norm3]
  exact ⟨by rw [hn]; norm_num, by rw [hn]; linarith [Real.pi_gt_three],
    claim_C1_roundtrip ![1, 0, 0] (by rw [hn]; norm_num)
      (by rw [hn]; linarith [Real.pi_gt_three])⟩

/-- C3: in so3_log, (i) whenever |cos θ| > 1 − 1e-5 the output is the
so3_log_pi result — this branch is applied last, so its write wins; (ii) the
near-zero condition θ < 1e-20 in fact forces |cos θ| > 1 − 1e-5, so the
near-π write always wins on those elements; (iii) where θ < 1e-20 holds and
the near-π condition does not, the output would use ratio = 1 + θ²/6 in
place of θ/sin θ; (iv) all other elements use the generic formula
(θ/sin θ)·½(r − rᵀ). -/
theorem claim_C3_log_branches (r : M3) :
    (1 - 1e-5 < |logCosTheta r| → so3_log r = so3_log_pi r (logTheta r)) ∧
    (logTheta r < 1e-20 → 1 - 1e-5 < |logCosTheta r|) ∧
    (logTheta r < 1e-20 ∧ ¬ (1 - 1e-5 < |logCosTheta r|) →
      so3_log r = (1 + logTheta r ^ 2 / 6) • ((2⁻¹ : ℝ) • (r - rᵀ))) ∧
    (¬ (1 - 1e-5 < |logCosTheta r|) ∧ ¬ (logTheta r < 1e-20) →
      so3_log r = (logTheta r / Real.sin (logTheta r)) • ((2⁻¹ : ℝ) • (r - rᵀ))) := by
  refine ⟨fun h => ?_, logTheta_small_implies_near_pi r, fun h => ?_, fun h => ?_⟩
  · simp only [so3_log]
    rw [if_pos h]
  · simp only [so3_log]
    rw [if_neg h.2, if_pos h.1]
  · simp only [so3_log]
    rw [if_neg h.1, if_neg h.2]

theorem claim_C3_witness :
    so3_log !![(1 : ℝ), 0, 0; 0, -1, 0; 0, 0, -1] =
      so3_log_pi !![(1 : ℝ), 0, 0; 0, -1, 0; 0, 0, -1]
        (logTheta !![(1 : ℝ), 0, 0; 0, -1, 0; 0, 0, -1]) := by
  have hcos : logCosTheta !![(1 : ℝ), 0, 0; 0, -1, 0; 0, 0, -1] = -1 := by
    unfold logCosTheta batch_trace
    rw [Matrix.trace_fin_three]
    norm_num
    exact clamp_of_le_of_le le_rfl (by norm_num)
  exact (claim_C3_log_branches _).1 (by rw [hcos]; norm_num)

/-- C1 counterexample: at v = (0,0,0), which satisfies ‖v‖ < π, the code
computes exp(0) = I exactly and then log(I) enters the near-π branch, whose
scalar θ²/(1−cos θ) = 0/0 is NaN; the NaN propagates to every output entry
(whatever index the argmin over the 8 NaN distances returns — 0 shown here),
so the roundtrip does not recover v = 0 within any tolerance. -/
theorem claim_C1_counterexample :
    norm3 ![0, 0, 0] < π ∧
      so3_veeN (so3_logN 0 (so3_expN (toVN ![0, 0, 0]))) 0 = none ∧
      ¬ ∃ y : ℝ, so3_veeN (so3_logN 0 (so3_expN (toVN ![0, 0, 0]))) 0 = some y ∧
          |y - 0| ≤ 1e-6 := by
  have h0 : so3_veeN (so3_logN 0 (so3_expN (toVN ![0, 0, 0]))) 0 = none := by
    rw [toVN_zero, so3_expN_zero]
    show mulN (some (-1)) (so3_logN 0 (toMN 1) 1 2) = none
    rw [so3_logN_one 0 1 2]
    rfl
  refine ⟨?_, h0, ?_⟩
  · have hz : norm3 ![0, 0, 0] = 0 := by simp [norm3]
    rw [hz]
    exact Real.pi_pos
  · rintro ⟨y, hy, _⟩
    rw [h0] at hy
    exact Option.noConfusion hy

/-- C2: so3_exp applied to the zero vector returns the 3×3 identity matrix
(first conjunct, as claimed); but so3_log applied to the 3×3 identity matrix
does not return the zero matrix: the near-π branch computes
θ²/(1−cos θ) = 0/0 = NaN at θ = 0 and every entry of the output is NaN, for
every possible argmin selection index (second conjunct) — a code bug. -/
theorem claim_C2_exp_zero_log_identity :
    so3_exp ![0, 0, 0] = 1 ∧
      ∀ (sel : Fin 8) (i j : Fin 3), so3_logN sel (toMN 1) i j = none := by
  constructor
  · apply so3_exp_of_small
    have hz : norm3 ![0, 0, 0] = 0 := by simp [norm3]
    rw [hz]
    norm_num
  · exact so3_logN_one


/-- C8: so3_xset divides by the input norm without a guard: at v = (0,0,0)
the division is 0/0, so every component of every variant is NaN (first
conjunct); for every v with ‖v‖ ≠ 0 the computation is NaN-free and agrees
with the exact model (second conjunct) — nonzero v is the unstated
precondition of the helper. -/
theorem claim_C8_xset_zero_nan :
    (∀ (k_max : ℕ) (j : Fin (2 * k_max + 1)) (i : Fin 3),
      so3_xsetN (toVN ![0, 0, 0]) k_max j i = none) ∧
    (∀ (v : V3), norm3 v ≠ 0 → ∀ (k_max : ℕ) (j : Fin (2 * k_max + 1)) (i : Fin 3),
      so3_xsetN (toVN v) k_max j i = some (so3_xset v k_max j i)) := by
  constructor
  · intro k_max j i
    rw [toVN_zero]
    simp [so3_xsetN, norm3N_zero, divN, mulN]
  · intro v hv k_max j i
    simp only [so3_xsetN, norm3N_toVN, toVN, divN, mulN, addN]
    rw [if_neg hv]
    rfl

theorem claim_C8_witness :
    norm3 ![1, 0, 0] ≠ 0 ∧
      so3_xsetN (toVN ![1, 0, 0]) 0 0 0 = some (so3_xset ![1, 0, 0] 0 0 0) := by
  have hn : norm3 ![1, 0, 0] = 1 := by simp [norm3]
  have h1 : norm3 ![1, 0, 0] ≠ 0 := by
    rw [hn]
    norm_num
  exact ⟨h1, claim_C8_xset_zero_nan.2 ![1, 0, 0] h1 0 0 0⟩


/-- C6 (amended): for every nonzero v, every k_max and every index j of the
2·k_max+1 output slots (with k = j − k_max ∈ [−k_max, k_max]): the variant is
the scalar multiple (‖v‖ + 2πk)/‖v‖ · v of v — i.e. it lies on the line of
v/‖v‖, with direction v/‖v‖ exactly when ‖v‖ + 2πk > 0 — its norm is
|‖v‖ + 2πk| (not ‖v‖ + 2πk, which is negative for small ‖v‖ and k < 0), and
so3_exp of the variant agrees with so3_exp v entrywise within 1e-6 (exactly
except where the 1e-20 axis-masking threshold separates the two). -/
theorem claim_C6_xset_coset (v : V3) (hv : norm3 v ≠ 0) (k_max : ℕ)
    (j : Fin (2 * k_max + 1)) :
    (so3_xset v k_max j = fun i =>
      v i * ((norm3 v + 2 * π * ((j : ℕ) - (k_max : ℕ) : ℤ)) / norm3 v)) ∧
    norm3 (so3_xset v k_max j) = |norm3 v + 2 * π * ((j : ℕ) - (k_max : ℕ) : ℤ)| ∧
    ∀ a b : Fin 3, |so3_exp (so3_xset v k_max j) a b - so3_exp v a b| ≤ 1e-6 := by
  refine ⟨so3_xset_eq_scale v k_max j, norm3_xset hv k_max j, ?_⟩
  intro a b
  have hper_s : Real.sin (norm3 v + 2 * π * ((j : ℕ) - (k_max : ℕ) : ℤ)) =
      Real.sin (norm3 v) := by
    rw [show norm3 v + 2 * π * ((((j : ℕ) : ℤ) - ((k_max : ℕ) : ℤ) : ℤ) : ℝ) =
      norm3 v + ((((j : ℕ) : ℤ) - ((k_max : ℕ) : ℤ) : ℤ) : ℝ) * (2 * π) by ring]
    exact Real.sin_add_int_mul_two_pi _ _
  have hper_c : Real.cos (norm3 v + 2 * π * ((j : ℕ) - (k_max : ℕ) : ℤ)) =
      Real.cos (norm3 v) := by
    rw [show norm3 v + 2 * π * ((((j : ℕ) : ℤ) - ((k_max : ℕ) : ℤ) : ℤ) : ℝ) =
      norm3 v + ((((j : ℕ) : ℤ) - ((k_max : ℕ) : ℤ) : ℤ) : ℝ) * (2 * π) by ring]
    exact Real.cos_add_int_mul_two_pi _ _
  have hnn : 0 ≤ norm3 v := norm3_nonneg v
  by_cases hn : norm3 v < 1e-20
  · by_cases hcs : |norm3 v + 2 * π * ((j : ℕ) - (k_max : ℕ) : ℤ)| < 1e-20
    · rw [so3_exp_of_small hn,
        so3_exp_of_small (show norm3 (so3_xset v k_max j) < 1e-20 by
          rw [norm3_xset hv k_max j]; exact hcs)]
      simp
      norm_num
    · rw [so3_exp_of_small hn]
      apply exp_entry_close_one
      · rw [norm3_xset hv k_max j]
        exact hcs
      · rw [norm3_xset hv k_max j, abs_sin_abs, hper_s]
        calc |Real.sin (norm3 v)| ≤ |norm3 v| := Real.abs_sin_le_abs
          _ = norm3 v := abs_of_nonneg hnn
          _ ≤ 1e-20 := le_of_lt hn
      · rw [norm3_xset hv k_max j, Real.cos_abs, hper_c]
        have hb := Real.one_sub_sq_div_two_le_cos (x := norm3 v)
        nlinarith
  · by_cases hcs : |norm3 v + 2 * π * ((j : ℕ) - (k_max : ℕ) : ℤ)| < 1e-20
    · rw [so3_exp_of_small (show norm3 (so3_xset v k_max j) < 1e-20 by
        rw [norm3_xset hv k_max j]; exact hcs)]
      rw [abs_sub_comm]
      apply exp_entry_close_one hn
      · rw [← hper_s]
        calc |Real.sin (norm3 v + 2 * π * ((j : ℕ) - (k_max : ℕ) : ℤ))| ≤
            |norm3 v + 2 * π * ((j : ℕ) - (k_max : ℕ) : ℤ)| := Real.abs_sin_le_abs
          _ ≤ 1e-20 := le_of_lt hcs
      · rw [← hper_c]
        have hb := Real.one_sub_sq_div_two_le_cos
          (x := norm3 v + 2 * π * ((j : ℕ) - (k_max : ℕ) : ℤ))
        nlinarith [sq_abs (norm3 v + 2 * π * ((j : ℕ) - (k_max : ℕ) : ℤ)),
          abs_nonneg (norm3 v + 2 * π * ((j : ℕ) - (k_max : ℕ) : ℤ))]
    · rw [so3_xset_eq_scale v k_max j, exp_scale_eq hn hcs hper_s hper_c]
      simp
      norm_num

theorem claim_C6_witness :
    norm3 ![1, 0, 0] ≠ 0 ∧
      |so3_exp (so3_xset ![1, 0, 0] 0 0) 0 0 - so3_exp ![1, 0, 0] 0 0| ≤ 1e-6 := by
  have hn : norm3 ![1, 0, 0] = 1 := by simp [norm3]
  have h1 : norm3 ![1, 0, 0] ≠ 0 := by
    rw [hn]
    norm_num
  exact ⟨h1, (claim_C6_xset_coset ![1, 0, 0] h1 0 0).2.2 0 0⟩

/-- C6 counterexample: the claim says the variant for k has norm ‖v‖ + 2πk;
for v = (1,0,0), k_max = 1 and the slot j = 0 (k = −1) the actual norm is
|1 − 2π| = 2π − 1, not 1 + 2π·(−1) < 0, so the claim as stated is false. -/
theorem claim_C6_counterexample :
    norm3 (so3_xset ![1, 0, 0] 1 0) ≠ norm3 ![1, 0, 0] + 2 * π * (-1) := by
  have hn : norm3 ![1, 0, 0] = 1 := by simp [norm3]
  have h1 : norm3 ![1, 0, 0] ≠ 0 := by
    rw [hn]
    norm_num
  have hpi := Real.pi_gt_three
  rw [norm3_xset h1 1 0, hn]
  have hcast : ((((0 : Fin 3) : ℕ) : ℤ) - ((1 : ℕ) : ℤ) : ℤ) = -1 := by decide
  rw [show ((((0 : Fin 3) : ℕ) - ((1 : ℕ) : ℕ) : ℤ) : ℝ) = ((-1 : ℤ) : ℝ) from
    congrArg Int.cast hcast]
  push_cast
  rw [abs_of_neg (by nlinarith : (1 : ℝ) + 2 * π * (-1) < 0)]
  intro heq
  nlinarith


/-- C4: every group matrix produced by so3_exp (for any algebra vector) and
by quaternions_to_so3_matrix (for any nonzero quaternion) is a valid rotation
matrix, exactly: Rᵀ·R = I and det R = 1 (stronger than the 1e-6 tolerance of
the claim). -/
theorem claim_C4_rotation_matrices :
    (∀ v : V3, (so3_exp v)ᵀ * so3_exp v = 1 ∧ (so3_exp v).det = 1) ∧
    (∀ q : Fin 4 → ℝ, q ≠ 0 →
      (quaternions_to_so3_matrix q)ᵀ * quaternions_to_so3_matrix q = 1 ∧
        (quaternions_to_so3_matrix q).det = 1) := by
  constructor
  · intro v
    by_cases hn : norm3 v < 1e-20
    · rw [so3_exp_of_small hn]
      exact ⟨by rw [Matrix.transpose_one, one_mul], Matrix.det_one⟩
    · have hu := unit_axis_sq (ne_of_gt (norm3_pos hn))
      rw [so3_exp_of_ge hn]
      exact ⟨rodrigues_orthog hu (norm3 v), rodrigues_det hu (norm3 v)⟩
  · intro q hq
    have hu := quat_unit hq
    constructor
    · simp only [quaternions_to_so3_matrix]
      exact quatMat_orthog hu
    · simp only [quaternions_to_so3_matrix]
      exact quatMat_det hu

theorem claim_C4_witness :
    (![0, 0, 0, 1] : Fin 4 → ℝ) ≠ 0 ∧
      (quaternions_to_so3_matrix ![0, 0, 0, 1])ᵀ *
        quaternions_to_so3_matrix ![0, 0, 0, 1] = 1 ∧
      (quaternions_to_so3_matrix ![0, 0, 0, 1]).det = 1 := by
  have hne : (![0, 0, 0, 1] : Fin 4 → ℝ) ≠ 0 := by
    intro h
    have h3 := congrFun h 3
    simp at h3
  exact ⟨hne, (claim_C4_rotation_matrices.2 ![0, 0, 0, 1] hne).1,
    (claim_C4_rotation_matrices.2 ![0, 0, 0, 1] hne).2⟩


/-- C9: the middle ZYZ Euler angle produced by quaternions_to_eazyz (and
hence by so3_matrix_to_eazyz) lies strictly inside (0, π) for every input,
because the arccos argument is clamped to [−1 + 1e-6, 1 − 1e-6]; and for the
identity rotation the middle angle equals acos(1 − 1e-6) (≈ 1.4e-3), not 0. -/
theorem claim_C9_middle_angle :
    (∀ q : Fin 4 → ℝ, 0 < quaternions_to_eazyz q 1 ∧ quaternions_to_eazyz q 1 < π) ∧
    (∀ r : M3, 0 < so3_matrix_to_eazyz r 1 ∧ so3_matrix_to_eazyz r 1 < π) ∧
    so3_matrix_to_eazyz 1 1 = Real.arccos (1 - 1e-6) := by
  have key : ∀ q : Fin 4 → ℝ,
      0 < quaternions_to_eazyz q 1 ∧ quaternions_to_eazyz q 1 < π := by
    intro q
    rw [eazyz_middle]
    constructor
    · apply Real.arccos_pos.mpr
      calc clamp (q 3 ^ 2 - q 0 ^ 2 - q 1 ^ 2 + q 2 ^ 2) (-1 + 1e-6) (1 - 1e-6) ≤
          1 - 1e-6 := clamp_le_hi (by norm_num)
        _ < 1 := by norm_num
    · apply arccos_lt_pi_of_gt
      calc (-1 : ℝ) < -1 + 1e-6 := by norm_num
        _ ≤ clamp (q 3 ^ 2 - q 0 ^ 2 - q 1 ^ 2 + q 2 ^ 2) (-1 + 1e-6) (1 - 1e-6) :=
          lo_le_clamp
  refine ⟨key, fun r => key _, ?_⟩
  show quaternions_to_eazyz (so3_matrix_to_quaternions 1) 1 = Real.arccos (1 - 1e-6)
  rw [m2q_one, eazyz_middle]
  congr 1
  have hsq : (2⁻¹ * Real.sqrt (1e-6 + 4)) ^ 2 = (1e-6 + 4) / 4 := by
    rw [mul_pow, Real.sq_sqrt (by norm_num : (0 : ℝ) ≤ 1e-6 + 4)]
    norm_num
  rw [show ((![0, 0, 0, 2⁻¹ * Real.sqrt (1e-6 + 4)] : Fin 4 → ℝ) 3) ^ 2 -
      ((![0, 0, 0, 2⁻¹ * Real.sqrt (1e-6 + 4)] : Fin 4 → ℝ) 0) ^ 2 -
      ((![0, 0, 0, 2⁻¹ * Real.sqrt (1e-6 + 4)] : Fin 4 → ℝ) 1) ^ 2 +
      ((![0, 0, 0, 2⁻¹ * Real.sqrt (1e-6 + 4)] : Fin 4 → ℝ) 2) ^ 2 =
      (1e-6 + 4) / 4 by
    simp
    rw [hsq]]
  exact clamp_of_hi_le (by norm_num) (by norm_num)


/-- C7: with the external per-degree constant matrices J (not under src/)
modelled from the spec as involutions (spec §8 states the Wigner-D matrix at
zero angles is the identity; since D(0,0,0) = Z(0)·J·Z(0)·J·Z(0) = J·J, that
is exactly J·J = I): at every degree l the Wigner-D matrix of the zero Euler
angles is the identity, and for max_degree = 0 the block multiply applies the
1×1 matrix [[1]] (the degree-0 z-rotations are [[1]] for any angle), leaving
the single data block unchanged for any angles. -/
theorem claim_C7_wigner_zero :
    (∀ (l : ℕ) (J : Matrix (Fin (2 * l + 1)) (Fin (2 * l + 1)) ℝ), J * J = 1 →
      wigner_d_matrix l J 0 0 0 = 1) ∧
    (∀ (m : ℕ) (Js : (l : ℕ) → Matrix (Fin (2 * l + 1)) (Fin (2 * l + 1)) ℝ)
      (a b c : ℝ) (data : ℕ → Fin m → ℝ), Js 0 * Js 0 = 1 →
      wigner_d_matrix 0 (Js 0) a b c = 1 ∧
        block_wigner_matrix_multiply Js a b c 0 data = [fun col => data 0 col]) := by
  constructor
  · intro l J hJ
    rw [wigner_d_matrix_angles_zero, hJ]
  · intro m Js a b c data hJ
    have hD : wigner_d_matrix 0 (Js 0) a b c = 1 := by
      unfold wigner_d_matrix
      rw [z_rot_mat_deg_zero, z_rot_mat_deg_zero, z_rot_mat_deg_zero]
      simp only [Matrix.one_mul, Matrix.mul_one]
      exact hJ
    refine ⟨hD, ?_⟩
    unfold block_wigner_matrix_multiply
    rw [show List.range (0 + 1) = [0] from rfl]
    rw [List.flatMap_cons, List.flatMap_nil, List.append_nil]
    rw [show (List.ofFn fun rowIdx : Fin (2 * 0 + 1) => fun col =>
        ∑ j : Fin (2 * 0 + 1), wigner_d_matrix 0 (Js 0) a b c rowIdx j *
          data (blockStart 0 + (j : ℕ)) col) =
      [fun col => ∑ j : Fin 1, wigner_d_matrix 0 (Js 0) a b c 0 j *
          data (blockStart 0 + (j : ℕ)) col] from rfl]
    congr 1
    funext col
    rw [hD]
    simp [blockStart]

theorem claim_C7_witness :
    ((1 : Matrix (Fin (2 * 1 + 1)) (Fin (2 * 1 + 1)) ℝ) * 1 = 1) ∧
      wigner_d_matrix 1 (1 : Matrix (Fin (2 * 1 + 1)) (Fin (2 * 1 + 1)) ℝ) 0 0 0 = 1 :=
  ⟨mul_one 1, claim_C7_wigner_zero.1 1 1 (mul_one 1)⟩

/-- C10: for every max_degree L (and any J table, angles and data), the
output of block_wigner_matrix_multiply has exactly (L+1)² rows — the sum of
the block sizes 2·l+1 for l = 0..L — and it only reads the first (L+1)² rows
of the input: any rows beyond that are silently dropped (two inputs agreeing
on the first (L+1)² rows give identical outputs). -/
theorem claim_C10_block_shape :
    (∀ (m : ℕ) (Js : (l : ℕ) → Matrix (Fin (2 * l + 1)) (Fin (2 * l + 1)) ℝ)
      (a b c : ℝ) (L : ℕ) (data : ℕ → Fin m → ℝ),
      (block_wigner_matrix_multiply Js a b c L data).length = (L + 1) ^ 2) ∧
    (∀ (m : ℕ) (Js : (l : ℕ) → Matrix (Fin (2 * l + 1)) (Fin (2 * l + 1)) ℝ)
      (a b c : ℝ) (L : ℕ) (data data2 : ℕ → Fin m → ℝ),
      (∀ i, i < (L + 1) ^ 2 → data i = data2 i) →
      block_wigner_matrix_multiply Js a b c L data =
        block_wigner_matrix_multiply Js a b c L data2) := by
  constructor
  · intro m Js a b c L data
    unfold block_wigner_matrix_multiply
    rw [List.length_flatMap]
    have hmap : ∀ l ∈ List.range (L + 1),
        (List.length ∘ fun l => List.ofFn fun rowIdx : Fin (2 * l + 1) => fun col =>
          ∑ j : Fin (2 * l + 1), wigner_d_matrix l (Js l) a b c rowIdx j *
            data (blockStart l + (j : ℕ)) col) l = 2 * l + 1 := by
      intro l _
      simp [Function.comp, List.length_ofFn]
    rw [List.map_congr_left hmap]
    exact block_length_core (L + 1)
  · intro m Js a b c L data data2 hagree
    unfold block_wigner_matrix_multiply
    apply List.flatMap_congr
    intro l hl
    have hlL : l < L + 1 := List.mem_range.mp hl
    congr 1
    funext rowIdx col
    apply Finset.sum_congr rfl
    intro j _
    rw [hagree (blockStart l + (j : ℕ)) (blockStart_bound hlL (j : ℕ) j.isLt)]

theorem claim_C10_witness :
    (block_wigner_matrix_multiply (fun l => (1 : Matrix (Fin (2 * l + 1))
        (Fin (2 * l + 1)) ℝ)) 0 0 0 1 (fun _ => fun _ : Fin 1 => 0)).length =
      (1 + 1) ^ 2 ∧
    block_wigner_matrix_multiply (fun l => (1 : Matrix (Fin (2 * l + 1))
        (Fin (2 * l + 1)) ℝ)) 0 0 0 1 (fun i => fun _ : Fin 1 => (i : ℝ)) =
      block_wigner_matrix_multiply (fun l => (1 : Matrix (Fin (2 * l + 1))
        (Fin (2 * l + 1)) ℝ)) 0 0 0 1
        (fun i => fun _ : Fin 1 => if i < (1 + 1) ^ 2 then (i : ℝ) else 37) := by
  constructor
  · exact claim_C10_block_shape.1 1 _ 0 0 0 1 _
  · apply claim_C10_block_shape.2 1 _ 0 0 0 1
    intro i hi
    funext col
    rw [if_pos hi]

/-- C5: for every valid rotation matrix `r` (`rᵀ * r = 1`, `det r = 1`), the
round-trip `quaternions_to_so3_matrix (so3_matrix_to_quaternions r)` recovers
`r` entrywise within `1e-5` — and this holds regardless of which of the four
largest-denominator branch cases is selected: every case index whose
denominator is maximal gives a round-trip within the same tolerance.  (The
true error is at most `4e-6 + 5e-13`, coming from the `1e-6` regulariser
inside the square root of the denominators.) -/
theorem claim_C5_quaternion_roundtrip {r : M3} (horth : rᵀ * r = 1)
    (hdet : r.det = 1) :
    (∀ a b : Fin 3,
        |quaternions_to_so3_matrix (so3_matrix_to_quaternions r) a b - r a b|
          ≤ 1e-5) ∧
      ∀ sel : Fin 4, (∀ i, quatDenom r i ≤ quatDenom r sel) →
        ∀ a b : Fin 3,
          |quaternions_to_so3_matrix (quatCases r sel) a b - r a b| ≤ 1e-5 :=
  ⟨fun a b =>
    c5_selected horth hdet (argmaxF (quatDenom r))
      (fun i => argmaxF_ge (quatDenom r) i) a b,
    fun sel hsel a b => c5_selected horth hdet sel hsel a b⟩

/-- Witness for C5 at the identity rotation. -/
theorem claim_C5_witness :
    |quaternions_to_so3_matrix (so3_matrix_to_quaternions 1) 0 0 -
      (1 : M3) 0 0| ≤ 1e-5 :=
  (claim_C5_quaternion_roundtrip (by simp) (by simp)).1 0 0
